import Mathlib

/-!
# Spring engine: the synced read API (rts/Lua/LuaSyncedRead.cpp)

A shallow embedding of the read-only query layer of the Spring RTS engine and
theorems about it.  Every definition that embeds a source function carries the
name of that function and the source lines it was translated from.

Conventions of the embedding.

* A Lua C function returns the number of values it pushed.  The embedding
  returns the pushed values themselves: a list of `LuaValue` for scalar
  results, an `Option` of a table for table results (`none` / `[]` is the
  "zero results" outcome `return 0`).
* `luaL_error` never returns; it is the `Except.error` outcome, carrying the
  formatted message.
* C `float` fields are modelled as exact rationals; they are only stored,
  compared, multiplied and divided by the functions embedded here.  The one
  float division, in GetUnitHealth, has no test of its divisor; its result is
  a `CFloat`, which carries the values IEEE 754 arithmetic gives at a zero
  divisor.
* Engine state lives in explicit records (`World`, `lua_State`) instead of the
  global singletons `teamHandler`, `unitHandler`, `featureHandler`, `game`.
* The helpers of `LuaUtils.h`, which is not part of the sources, are the
  fields of the record `LuaUtils`; the embedded functions take it as a
  parameter, so results about them hold for every implementation of the
  helpers unless a theorem fixes one.
-/

namespace Spring

/-! ## Lua values and tables -/

/-- Values that the embedded functions push on the Lua stack. -/
inductive LuaValue where
  | nil
  | number (x : ℚ)
  | boolean (b : Bool)
  | string (s : String)
deriving DecidableEq

/-- Keys of a Lua table: integer keys written by `lua_rawseti`, string keys
written by `lua_rawset` after pushing a string. -/
inductive LuaKey where
  | int (i : Int)
  | str (s : String)
deriving DecidableEq

/-- A Lua table with values of type `V`, as a list of bindings.  `rawset` keeps
at most one binding per key, like a Lua table. -/
abbrev LuaTable (V : Type) := List (LuaKey × V)

/-- The Lua operation `t[k] = v` (lua_rawset / lua_rawseti): any previous
binding of `k` is replaced. -/
def LuaTable.rawset {V : Type} (t : LuaTable V) (k : LuaKey) (v : V) : LuaTable V :=
  t.filter (fun e => !decide (e.1 = k)) ++ [(k, v)]

/-- The Lua operation `t[k]` (lua_rawget): `none` when the key is absent. -/
def LuaTable.rawget {V : Type} (t : LuaTable V) (k : LuaKey) : Option V :=
  (t.find? (fun e => decide (e.1 = k))).map Prod.snd

/-! ## Constants -/

/-- LOS_INLOS: bit value documented at Spring.GetUnitLosState (source line 7369). -/
def LOS_INLOS : Nat := 1
/-- LOS_INRADAR: bit value documented at Spring.GetUnitLosState (source line 7370). -/
def LOS_INRADAR : Nat := 2
/-- LOS_PREVLOS: bit value documented at Spring.GetUnitLosState (source line 7371). -/
def LOS_PREVLOS : Nat := 4
/-- LOS_CONTRADAR: bit value documented at Spring.GetUnitLosState (source line 7372). -/
def LOS_CONTRADAR : Nat := 8

namespace LuaRulesParams

/-- Modelled from the spec: the enum of LuaRulesParams.h is not part of the
sources.  Spec §6: "an ordered set of named bit tiers (private, allied, inlos,
typed, inradar, public), combinable via bitwise OR into a disclosure mask".
The six tiers are the six lowest bits, in the order the spec lists them. -/
def RULESPARAMLOS_PRIVATE : Nat := 1
/-- Modelled from the spec: second tier bit, see RULESPARAMLOS_PRIVATE. -/
def RULESPARAMLOS_ALLIED : Nat := 2
/-- Modelled from the spec: third tier bit, see RULESPARAMLOS_PRIVATE. -/
def RULESPARAMLOS_INLOS : Nat := 4
/-- Modelled from the spec: fourth tier bit, see RULESPARAMLOS_PRIVATE. -/
def RULESPARAMLOS_TYPED : Nat := 8
/-- Modelled from the spec: fifth tier bit, see RULESPARAMLOS_PRIVATE. -/
def RULESPARAMLOS_INRADAR : Nat := 16
/-- Modelled from the spec: sixth tier bit, see RULESPARAMLOS_PRIVATE. -/
def RULESPARAMLOS_PUBLIC : Nat := 32

/-- Modelled from the spec: the mask constants of LuaRulesParams.h are not part
of the sources.  Spec §8: "the mask for LOS is a superset of the mask for typed,
which is a superset of radar-only, which is a superset of public-only"; each
mask is the bitwise OR of its own tier and of every tier after it. -/
def RULESPARAMLOS_PUBLIC_MASK : Nat := RULESPARAMLOS_PUBLIC
/-- Modelled from the spec: in-radar tier and below, see RULESPARAMLOS_PUBLIC_MASK. -/
def RULESPARAMLOS_INRADAR_MASK : Nat := RULESPARAMLOS_INRADAR ||| RULESPARAMLOS_PUBLIC_MASK
/-- Modelled from the spec: typed tier and below, see RULESPARAMLOS_PUBLIC_MASK. -/
def RULESPARAMLOS_TYPED_MASK : Nat := RULESPARAMLOS_TYPED ||| RULESPARAMLOS_INRADAR_MASK
/-- Modelled from the spec: in-LOS tier and below, see RULESPARAMLOS_PUBLIC_MASK. -/
def RULESPARAMLOS_INLOS_MASK : Nat := RULESPARAMLOS_INLOS ||| RULESPARAMLOS_TYPED_MASK
/-- Modelled from the spec: allied tier and below, see RULESPARAMLOS_PUBLIC_MASK. -/
def RULESPARAMLOS_ALLIED_MASK : Nat := RULESPARAMLOS_ALLIED ||| RULESPARAMLOS_INLOS_MASK
/-- Modelled from the spec: the maximal mask (spec §4.1), every tier. -/
def RULESPARAMLOS_PRIVATE_MASK : Nat := RULESPARAMLOS_PRIVATE ||| RULESPARAMLOS_ALLIED_MASK

/-- The payload of a rules parameter: std::variant of float, bool, std::string
(the three alternatives visited at source lines 686-694 and 714-722). -/
inductive Value where
  | number (x : ℚ)
  | boolean (b : Bool)
  | string (s : String)
deriving DecidableEq

/-- LuaRulesParams::Param: a value tagged with its visibility level bitmask
(the fields `los` and `value` read at source lines 683-694). -/
structure Param where
  los : Nat
  value : Value
deriving DecidableEq

/-- LuaRulesParams::Params, a map from key to Param.  The bindings are kept in
a list together with the map invariant that no key occurs twice. -/
structure Params where
  entries : List (String × Param)
  nodup : (entries.map Prod.fst).Nodup

/-- The lookup `params.find(key)`; `none` stands for `params.end()`. -/
def Params.find (params : Params) (key : String) : Option Param :=
  params.entries.lookup key

end LuaRulesParams

open LuaRulesParams

namespace CEventClient

/-- Modelled from the spec: CEventClient::NoAccessTeam is not declared in the
sources.  Spec §3: the caller's read-allyteam may be a "sentinel value meaning
no access"; the source tests for it with `GetHandleReadAllyTeam(L) < 0`
(lines 1040, 1096), so it is negative. -/
def NoAccessTeam : Int := -1
/-- Modelled from the spec: CEventClient::AllAccessTeam, the second negative
sentinel of spec §3 ("all access"). -/
def AllAccessTeam : Int := -2

end CEventClient

/-! ## Engine state -/

/-- The Lua state `L` handed to every API function, reduced to what the
embedded functions read from it: the access context of the owning handle
(CLuaHandle::GetHandleReadTeam, GetHandleReadAllyTeam, GetHandleFullRead,
GetHandleSynced) and the interpreter's string-to-number coercion, which decides
`lua_isnumber` and `lua_tonumber` on string arguments. -/
structure lua_State where
  readTeam : Int
  readAllyTeam : Int
  fullRead : Bool
  synced : Bool
  str2number : String → Option ℚ

/-- UnitDef, with the fields the embedded functions read.  `decoyDef` is a
pointer to another UnitDef, null (`none`) when the definition is no decoy;
`buildOptions` maps a slot number to the name of a definition this one can
build. -/
inductive UnitDef where
  | mk (id : Nat) (health : ℚ) (hideDamage : Bool) (decoyDef : Option UnitDef)
      (name : String) (buildOptions : List (Int × String))

/-- The field `id` of a UnitDef. -/
def UnitDef.id : UnitDef → Nat
  | .mk i _ _ _ _ _ => i

/-- The field `health` of a UnitDef. -/
def UnitDef.health : UnitDef → ℚ
  | .mk _ h _ _ _ _ => h

/-- The field `hideDamage` of a UnitDef. -/
def UnitDef.hideDamage : UnitDef → Bool
  | .mk _ _ b _ _ _ => b

/-- The field `decoyDef` of a UnitDef. -/
def UnitDef.decoyDef : UnitDef → Option UnitDef
  | .mk _ _ _ d _ _ => d

/-- The field `name` of a UnitDef. -/
def UnitDef.name : UnitDef → String
  | .mk _ _ _ _ n _ => n

/-- The field `buildOptions` of a UnitDef. -/
def UnitDef.buildOptions : UnitDef → List (Int × String)
  | .mk _ _ _ _ _ b => b

/-- The vector type float3, with the components the embedded functions read. -/
structure float3 where
  x : ℚ
  y : ℚ
  z : ℚ
deriving DecidableEq

/-- The default-constructed float3, which has every component zero. -/
def float3.zero : float3 := { x := 0, y := 0, z := 0 }

/-- CWeapon, with the stockpile fields read by GetUnitStockpile. -/
structure CWeapon where
  numStockpiled : Int
  numStockpileQued : Int
  buildPercent : ℚ
deriving DecidableEq

/-- Command, with what PackCommand and the queue summaries read: GetID(),
GetOpts(), GetTag() and the parameters. -/
structure Command where
  id : Int
  options : Nat
  tag : Nat
  params : List ℚ
deriving DecidableEq

/-- CCommandAI, with its queue `commandQue`.  `newUnitCommands` is the second
queue of a CFactoryCAI; it is `none` when the dynamic cast to CFactoryCAI
fails. -/
structure CCommandAI where
  commandQue : List Command
  newUnitCommands : Option (List Command)
deriving DecidableEq

/-- The dynamic type of a unit as far as GetUnitIsBuilding tests it: a
CBuilder or a CFactory, each with the ID of the unit behind its `curBuild`
pointer (`none` for null), or neither. -/
inductive UnitType where
  | other
  | builder (curBuild : Option Int)
  | factory (curBuild : Option Int)
deriving DecidableEq

/-- CUnit, with the fields the embedded functions read.  `losStatus` is the
array indexed by allyteam.  `GetLuaErrorVector` is the method of that name,
whose body is not part of the sources.  `HasPhysicalStateBit` and
`HasCollidableStateBit` are the methods of CSolidObject that test a bit of the
physical and of the collidable state; `GetPosErrorBit` is the method that looks
up the position-error bit of an allyteam index. -/
structure CUnit where
  id : Int
  team : Int
  allyteam : Int
  unitDef : UnitDef
  losStatus : Nat → Nat
  health : ℚ
  maxHealth : ℚ
  paralyzeDamage : ℚ
  captureProgress : ℚ
  buildProgress : ℚ
  modParams : Params
  pos : float3
  midPos : float3
  aimPos : float3
  radius : ℚ
  GetLuaErrorVector : Int → Bool → float3
  experience : ℚ
  limExperience : ℚ
  isCloaked : Bool
  stockpileWeapon : Option CWeapon
  commandAI : CCommandAI
  unitType : UnitType
  HasPhysicalStateBit : Nat → Bool := fun _ => false
  HasCollidableStateBit : Nat → Bool := fun _ => false
  crushable : Bool := false
  blockEnemyPushing : Bool := true
  blockHeightChanges : Bool := false
  posErrorVector : float3 := float3.zero
  posErrorDelta : float3 := float3.zero
  nextPosErrorUpdate : Int := 1
  GetPosErrorBit : Int → Bool := fun _ => false

/-- CFeature, with the fields the embedded functions read.  `losStatus` is the
visibility status per allyteam of spec §3. -/
structure CFeature where
  id : Int
  team : Int
  allyteam : Int
  losStatus : Nat → Nat
  modParams : Params
  pos : float3
  midPos : float3
  aimPos : float3

/-- TeamStatistics, one entry of the statistics history of a team. -/
structure TeamStatistics where
  frame : Int
  metalUsed : ℚ := 0
  metalProduced : ℚ := 0
  metalExcess : ℚ := 0
  metalReceived : ℚ := 0
  metalSent : ℚ := 0
  energyUsed : ℚ := 0
  energyProduced : ℚ := 0
  energyExcess : ℚ := 0
  energyReceived : ℚ := 0
  energySent : ℚ := 0
  damageDealt : ℚ := 0
  damageReceived : ℚ := 0
  unitsProduced : Int := 0
  unitsDied : Int := 0
  unitsReceived : Int := 0
  unitsSent : Int := 0
  unitsCaptured : Int := 0
  unitsOutCaptured : Int := 0
  unitsKilled : Int := 0
deriving DecidableEq

/-- CTeam, with the fields the embedded functions read.  `statHistory` is the
list of statistics entries, oldest first. -/
structure CTeam where
  teamNum : Int
  modParams : Params
  statHistory : List TeamStatistics := []

/-- CGame: the state behind `game->IsGameOver()`. -/
structure CGame where
  IsGameOver : Bool

/-- The engine singletons read by the embedded functions.
`game` is `none` when the global pointer is null.  `IsValidTeam`, `Team`,
`AlliedTeams`, `AllyTeam` and `ActiveTeams` are teamHandler's methods; `units`
and `features` are the live objects of unitHandler and featureHandler;
`NumUnitDefs`, `decoyDefIDs` and `GetUnitDefByID` are unitDefHandler's
NumUnitDefs(), GetDecoyDefIDs() and GetUnitDefByID() (`none` for the null
pointer); `GetUnitsExact` is the candidate list that quadField.GetUnitsExact
delivers for a pair of corners; `ActiveAllyTeams` is teamHandler's method of
that name, the number of allyteams; `GetLuaSimFrame` is the frame number that
`gs->GetLuaSimFrame()` delivers. -/
structure World where
  game : Option CGame
  IsValidTeam : Int → Bool
  Team : Int → CTeam
  AlliedTeams : Int → Int → Bool
  AllyTeam : Int → Int
  units : List CUnit
  features : List CFeature
  NumUnitDefs : Nat
  decoyDefIDs : List (Nat × List Nat)
  ActiveTeams : Int
  GetUnitDefByID : Int → Option UnitDef
  GetUnitsExact : float3 → float3 → List CUnit
  ActiveAllyTeams : Int
  GetLuaSimFrame : Int

/-- The helpers of LuaUtils.h used by the embedded functions.  The header is
not part of the sources, so the helpers are parameters of the embedding. -/
structure LuaUtils where
  IsAlliedTeam : lua_State → Int → Bool
  IsAlliedAllyTeam : lua_State → Int → Bool
  IsAllyUnit : lua_State → CUnit → Bool
  IsEnemyUnit : lua_State → CUnit → Bool
  IsUnitVisible : lua_State → CUnit → Bool
  IsUnitInLos : lua_State → CUnit → Bool
  IsUnitTyped : lua_State → CUnit → Bool
  IsFeatureVisible : lua_State → CFeature → Bool
  EffectiveUnitDef : lua_State → CUnit → UnitDef

/-- The shared static scratch buffers of the team aggregate queries (source
lines 2348-2351); they persist from one call to the next. -/
structure Statics where
  gtuObjectIDs : List Int
  gtuDefCounts : List (Nat × Nat)

/-! ## Lua API primitives and registries -/

/-- The Lua API test `lua_isnumber`: true for a number and for a string that
the interpreter converts to a number. -/
def lua_isnumber (L : lua_State) (v : LuaValue) : Bool :=
  match v with
  | .number _ => true
  | .string s => (L.str2number s).isSome
  | _ => false

/-- The Lua API conversion `lua_tonumber`: 0 for a value that is no number. -/
def lua_tonumber (L : lua_State) (v : LuaValue) : ℚ :=
  match v with
  | .number x => x
  | .string s => (L.str2number s).getD 0
  | _ => 0

/-- The conversion `lua_toint` of LuaInclude.h (not part of the sources): the
number of `lua_tonumber` converted to a C int, taken here as the cast, which
truncates toward zero.  No result below depends on the rounding. -/
def lua_toint (L : lua_State) (v : LuaValue) : Int :=
  (lua_tonumber L v).num.tdiv (lua_tonumber L v).den

/-- Modelled from the spec: unitHandler.GetUnit is not part of the sources.
Spec §4.3: "O(1) lookup by stable ID"; an ID that resolves to no live unit
gives the null pointer. -/
def World.GetUnit (W : World) (id : Int) : Option CUnit :=
  W.units.find? (fun u => decide (u.id = id))

/-- Modelled from the spec: featureHandler.GetFeature is not part of the
sources.  Spec §4.3: "O(1) lookup by stable ID". -/
def World.GetFeature (W : World) (id : Int) : Option CFeature :=
  W.features.find? (fun f => decide (f.id = id))

/-- Modelled from the spec: unitHandler.GetUnitsByTeam is not part of the
sources.  Spec §4.3: partition index "by-team" of the live units. -/
def World.GetUnitsByTeam (W : World) (teamID : Int) : List CUnit :=
  W.units.filter (fun u => decide (u.team = teamID))

/-- Modelled from the spec: unitHandler.NumUnitsByTeam is not part of the
sources.  Spec §4.3: the maintained count of the by-team partition. -/
def World.NumUnitsByTeam (W : World) (teamID : Int) : Nat :=
  (W.GetUnitsByTeam teamID).length

/-- Modelled from the spec: unitHandler.GetUnitsByTeamAndDef is not part of the
sources.  Spec §4.3: partition index "by-(team,definitionID)"; the index is
keyed by the true definition of a unit. -/
def World.GetUnitsByTeamAndDef (W : World) (teamID : Int) (unitDefID : Nat) : List CUnit :=
  W.units.filter (fun u => decide (u.team = teamID) && decide (u.unitDef.id = unitDefID))

/-- Modelled from the spec: unitHandler.NumUnitsByTeamAndDef is not part of the
sources.  Spec §4.3: the maintained count of the by-(team,definitionID)
partition. -/
def World.NumUnitsByTeamAndDef (W : World) (teamID : Int) (unitDefID : Nat) : Nat :=
  (W.GetUnitsByTeamAndDef teamID unitDefID).length

/-! ## Parsing helpers (source lines 562-669) -/

/-- ParseRawUnit (source lines 562-570). -/
def ParseRawUnit (W : World) (L : lua_State) (caller : String) (arg : LuaValue) (index : Nat) :
    Except String (Option CUnit) :=
  if !lua_isnumber L arg then
    .error ("[" ++ caller ++ "] unitID (arg #" ++ toString index ++ ") not a number\n")
  else
    .ok (W.GetUnit (lua_toint L arg))

/-- ParseUnit (source lines 572-584). -/
def ParseUnit (H : LuaUtils) (W : World) (L : lua_State) (caller : String) (arg : LuaValue)
    (index : Nat) : Except String (Option CUnit) :=
  match ParseRawUnit W L caller arg index with
  | .error e => .error e
  | .ok none => .ok none
  | .ok (some unit) => if !H.IsUnitVisible L unit then .ok none else .ok (some unit)

/-- ParseAllyUnit (source lines 586-597). -/
def ParseAllyUnit (H : LuaUtils) (W : World) (L : lua_State) (caller : String) (arg : LuaValue)
    (index : Nat) : Except String (Option CUnit) :=
  match ParseRawUnit W L caller arg index with
  | .error e => .error e
  | .ok none => .ok none
  | .ok (some unit) => if !H.IsAllyUnit L unit then .ok none else .ok (some unit)

/-- ParseInLosUnit (source lines 599-610). -/
def ParseInLosUnit (H : LuaUtils) (W : World) (L : lua_State) (caller : String) (arg : LuaValue)
    (index : Nat) : Except String (Option CUnit) :=
  match ParseRawUnit W L caller arg index with
  | .error e => .error e
  | .ok none => .ok none
  | .ok (some unit) => if !H.IsUnitInLos L unit then .ok none else .ok (some unit)

/-- ParseTypedUnit (source lines 613-624). -/
def ParseTypedUnit (H : LuaUtils) (W : World) (L : lua_State) (caller : String) (arg : LuaValue)
    (index : Nat) : Except String (Option CUnit) :=
  match ParseRawUnit W L caller arg index with
  | .error e => .error e
  | .ok none => .ok none
  | .ok (some unit) => if !H.IsUnitTyped L unit then .ok none else .ok (some unit)

/-- ParseFeature (source lines 627-644). -/
def ParseFeature (H : LuaUtils) (W : World) (L : lua_State) (caller : String) (arg : LuaValue)
    (index : Nat) : Except String (Option CFeature) :=
  if !lua_isnumber L arg then
    .error ("[" ++ caller ++ "] featureID (arg #" ++ toString index ++ ") not a number\n")
  else
    match W.GetFeature (lua_toint L arg) with
    | none => .ok none
    | some feature => if !H.IsFeatureVisible L feature then .ok none else .ok (some feature)

/-- ParseTeam (source lines 661-669).  `teamID` is the value of
`luaL_checkint(L, index)`; teamHandler.Team never returns null for a valid
team. -/
def ParseTeam (W : World) (caller : String) (teamID : Int) : Except String CTeam :=
  if !W.IsValidTeam teamID then
    .error ("Bad teamID in " ++ caller ++ "\n")
  else
    .ok (W.Team teamID)

/-! ## Rules parameters (source lines 674-725, 947-1234) -/

/-- The value pushed for a rules parameter: `lua_pushnumber`, `lua_pushboolean`
or `lua_pushsstring` according to the alternative held (source lines 686-694,
714-722). -/
def pushParamValue : Value → LuaValue
  | .number x => .number x
  | .boolean b => .boolean b
  | .string s => .string s

/-- The body of the loop of PushRulesParams (source lines 680-695), applied to
the table under construction and one entry of the map.  LuaPushNamedNumber,
LuaPushNamedBool and LuaPushNamedString set the field `name` of the table on
top of the stack. -/
def PushRulesParams.step (losStatus : Nat) (t : LuaTable LuaValue) (it : String × Param) :
    LuaTable LuaValue :=
  if (it.2.los &&& losStatus) = 0 then t
  else t.rawset (.str it.1) (pushParamValue it.2.value)

/-- PushRulesParams (source lines 674-698). -/
def PushRulesParams (params : Params) (losStatus : Nat) : LuaTable LuaValue :=
  params.entries.foldl (PushRulesParams.step losStatus) []

/-- GetRulesParam (source lines 701-725).  `key` is the value of
`luaL_checkstring(L, index)`. -/
def GetRulesParam (params : Params) (key : String) (losStatus : Nat) : List LuaValue :=
  match params.find key with
  | none => []
  | some param =>
    if (param.los &&& losStatus) = 0 then []
    else [pushParamValue param.value]

/-- The access mask of GetTeamRulesParams (source lines 974-981). -/
def GetTeamRulesParams.losMask (H : LuaUtils) (W : World) (L : lua_State) (game : CGame)
    (team : CTeam) : Nat :=
  let losMask := RULESPARAMLOS_PUBLIC
  if H.IsAlliedTeam L team.teamNum || game.IsGameOver then
    losMask ||| RULESPARAMLOS_PRIVATE_MASK
  else if W.AlliedTeams team.teamNum L.readTeam then
    losMask ||| RULESPARAMLOS_ALLIED_MASK
  else
    losMask

/-- GetTeamRulesParams (source lines 968-984). -/
def GetTeamRulesParams (H : LuaUtils) (W : World) (L : lua_State) (teamID : Int) :
    Except String (Option (LuaTable LuaValue)) :=
  match ParseTeam W "GetTeamRulesParams" teamID with
  | .error e => .error e
  | .ok team =>
    match W.game with
    | none => .ok none
    | some game =>
      .ok (some (PushRulesParams team.modParams (GetTeamRulesParams.losMask H W L game team)))

/-- The access mask of GetTeamRulesParam (source lines 1139-1146). -/
def GetTeamRulesParam.losMask (H : LuaUtils) (W : World) (L : lua_State) (game : CGame)
    (team : CTeam) : Nat :=
  let losMask := RULESPARAMLOS_PUBLIC
  if H.IsAlliedTeam L team.teamNum || game.IsGameOver then
    losMask ||| RULESPARAMLOS_PRIVATE_MASK
  else if W.AlliedTeams team.teamNum L.readTeam then
    losMask ||| RULESPARAMLOS_ALLIED_MASK
  else
    losMask

/-- GetTeamRulesParam (source lines 1133-1149). -/
def GetTeamRulesParam (H : LuaUtils) (W : World) (L : lua_State) (teamID : Int) (key : String) :
    Except String (List LuaValue) :=
  match ParseTeam W "GetTeamRulesParam" teamID with
  | .error e => .error e
  | .ok team =>
    match W.game with
    | none => .ok []
    | some game =>
      .ok (GetRulesParam team.modParams key (GetTeamRulesParam.losMask H W L game team))

/-- GetUnitRulesParamLosMask (source lines 1034-1052).  `game` is the object
behind the global pointer, which both callers test for null first. -/
def GetUnitRulesParamLosMask (H : LuaUtils) (W : World) (L : lua_State) (game : CGame)
    (unit : CUnit) : Nat :=
  if H.IsAllyUnit L unit || game.IsGameOver then
    RULESPARAMLOS_PRIVATE_MASK
  else if W.AlliedTeams unit.team L.readTeam then
    RULESPARAMLOS_ALLIED_MASK
  else if L.readAllyTeam < 0 then
    RULESPARAMLOS_PUBLIC_MASK
  else
    let losStatus := unit.losStatus L.readAllyTeam.toNat
    if (losStatus &&& LOS_INLOS) ≠ 0 then
      RULESPARAMLOS_INLOS_MASK
    else if (losStatus &&& (LOS_PREVLOS ||| LOS_CONTRADAR)) ≠ 0 then
      RULESPARAMLOS_TYPED_MASK
    else if (losStatus &&& LOS_INRADAR) ≠ 0 then
      RULESPARAMLOS_INRADAR_MASK
    else
      RULESPARAMLOS_PUBLIC_MASK

/-- GetUnitRulesParams (source lines 1063-1070). -/
def GetUnitRulesParams (H : LuaUtils) (W : World) (L : lua_State) (unitID : LuaValue) :
    Except String (Option (LuaTable LuaValue)) :=
  match ParseUnit H W L "GetUnitRulesParams" unitID 1 with
  | .error e => .error e
  | .ok none => .ok none
  | .ok (some unit) =>
    match W.game with
    | none => .ok none
    | some game =>
      .ok (some (PushRulesParams unit.modParams (GetUnitRulesParamLosMask H W L game unit)))

/-- GetUnitRulesParam (source lines 1192-1199). -/
def GetUnitRulesParam (H : LuaUtils) (W : World) (L : lua_State) (unitID : LuaValue)
    (key : String) : Except String (List LuaValue) :=
  match ParseUnit H W L "GetUnitRulesParam" unitID 1 with
  | .error e => .error e
  | .ok none => .ok []
  | .ok (some unit) =>
    match W.game with
    | none => .ok []
    | some game =>
      .ok (GetRulesParam unit.modParams key (GetUnitRulesParamLosMask H W L game unit))

/-- The access mask of GetFeatureRulesParams (source lines 1088-1101).  The
function reads `game->IsGameOver()` without a null test; `game` is the object
behind the pointer. -/
def GetFeatureRulesParams.losMask (H : LuaUtils) (W : World) (L : lua_State) (game : CGame)
    (feature : CFeature) : Nat :=
  let losMask := RULESPARAMLOS_PUBLIC_MASK
  if H.IsAlliedAllyTeam L feature.allyteam || game.IsGameOver then
    losMask ||| RULESPARAMLOS_PRIVATE_MASK
  else if W.AlliedTeams feature.team L.readTeam then
    losMask ||| RULESPARAMLOS_ALLIED_MASK
  else if L.readAllyTeam < 0 then
    losMask
  else if H.IsFeatureVisible L feature then
    losMask ||| RULESPARAMLOS_INLOS_MASK
  else
    losMask

/-- GetFeatureRulesParams (source lines 1081-1106), for a world in which the
global `game` exists: the function dereferences the pointer unchecked. -/
def GetFeatureRulesParams (H : LuaUtils) (W : World) (L : lua_State) (game : CGame)
    (featureID : LuaValue) : Except String (Option (LuaTable LuaValue)) :=
  match ParseFeature H W L "GetFeatureRulesParams" featureID 1 with
  | .error e => .error e
  | .ok none => .ok none
  | .ok (some feature) =>
    .ok (some (PushRulesParams feature.modParams (GetFeatureRulesParams.losMask H W L game feature)))

/-- The access mask of GetFeatureRulesParam (source lines 1218-1231). -/
def GetFeatureRulesParam.losMask (H : LuaUtils) (W : World) (L : lua_State) (game : CGame)
    (feature : CFeature) : Nat :=
  let losMask := RULESPARAMLOS_PUBLIC_MASK
  if H.IsAlliedAllyTeam L feature.allyteam || game.IsGameOver then
    losMask ||| RULESPARAMLOS_PRIVATE_MASK
  else if W.AlliedTeams feature.team L.readTeam then
    losMask ||| RULESPARAMLOS_ALLIED_MASK
  else if L.readAllyTeam < 0 then
    losMask
  else if H.IsFeatureVisible L feature then
    losMask ||| RULESPARAMLOS_INLOS_MASK
  else
    losMask

/-- GetFeatureRulesParam (source lines 1211-1234), for a world in which the
global `game` exists: the function dereferences the pointer unchecked. -/
def GetFeatureRulesParam (H : LuaUtils) (W : World) (L : lua_State) (game : CGame)
    (featureID : LuaValue) (key : String) : Except String (List LuaValue) :=
  match ParseFeature H W L "GetFeatureRulesParam" featureID 1 with
  | .error e => .error e
  | .ok none => .ok []
  | .ok (some feature) =>
    .ok (GetRulesParam feature.modParams key (GetFeatureRulesParam.losMask H W L game feature))

/-! ## Team aggregate queries (source lines 2348-2754) -/

/-- One iteration of the allied loop of GetTeamUnitsCounts (source lines
2538-2548): `acc` is the table under construction and `defCount`. -/
def GetTeamUnitsCounts.allyStep (W : World) (teamID : Int) (acc : LuaTable Nat × Nat) (i : Nat) :
    LuaTable Nat × Nat :=
  let unitDefID := i + 1
  let unitCount := W.NumUnitsByTeamAndDef teamID unitDefID
  if unitCount = 0 then acc
  else (acc.1.rawset (.int unitDefID) unitCount, acc.2 + 1)

/-- One iteration of the enemy tally loop of GetTeamUnitsCounts (source lines
2560-2572): `acc` is `gtuDefCounts` and `unknownCount`. -/
def GetTeamUnitsCounts.tallyStep (H : LuaUtils) (L : lua_State) (acc : List (Nat × Nat) × Nat)
    (unit : CUnit) : List (Nat × Nat) × Nat :=
  if !H.IsUnitVisible L unit then acc
  else if !H.IsUnitTyped L unit then (acc.1, acc.2 + 1)
  else
    let unitDef := H.EffectiveUnitDef L unit
    (acc.1.set unitDef.id (unitDef.id, (acc.1.getD unitDef.id (0, 0)).2 + 1), acc.2)

/-- One iteration of the push loop of GetTeamUnitsCounts (source lines
2577-2583): `acc` is the table under construction and `defCount`. -/
def GetTeamUnitsCounts.pushStep (acc : LuaTable Nat × Nat) (gtuDefCount : Nat × Nat) :
    LuaTable Nat × Nat :=
  if gtuDefCount.2 = 0 then acc
  else (acc.1.rawset (.int gtuDefCount.1) gtuDefCount.2, acc.2 + 1)

/-- GetTeamUnitsCounts (source lines 2518-2592).  `teamID` is the value of
`luaL_checkint(L, 1)`; the second component is the state of the static
buffers after the call.  The counters are `unsigned int`; they count elements
of containers held in memory and are modelled without wrap-around. -/
def GetTeamUnitsCounts (H : LuaUtils) (W : World) (L : lua_State) (teamID : Int) (S : Statics) :
    Except String (Option (LuaTable Nat)) × Statics :=
  if L.readAllyTeam = CEventClient.NoAccessTeam then (.ok none, S)
  else
    match ParseTeam W "GetTeamUnitsCounts" teamID with
    | .error e => (.error e, S)
    | .ok team =>
      let teamID := team.teamNum
      if H.IsAlliedTeam L teamID then
        let r := (List.range W.NumUnitDefs).foldl (GetTeamUnitsCounts.allyStep W teamID) ([], 0)
        (.ok (some (r.1.rawset (.str "n") r.2)), S)
      else
        let cleared : List (Nat × Nat) := List.replicate (W.NumUnitDefs + 1) (0, 0)
        let tally := (W.GetUnitsByTeam teamID).foldl (GetTeamUnitsCounts.tallyStep H L) (cleared, 0)
        let gtuDefCounts := tally.1
        let unknownCount := tally.2
        let pushed := gtuDefCounts.foldl GetTeamUnitsCounts.pushStep ([], 0)
        let withUnknown : LuaTable Nat × Nat :=
          if unknownCount > 0 then (pushed.1.rawset (.str "unknown") unknownCount, pushed.2 + 1)
          else pushed
        (.ok (some (withUnknown.1.rawset (.str "n") withUnknown.2)),
          { S with gtuDefCounts := gtuDefCounts })

/-- GetTeamUnitCount (source lines 2728-2754).  `teamID` is the value of
`luaL_checkint(L, 1)`. -/
def GetTeamUnitCount (H : LuaUtils) (W : World) (L : lua_State) (teamID : Int) :
    Except String (List LuaValue) :=
  if L.readAllyTeam = CEventClient.NoAccessTeam then .ok []
  else
    match ParseTeam W "GetTeamUnitCount" teamID with
    | .error e => .error e
    | .ok team =>
      if H.IsAlliedTeam L team.teamNum then
        .ok [.number (W.NumUnitsByTeam team.teamNum)]
      else
        let unitCount := (W.GetUnitsByTeam team.teamNum).foldl
          (fun (unitCount : Nat) unit => unitCount + (if H.IsUnitVisible L unit then 1 else 0)) 0
        .ok [.number unitCount]

/-- The sum of the counts of a table returned by GetTeamUnitsCounts: every
bucket (the unitDefID keys and "unknown"), the field "n" left out. -/
def bucketSum (t : LuaTable Nat) : Nat :=
  ((t.filter (fun e => !decide (e.1 = .str "n"))).map Prod.snd).sum

/-! ## Unit state (source lines 3863-3889) -/

/-- The result of float arithmetic: an exact rational, or one of the values
that IEEE 754 arithmetic gives at a zero divisor, an infinity (its sign, which
follows the signs of the dividend and of the zero, is not tracked) or NaN. -/
inductive CFloat where
  | finite (x : ℚ)
  | inf
  | nan
deriving DecidableEq

/-- The float division `a / b` of two finite floats.  The division does not
test its divisor and, in the default floating-point environment, does not
trap: a zero divisor gives NaN for a zero dividend and an infinity for any
other dividend. -/
def CFloat.div (a b : ℚ) : CFloat :=
  if b = 0 then (if a = 0 then .nan else .inf) else .finite (a / b)

/-- The float multiplication `s * x` of the result of float arithmetic by a
finite float: an infinity times zero is NaN, NaN times anything is NaN. -/
def CFloat.mul (s : CFloat) (x : ℚ) : CFloat :=
  match s with
  | .finite r => .finite (r * x)
  | .inf => if x = 0 then .nan else .inf
  | .nan => .nan

/-- A value pushed by GetUnitHealth: nil (lua_pushnil) or a float
(lua_pushnumber). -/
inductive FloatValue where
  | nil
  | number (x : CFloat)
deriving DecidableEq

/-- GetUnitHealth (source lines 3863-3889).  The float division of the decoy
branch (line 3881) is performed for every value of `ud->health`; the source
has no test of the divisor. -/
def GetUnitHealth (H : LuaUtils) (W : World) (L : lua_State) (unitID : LuaValue) :
    Except String (List FloatValue) :=
  match ParseInLosUnit H W L "GetUnitHealth" unitID 1 with
  | .error e => .error e
  | .ok none => .ok []
  | .ok (some unit) =>
    let ud := unit.unitDef
    let enemyUnit := H.IsEnemyUnit L unit
    let plain : List FloatValue :=
      [.number (.finite unit.health), .number (.finite unit.maxHealth),
        .number (.finite unit.paralyzeDamage)]
    let pushed : List FloatValue :=
      if ud.hideDamage && enemyUnit then [.nil, .nil, .nil]
      else
        match ud.decoyDef with
        | none => plain
        | some decoyDef =>
          if !enemyUnit then plain
          else
            let scale := CFloat.div decoyDef.health ud.health
            [.number (scale.mul unit.health), .number (scale.mul unit.maxHealth),
              .number (scale.mul unit.paralyzeDamage)]
    .ok (pushed ++ [.number (.finite unit.captureProgress), .number (.finite unit.buildProgress)])

/-- GetUnitDefID (source lines 3783-3799). -/
def GetUnitDefID (H : LuaUtils) (W : World) (L : lua_State) (unitID : LuaValue) :
    Except String (List LuaValue) :=
  match ParseUnit H W L "GetUnitDefID" unitID 1 with
  | .error e => .error e
  | .ok none => .ok []
  | .ok (some unit) =>
    if H.IsAllyUnit L unit then
      .ok [.number unit.unitDef.id]
    else if !H.IsUnitTyped L unit then
      .ok []
    else
      .ok [.number (H.EffectiveUnitDef L unit).id]

/-- ValidUnitID (source lines 3434-3438).  The conjunction is short-circuit:
ParseUnit is only called for an argument that `lua_isnumber` accepts. -/
def ValidUnitID (H : LuaUtils) (W : World) (L : lua_State) (unitID : LuaValue) :
    Except String (List LuaValue) :=
  if !lua_isnumber L unitID then
    .ok [.boolean false]
  else
    match ParseUnit H W L "ValidUnitID" unitID 1 with
    | .error e => .error e
    | .ok unit => .ok [.boolean unit.isSome]

/-- ValidFeatureID (source lines 5975-5979).  The conjunction is short-circuit
as in ValidUnitID. -/
def ValidFeatureID (H : LuaUtils) (W : World) (L : lua_State) (featureID : LuaValue) :
    Except String (List LuaValue) :=
  if !lua_isnumber L featureID then
    .ok [.boolean false]
  else
    match ParseFeature H W L "ValidFeatureID" featureID 1 with
    | .error e => .error e
    | .ok feature => .ok [.boolean feature.isSome]

/-! ## Positions (source lines 484-518, 4070-4073, 6135-6138) -/

/-- CSolidObject as GetSolidObjectPosition receives it: a unit or a feature. -/
inductive CSolidObject where
  | unit (u : CUnit)
  | feature (f : CFeature)

/-- The field `pos` of a solid object. -/
def CSolidObject.pos : CSolidObject → float3
  | .unit u => u.pos
  | .feature f => f.pos

/-- The field `midPos` of a solid object. -/
def CSolidObject.midPos : CSolidObject → float3
  | .unit u => u.midPos
  | .feature f => f.midPos

/-- The field `aimPos` of a solid object. -/
def CSolidObject.aimPos : CSolidObject → float3
  | .unit u => u.aimPos
  | .feature f => f.aimPos

/-- GetSolidObjectPosition (source lines 484-518).  `returnMidPos` and
`returnAimPos` are the values of `luaL_optboolean(L, 2, false)` and
`luaL_optboolean(L, 3, false)`.  The object is cast to CUnit only when
`isFeature` is false; both callers pass the flag that matches the object. -/
def GetSolidObjectPosition (H : LuaUtils) (L : lua_State) (o : Option CSolidObject)
    (isFeature : Bool) (returnMidPos returnAimPos : Bool) : List LuaValue :=
  match o with
  | none => []
  | some o =>
    let errorVec : float3 :=
      match o with
      | .unit u =>
        if !isFeature && !H.IsAllyUnit L u then u.GetLuaErrorVector L.readAllyTeam L.fullRead
        else float3.zero
      | .feature _ => float3.zero
    [LuaValue.number (o.pos.x + errorVec.x), .number (o.pos.y + errorVec.y),
        .number (o.pos.z + errorVec.z)]
      ++ (if returnMidPos then
            [LuaValue.number (o.midPos.x + errorVec.x), .number (o.midPos.y + errorVec.y),
              .number (o.midPos.z + errorVec.z)]
          else [])
      ++ (if returnAimPos then
            [LuaValue.number (o.aimPos.x + errorVec.x), .number (o.aimPos.y + errorVec.y),
              .number (o.aimPos.z + errorVec.z)]
          else [])

/-- GetUnitPosition (source lines 4070-4073). -/
def GetUnitPosition (H : LuaUtils) (W : World) (L : lua_State) (unitID : LuaValue)
    (returnMidPos returnAimPos : Bool) : Except String (List LuaValue) :=
  match ParseUnit H W L "GetUnitPosition" unitID 1 with
  | .error e => .error e
  | .ok unit =>
    .ok (GetSolidObjectPosition H L (unit.map CSolidObject.unit) false returnMidPos returnAimPos)

/-- GetFeaturePosition (source lines 6135-6138). -/
def GetFeaturePosition (H : LuaUtils) (W : World) (L : lua_State) (featureID : LuaValue)
    (returnMidPos returnAimPos : Bool) : Except String (List LuaValue) :=
  match ParseFeature H W L "GetFeaturePosition" featureID 1 with
  | .error e => .error e
  | .ok feature =>
    .ok (GetSolidObjectPosition H L (feature.map CSolidObject.feature) true returnMidPos
      returnAimPos)

/-! ## Ally-only unit state (source lines 3589-3654, 3998-4007, 4201-4223,
4625-4730, 5368-5546, 5567-5650) -/

/-- GetUnitIsCloaked (source lines 3589-3597). -/
def GetUnitIsCloaked (H : LuaUtils) (W : World) (L : lua_State) (unitID : LuaValue) :
    Except String (List LuaValue) :=
  match ParseAllyUnit H W L "GetUnitIsCloaked" unitID 1 with
  | .error e => .error e
  | .ok none => .ok []
  | .ok (some unit) => .ok [.boolean unit.isCloaked]

/-- GetUnitStockpile (source lines 3641-3654). -/
def GetUnitStockpile (H : LuaUtils) (W : World) (L : lua_State) (unitID : LuaValue) :
    Except String (List LuaValue) :=
  match ParseAllyUnit H W L "GetUnitStockpile" unitID 1 with
  | .error e => .error e
  | .ok none => .ok []
  | .ok (some unit) =>
    match unit.stockpileWeapon with
    | none => .ok []
    | some stockpileWeapon =>
      .ok [.number stockpileWeapon.numStockpiled, .number stockpileWeapon.numStockpileQued,
        .number stockpileWeapon.buildPercent]

/-- GetUnitExperience (source lines 3998-4007). -/
def GetUnitExperience (H : LuaUtils) (W : World) (L : lua_State) (unitID : LuaValue) :
    Except String (List LuaValue) :=
  match ParseAllyUnit H W L "GetUnitExperience" unitID 1 with
  | .error e => .error e
  | .ok none => .ok []
  | .ok (some unit) => .ok [.number unit.experience, .number unit.limExperience]

/-- GetUnitIsBuilding (source lines 4201-4223). -/
def GetUnitIsBuilding (H : LuaUtils) (W : World) (L : lua_State) (unitID : LuaValue) :
    Except String (List LuaValue) :=
  match ParseAllyUnit H W L "GetUnitIsBuilding" unitID 1 with
  | .error e => .error e
  | .ok none => .ok []
  | .ok (some unit) =>
    match unit.unitType with
    | .builder (some curBuild) => .ok [.number curBuild]
    | .factory (some curBuild) => .ok [.number curBuild]
    | _ => .ok []

/-- GetUnitWeaponState (source lines 4625-4730).  The function is embedded up
to its gate: what it does with an allied unit (it reads one field of one
weapon, selected by the second and third argument) is the parameter `body`,
an arbitrary function of the unit. -/
def GetUnitWeaponState {R : Type} (H : LuaUtils) (W : World) (L : lua_State)
    (unitID : LuaValue) (body : CUnit → Except String (Option R)) :
    Except String (Option R) :=
  match ParseAllyUnit H W L "GetUnitWeaponState" unitID 1 with
  | .error e => .error e
  | .ok none => .ok none
  | .ok (some unit) => body unit

/-- GetUnitMoveTypeData (source lines 5368-5546).  The function is embedded
up to its gate: what it does with an allied unit (it fills a table from the
unit's move type) is the parameter `body`, an arbitrary function of the
unit. -/
def GetUnitMoveTypeData {R : Type} (H : LuaUtils) (W : World) (L : lua_State)
    (unitID : LuaValue) (body : CUnit → Except String (Option R)) :
    Except String (Option R) :=
  match ParseAllyUnit H W L "GetUnitMoveTypeData" unitID 1 with
  | .error e => .error e
  | .ok none => .ok none
  | .ok (some unit) => body unit

/-- The loop of PackCommandQueue (source lines 5580-5586) from the command it
has reached: `t` is the table under construction and `c` the number of
commands packed.  PackCommand builds a table from the ID, parameters, options
and tag of the command; the embedding keeps the command as the table entry. -/
def PackCommandQueue.loop (count : Nat) : List Command → LuaTable Command → Nat →
    LuaTable Command
  | [], t, _ => t
  | command :: rest, t, c =>
    if c ≥ count then t
    else PackCommandQueue.loop count rest (t.rawset (.int ((c + 1 : Nat) : Int)) command) (c + 1)

/-- PackCommandQueue (source lines 5567-5586).  `count` is a size_t, taken as
64 bits wide; `-1u` is the unsigned int 4294967295. -/
def PackCommandQueue (commands : List Command) (count : Nat) : LuaTable Command :=
  let count := if count = 4294967295 then commands.length else count
  PackCommandQueue.loop count commands [] 0

/-- What GetUnitCommands pushes: the table of commands or the size of the
queue. -/
inductive QueueResult where
  | table (t : LuaTable Command)
  | size (n : Nat)
deriving DecidableEq

/-- GetUnitCommands (source lines 5626-5650).  `numCmds` is the value of
`luaL_checkint(L, 2)` and `cmdsTable` the value of `luaL_optboolean(L, 3, true)`;
the int `numCmds` is converted to size_t when it is passed to
PackCommandQueue. -/
def GetUnitCommands (H : LuaUtils) (W : World) (L : lua_State) (unitID : LuaValue)
    (numCmds : Int) (cmdsTable : Bool) : Except String (Option QueueResult) :=
  match ParseAllyUnit H W L "GetUnitCommands" unitID 1 with
  | .error e => .error e
  | .ok none => .ok none
  | .ok (some unit) =>
    let commandAI := unit.commandAI
    let queue :=
      match commandAI.newUnitCommands with
      | none => commandAI.commandQue
      | some newUnitCommands => newUnitCommands
    if cmdsTable && decide (numCmds ≠ 0) then
      .ok (some (.table (PackCommandQueue queue (numCmds % (2 ^ 64 : Int)).toNat)))
    else
      .ok (some (.size queue.length))

/-! ## Team definition count (source lines 2668-2719) -/

/-- The tally of GetTeamUnitDefCount over the units of one definition (source
lines 2701-2703 and 2711-2713): one is added for every typed unit. -/
def GetTeamUnitDefCount.tally (H : LuaUtils) (L : lua_State) (unitCount : Nat)
    (units : List CUnit) : Nat :=
  units.foldl (fun unitCount unit => unitCount + (if H.IsUnitTyped L unit then 1 else 0))
    unitCount

/-- GetTeamUnitDefCount (source lines 2668-2719).  `teamID` and `unitDefID` are
the values of `luaL_checkint(L, 1)` and `luaL_checkint(L, 2)`. -/
def GetTeamUnitDefCount (H : LuaUtils) (W : World) (L : lua_State) (teamID : Int)
    (unitDefID : Int) : Except String (List LuaValue) :=
  if L.readAllyTeam = CEventClient.NoAccessTeam then .ok []
  else
    match ParseTeam W "GetTeamUnitDefCount" teamID with
    | .error e => .error e
    | .ok team =>
      let teamID := team.teamNum
      match W.GetUnitDefByID unitDefID with
      | none => .error "Bad unitDefID in GetTeamUnitDefCount()"
      | some unitDef =>
        if H.IsAlliedTeam L teamID then
          .ok [.number (W.NumUnitsByTeamAndDef teamID unitDef.id)]
        else if unitDef.decoyDef.isSome then
          .ok [.number 0]
        else
          let unitCount : Nat :=
            GetTeamUnitDefCount.tally H L 0 (W.GetUnitsByTeamAndDef teamID unitDef.id)
          let unitCount : Nat :=
            match W.decoyDefIDs.lookup unitDef.id with
            | none => unitCount
            | some decoyDefIDs =>
              decoyDefIDs.foldl
                (fun (unitCount : Nat) udID =>
                  GetTeamUnitDefCount.tally H L unitCount (W.GetUnitsByTeamAndDef teamID udID))
                unitCount
          .ok [.number unitCount]

/-! ## Spatial unit queries (source lines 2757-3171) -/

/-- LuaUtils::AllUnits, the allegiance constant (value from the comment at
source line 2762). -/
def LuaUtils.AllUnits : Int := -1
/-- LuaUtils::MyUnits (value from the comment at source line 2762). -/
def LuaUtils.MyUnits : Int := -2
/-- LuaUtils::AllyUnits (value from the comment at source line 2762). -/
def LuaUtils.AllyUnits : Int := -3
/-- LuaUtils::EnemyUnits (value from the comment at source line 2762). -/
def LuaUtils.EnemyUnits : Int := -4

/-- One iteration of LOOP_UNIT_CONTAINER (source lines 2776-2782).  The two
tests are true when the unit passes, that is when the macro does not
`continue`. -/
def LOOP_UNIT_CONTAINER.step (ALLEGIANCE_TEST CUSTOM_TEST : CUnit → Bool)
    (acc : LuaTable Int × Nat) (unit : CUnit) : LuaTable Int × Nat :=
  if !ALLEGIANCE_TEST unit then acc
  else if !CUSTOM_TEST unit then acc
  else (acc.1.rawset (.int ((acc.2 + 1 : Nat) : Int)) unit.id, acc.2 + 1)

/-- The macro LOOP_UNIT_CONTAINER (source lines 2769-2783).  `top` is the table
on top of the stack when the macro starts; with NEWTABLE the macro pushes a
new table and fills that one.  The counter `count` is local to the expansion
and starts at 0. -/
def LOOP_UNIT_CONTAINER (ALLEGIANCE_TEST CUSTOM_TEST : CUnit → Bool) (NEWTABLE : Bool)
    (top : LuaTable Int) (units : List CUnit) : LuaTable Int :=
  let table : LuaTable Int := if NEWTABLE then [] else top
  (units.foldl (LOOP_UNIT_CONTAINER.step ALLEGIANCE_TEST CUSTOM_TEST) (table, 0)).1

/-- The macro NULL_TEST (source line 2790). -/
def NULL_TEST (_unit : CUnit) : Bool := true

/-- The macro VISIBLE_TEST (source lines 2792-2793). -/
def VISIBLE_TEST (H : LuaUtils) (L : lua_State) (unit : CUnit) : Bool :=
  H.IsUnitVisible L unit

/-- The macro SIMPLE_TEAM_TEST (source lines 2795-2796). -/
def SIMPLE_TEAM_TEST (allegiance : Int) (unit : CUnit) : Bool :=
  !decide (unit.team ≠ allegiance)

/-- The macro VISIBLE_TEAM_TEST (source lines 2798-2800). -/
def VISIBLE_TEAM_TEST (H : LuaUtils) (L : lua_State) (allegiance : Int) (unit : CUnit) : Bool :=
  if unit.team ≠ allegiance then false
  else if !H.IsUnitVisible L unit then false
  else true

/-- The macro MY_UNIT_TEST (source lines 2802-2803). -/
def MY_UNIT_TEST (readTeam : Int) (unit : CUnit) : Bool :=
  !decide (unit.team ≠ readTeam)

/-- The macro ALLY_UNIT_TEST (source lines 2805-2806). -/
def ALLY_UNIT_TEST (L : lua_State) (unit : CUnit) : Bool :=
  !decide (unit.allyteam ≠ L.readAllyTeam)

/-- The macro ENEMY_UNIT_TEST (source lines 2808-2810). -/
def ENEMY_UNIT_TEST (H : LuaUtils) (L : lua_State) (unit : CUnit) : Bool :=
  if unit.allyteam = L.readAllyTeam then false
  else if !H.IsUnitVisible L unit then false
  else true

/-- The allegiance dispatch shared by the four region queries (source lines
2841-2860, 2902-2921, 2960-2979, 3023-3042), for the shape test CUSTOM_TEST of
the query and the candidate list `units`. -/
def regionDispatch (H : LuaUtils) (L : lua_State) (allegiance : Int)
    (CUSTOM_TEST : CUnit → Bool) (units : List CUnit) : LuaTable Int :=
  if allegiance ≥ 0 then
    if H.IsAlliedTeam L allegiance then
      LOOP_UNIT_CONTAINER (SIMPLE_TEAM_TEST allegiance) CUSTOM_TEST true [] units
    else
      LOOP_UNIT_CONTAINER (VISIBLE_TEAM_TEST H L allegiance) CUSTOM_TEST true [] units
  else if allegiance = LuaUtils.MyUnits then
    let readTeam := L.readTeam
    LOOP_UNIT_CONTAINER (MY_UNIT_TEST readTeam) CUSTOM_TEST true [] units
  else if allegiance = LuaUtils.AllyUnits then
    LOOP_UNIT_CONTAINER (ALLY_UNIT_TEST L) CUSTOM_TEST true [] units
  else if allegiance = LuaUtils.EnemyUnits then
    LOOP_UNIT_CONTAINER (ENEMY_UNIT_TEST H L) CUSTOM_TEST true [] units
  else
    LOOP_UNIT_CONTAINER (VISIBLE_TEST H L) CUSTOM_TEST true [] units

/-- GetUnitsInRectangle (source lines 2823-2863).  The four numbers are the
values of `luaL_checkfloat`, `allegiance` is the value of
LuaUtils::ParseAllegiance; RECTANGLE_TEST is empty. -/
def GetUnitsInRectangle (H : LuaUtils) (W : World) (L : lua_State) (xmin zmin xmax zmax : ℚ)
    (allegiance : Int) : LuaTable Int :=
  let mins : float3 := { x := xmin, y := 0, z := zmin }
  let maxs : float3 := { x := xmax, y := 0, z := zmax }
  let units := W.GetUnitsExact mins maxs
  regionDispatch H L allegiance (fun _ => true) units

/-- The macro BOX_TEST (source lines 2892-2896). -/
def BOX_TEST (ymin ymax : ℚ) (unit : CUnit) : Bool :=
  let y := unit.midPos.y
  if y < ymin ∨ y > ymax then false else true

/-- GetUnitsInBox (source lines 2878-2924). -/
def GetUnitsInBox (H : LuaUtils) (W : World) (L : lua_State) (xmin ymin zmin xmax ymax zmax : ℚ)
    (allegiance : Int) : LuaTable Int :=
  let mins : float3 := { x := xmin, y := 0, z := zmin }
  let maxs : float3 := { x := xmax, y := 0, z := zmax }
  let units := W.GetUnitsExact mins maxs
  regionDispatch H L allegiance (BOX_TEST ymin ymax) units

/-- The macro CYLINDER_TEST (source lines 2947-2954). -/
def CYLINDER_TEST (x z radSqr : ℚ) (unit : CUnit) : Bool :=
  let p := unit.midPos
  let dx := p.x - x
  let dz := p.z - z
  let dist := (dx * dx) + (dz * dz)
  if dist > radSqr then false else true

/-- GetUnitsInCylinder (source lines 2935-2982). -/
def GetUnitsInCylinder (H : LuaUtils) (W : World) (L : lua_State) (x z radius : ℚ)
    (allegiance : Int) : LuaTable Int :=
  let radSqr := radius * radius
  let mins : float3 := { x := x - radius, y := 0, z := z - radius }
  let maxs : float3 := { x := x + radius, y := 0, z := z + radius }
  let units := W.GetUnitsExact mins maxs
  regionDispatch H L allegiance (CYLINDER_TEST x z radSqr) units

/-- The macro SPHERE_TEST (source lines 3008-3018). -/
def SPHERE_TEST (x y z radSqr : ℚ) (unit : CUnit) : Bool :=
  let p := unit.midPos
  let dx := p.x - x
  let dy := p.y - y
  let dz := p.z - z
  let dist := (dx * dx) + (dy * dy) + (dz * dz)
  if dist > radSqr then false else true

/-- GetUnitsInSphere (source lines 2994-3045). -/
def GetUnitsInSphere (H : LuaUtils) (W : World) (L : lua_State) (x y z radius : ℚ)
    (allegiance : Int) : LuaTable Int :=
  let radSqr := radius * radius
  let mins : float3 := { x := x - radius, y := 0, z := z - radius }
  let maxs : float3 := { x := x + radius, y := 0, z := z + radius }
  let units := W.GetUnitsExact mins maxs
  regionDispatch H L allegiance (SPHERE_TEST x y z radSqr) units

/-- The struct Plane (source lines 3048-3050): ax + by + cz + d = 0. -/
structure Plane where
  x : ℚ
  y : ℚ
  z : ℚ
  d : ℚ
deriving DecidableEq

/-- UnitInPlanes (source lines 3053-3063). -/
def UnitInPlanes (unit : CUnit) (planes : List Plane) : Bool :=
  let pos := unit.midPos
  planes.all (fun p =>
    let dist := (pos.x * p.x) + (pos.y * p.y) + (pos.z * p.z) + p.d
    !decide ((dist - unit.radius) > 0))

/-- The teams `startTeam`, ..., `endTeam` in the order the loop of
GetUnitsInPlanes visits them (source line 3134). -/
def teamRange (startTeam endTeam : Int) : List Int :=
  (List.range (endTeam - startTeam + 1).toNat).map (fun i => startTeam + (i : Int))

/-- The body of the team loop of GetUnitsInPlanes (source lines 3135-3168):
`top` is the result table, which stays on top of the stack. -/
def GetUnitsInPlanes.teamStep (H : LuaUtils) (W : World) (L : lua_State) (allegiance : Int)
    (planes : List Plane) (top : LuaTable Int) (team : Int) : LuaTable Int :=
  let readTeam := L.readTeam
  let units := W.GetUnitsByTeam team
  let PLANES_TEST := fun unit => UnitInPlanes unit planes
  if allegiance ≥ 0 then
    if allegiance = team then
      if H.IsAlliedTeam L allegiance then
        LOOP_UNIT_CONTAINER NULL_TEST PLANES_TEST false top units
      else
        LOOP_UNIT_CONTAINER (VISIBLE_TEST H L) PLANES_TEST false top units
    else top
  else if allegiance = LuaUtils.MyUnits then
    if readTeam = team then
      LOOP_UNIT_CONTAINER NULL_TEST PLANES_TEST false top units
    else top
  else if allegiance = LuaUtils.AllyUnits then
    if L.readAllyTeam = W.AllyTeam team then
      LOOP_UNIT_CONTAINER NULL_TEST PLANES_TEST false top units
    else top
  else if allegiance = LuaUtils.EnemyUnits then
    if L.readAllyTeam ≠ W.AllyTeam team then
      LOOP_UNIT_CONTAINER (VISIBLE_TEST H L) PLANES_TEST false top units
    else top
  else
    if H.IsAlliedTeam L team then
      LOOP_UNIT_CONTAINER NULL_TEST PLANES_TEST false top units
    else
      LOOP_UNIT_CONTAINER (VISIBLE_TEST H L) PLANES_TEST false top units

/-- GetUnitsInPlanes (source lines 3088-3171).  `planes` is `none` when the
first argument is no table, and otherwise the vector of planes parsed from
it; `allegiance` is the value of LuaUtils::ParseAllegiance. -/
def GetUnitsInPlanes (H : LuaUtils) (W : World) (L : lua_State) (planes : Option (List Plane))
    (allegiance : Int) : Except String (LuaTable Int) :=
  match planes with
  | none => .error "Incorrect arguments to GetUnitsInPlanes()"
  | some planes =>
    let range : Int × Int :=
      if allegiance ≥ 0 then (allegiance, allegiance)
      else if allegiance = LuaUtils.MyUnits then (L.readTeam, L.readTeam)
      else (0, W.ActiveTeams - 1)
    let startTeam := range.1
    let endTeam := range.2
    .ok ((teamRange startTeam endTeam).foldl
      (GetUnitsInPlanes.teamStep H W L allegiance planes) [])

/-- The Lua array with the given values at the keys 1, 2, ... in order. -/
def luaArray {V : Type} (vs : List V) : LuaTable V :=
  vs.enum.map (fun iv => (LuaKey.int ((iv.1 + 1 : Nat) : Int), iv.2))

/-- The allegiance filter of the region queries in the words of the spec
(§4.4): explicit team ("raw for allies, visibility-filtered for enemies"),
"mine" (exact team match to caller), "ally" (allyteam match), "enemy"
(different allyteam AND visible), "all" (visible to caller). -/
def specAllegianceFilter (H : LuaUtils) (L : lua_State) (allegiance : Int) (u : CUnit) : Bool :=
  if allegiance ≥ 0 then
    decide (u.team = allegiance) && (H.IsAlliedTeam L allegiance || H.IsUnitVisible L u)
  else if allegiance = LuaUtils.MyUnits then decide (u.team = L.readTeam)
  else if allegiance = LuaUtils.AllyUnits then decide (u.allyteam = L.readAllyTeam)
  else if allegiance = LuaUtils.EnemyUnits then
    decide (u.allyteam ≠ L.readAllyTeam) && H.IsUnitVisible L u
  else H.IsUnitVisible L u

/-! ## Blocking flags (source lines 536-551, 5357-5360) -/

/-- The bit CSolidObject::PSTATE_BIT_BLOCKING.  SolidObject.h is not part of
the sources; no result below depends on the value. -/
def CSolidObject.PSTATE_BIT_BLOCKING : Nat := 2048

/-- The bit CSolidObject::CSTATE_BIT_SOLIDOBJECTS (same remark). -/
def CSolidObject.CSTATE_BIT_SOLIDOBJECTS : Nat := 1

/-- The bit CSolidObject::CSTATE_BIT_PROJECTILES (same remark). -/
def CSolidObject.CSTATE_BIT_PROJECTILES : Nat := 2

/-- The bit CSolidObject::CSTATE_BIT_QUADMAPRAYS (same remark). -/
def CSolidObject.CSTATE_BIT_QUADMAPRAYS : Nat := 4

/-- GetSolidObjectBlocking (source lines 536-551), for the object that
GetUnitBlocking passes, a unit or the null pointer. -/
def GetSolidObjectBlocking (o : Option CUnit) : List LuaValue :=
  match o with
  | none => []
  | some o =>
    [.boolean (o.HasPhysicalStateBit CSolidObject.PSTATE_BIT_BLOCKING),
     .boolean (o.HasCollidableStateBit CSolidObject.CSTATE_BIT_SOLIDOBJECTS),
     .boolean (o.HasCollidableStateBit CSolidObject.CSTATE_BIT_PROJECTILES),
     .boolean (o.HasCollidableStateBit CSolidObject.CSTATE_BIT_QUADMAPRAYS),
     .boolean o.crushable,
     .boolean o.blockEnemyPushing,
     .boolean o.blockHeightChanges]

/-- GetUnitBlocking (source lines 5357-5360). -/
def GetUnitBlocking (H : LuaUtils) (W : World) (L : lua_State) (unitID : LuaValue) :
    Except String (List LuaValue) :=
  match ParseTypedUnit H W L "GetUnitBlocking" unitID 1 with
  | .error e => .error e
  | .ok o => .ok (GetSolidObjectBlocking o)

/-! ## Build queues (source lines 5806-5897) -/

/-- The macro STRCASECMP (strcasecmp; its header is not part of the sources):
0 exactly when the two strings are equal once the letters A-Z are mapped to
lower case.  Only the comparison of the result with 0 is used. -/
def STRCASECMP (a b : String) : Int :=
  if a.data.map Char.toLower = b.data.map Char.toLower then 0 else 1

/-- The local variables of PackBuildQueue (source lines 5817-5819) together
with the table under construction.  An entry of the table is itself a table
with the single binding `[currentType] = currentCount`. -/
structure PackBuildQueue.State where
  table : LuaTable (LuaTable Nat)
  entry : Nat
  currentType : Int
  currentCount : Nat
deriving DecidableEq

/-- The test of PackBuildQueue under `canBuild` (source lines 5828-5846): true
when the order is skipped, that is when the buildee definition is null or no
build option of the builder's definition carries its name.  The builder
definition `unit->unitDef` is never null. -/
def PackBuildQueue.skip (W : World) (unit : CUnit) (unitDefID : Int) : Bool :=
  match W.GetUnitDefByID unitDefID with
  | none => true
  | some buildeeDef =>
    let builderDef := unit.unitDef
    !(builderDef.buildOptions.any (fun e => decide (STRCASECMP e.2 buildeeDef.name = 0)))

/-- The three-way update at the end of the loop body of PackBuildQueue (source
lines 5848-5860) for a build order of definition `unitDefID`. -/
def PackBuildQueue.push (st : PackBuildQueue.State) (unitDefID : Int) : PackBuildQueue.State :=
  if st.currentType = unitDefID then
    { st with currentCount := st.currentCount + 1 }
  else if st.currentType = -1 then
    { st with currentType := unitDefID, currentCount := 1 }
  else
    { table := st.table.rawset (.int ((st.entry + 1 : Nat) : Int))
        (LuaTable.rawset ([] : LuaTable Nat) (.int st.currentType) st.currentCount)
      entry := st.entry + 1
      currentType := unitDefID
      currentCount := 1 }

/-- One iteration of the loop of PackBuildQueue (source lines 5821-5861).
Command IDs are C ints; the negation is taken over the integers (it is
undefined in C++ for the least int only). -/
def PackBuildQueue.step (W : World) (unit : CUnit) (canBuild : Bool)
    (st : PackBuildQueue.State) (cmd : Command) : PackBuildQueue.State :=
  if cmd.id ≥ 0 then st
  else
    let unitDefID := -cmd.id
    if canBuild && PackBuildQueue.skip W unit unitDefID then st
    else PackBuildQueue.push st unitDefID

/-- The end of PackBuildQueue (source lines 5863-5872): the last run is
written and the table is returned with the number of entries. -/
def PackBuildQueue.finish (st : PackBuildQueue.State) : LuaTable (LuaTable Nat) × Nat :=
  if st.currentCount > 0 then
    (st.table.rawset (.int ((st.entry + 1 : Nat) : Int))
        (LuaTable.rawset ([] : LuaTable Nat) (.int st.currentType) st.currentCount),
      st.entry + 1)
  else (st.table, st.entry)

/-- PackBuildQueue (source lines 5806-5875): the two return values, or `none`
for zero results. -/
def PackBuildQueue (H : LuaUtils) (W : World) (L : lua_State) (unitID : LuaValue)
    (canBuild : Bool) (caller : String) :
    Except String (Option (LuaTable (LuaTable Nat) × Nat)) :=
  match ParseAllyUnit H W L caller unitID 1 with
  | .error e => .error e
  | .ok none => .ok none
  | .ok (some unit) =>
    let commandAI := unit.commandAI
    let commandQue := commandAI.commandQue
    let st := commandQue.foldl (PackBuildQueue.step W unit canBuild)
      { table := [], entry := 0, currentType := -1, currentCount := 0 }
    .ok (some (PackBuildQueue.finish st))

/-- GetFullBuildQueue (source lines 5883-5886). -/
def GetFullBuildQueue (H : LuaUtils) (W : World) (L : lua_State) (unitID : LuaValue) :
    Except String (Option (LuaTable (LuaTable Nat) × Nat)) :=
  PackBuildQueue H W L unitID false "GetFullBuildQueue"

/-- GetRealBuildQueue (source lines 5894-5897). -/
def GetRealBuildQueue (H : LuaUtils) (W : World) (L : lua_State) (unitID : LuaValue) :
    Except String (Option (LuaTable (LuaTable Nat) × Nat)) :=
  PackBuildQueue H W L unitID true "GetRealBuildQueue"

/-- The removal of the claim on GetRealBuildQueue, in the words of the spec: a
build order is removed when its buildee definition does not exist or its name
matches, case-insensitively, no entry of the builder definition's build-option
list. -/
def specRemovedOrder (W : World) (unit : CUnit) (cmd : Command) : Bool :=
  decide (cmd.id < 0) &&
    (match W.GetUnitDefByID (-cmd.id) with
      | none => true
      | some buildeeDef =>
        !(unit.unitDef.buildOptions.any
          (fun option => decide (option.2.data.map Char.toLower
            = buildeeDef.name.data.map Char.toLower))))

/-! ## Factory counts (source lines 5712-5792) -/

/-- A value of the table built by PackFactoryCounts: the table of a run, with
the single binding `[-currentCmd] = currentCount`, or the number stored in the
field "n". -/
inductive FactoryCountsValue where
  | run (t : LuaTable Int)
  | number (n : Int)
deriving DecidableEq

/-- The local variables of PackFactoryCounts (source lines 5717-5719) together
with the table under construction. -/
structure PackFactoryCounts.State where
  table : LuaTable FactoryCountsValue
  entry : Int
  currentCmd : Int
  currentCount : Int
deriving DecidableEq

/-- The loop of PackFactoryCounts (source lines 5721-5749) from the command it
has reached; the `break` ends the recursion. -/
def PackFactoryCounts.loop (count : Int) (noCmds : Bool) :
    List Command → PackFactoryCounts.State → PackFactoryCounts.State
  | [], st => st
  | cmd :: rest, st =>
    if st.entry ≥ count then { st with currentCount := 0 }
    else
      let cmdID := cmd.id
      if noCmds && decide (cmdID ≥ 0) then PackFactoryCounts.loop count noCmds rest st
      else if st.entry = 0 then
        PackFactoryCounts.loop count noCmds rest
          { st with currentCmd := cmdID, currentCount := 1, entry := 1 }
      else if cmdID = st.currentCmd then
        PackFactoryCounts.loop count noCmds rest { st with currentCount := st.currentCount + 1 }
      else
        PackFactoryCounts.loop count noCmds rest
          { table := st.table.rawset (.int (st.entry + 1))
              (.run (LuaTable.rawset ([] : LuaTable Int) (.int (-st.currentCmd)) st.currentCount))
            entry := st.entry + 1
            currentCmd := cmdID
            currentCount := 1 }

/-- PackFactoryCounts (source lines 5712-5760): the table it leaves on the
stack. -/
def PackFactoryCounts (q : List Command) (count : Int) (noCmds : Bool) :
    LuaTable FactoryCountsValue :=
  let st := PackFactoryCounts.loop count noCmds q
    { table := [], entry := 0, currentCmd := 0, currentCount := 0 }
  let st : PackFactoryCounts.State :=
    if st.currentCount > 0 then
      { st with
        table := st.table.rawset (.int (st.entry + 1))
          (.run (LuaTable.rawset ([] : LuaTable Int) (.int (-st.currentCmd)) st.currentCount))
        entry := st.entry + 1 }
    else st
  st.table.rawset (.str "n") (.number st.entry)

/-- GetFactoryCounts (source lines 5768-5792).  `optCount` is the value of
`luaL_optint(L, 2, -1)` and `optCmds` the value of
`luaL_optboolean(L, 3, false)`.  The dynamic cast to CFactoryCAI succeeds when
the command AI carries the queue `newUnitCommands`. -/
def GetFactoryCounts (H : LuaUtils) (W : World) (L : lua_State) (unitID : LuaValue)
    (optCount : Int) (optCmds : Bool) : Except String (Option (LuaTable FactoryCountsValue)) :=
  match ParseAllyUnit H W L "GetFactoryCounts" unitID 1 with
  | .error e => .error e
  | .ok none => .ok none
  | .ok (some unit) =>
    let commandAI := unit.commandAI
    match commandAI.newUnitCommands with
    | none => .ok none
    | some _ =>
      let commandQue := commandAI.commandQue
      let count : Int := if optCount < 0 then (commandQue.length : Int) else optCount
      let noCmds := !optCmds
      .ok (some (PackFactoryCounts commandQue count noCmds))

/-! ## Position error parameters (source lines 3714-3734) -/

/-- The template Clamp of the engine's math header (not part of the sources):
the value limited to the closed interval from `lo` to `hi`. -/
def Clamp (v lo hi : Int) : Int := min hi (max lo v)

/-- The index that GetUnitPosErrorParams passes to the position-error-bit
lookup (source lines 3721-3722).  `optAllyTeam` is the value of
`luaL_optinteger(L, 2, 0)`. -/
def GetUnitPosErrorParams.argAllyTeam (W : World) (optAllyTeam : Int) : Int :=
  Clamp optAllyTeam 0 W.ActiveAllyTeams

/-- GetUnitPosErrorParams (source lines 3714-3734).  `optAllyTeam` is the value
of `luaL_optinteger(L, 2, 0)`. -/
def GetUnitPosErrorParams (H : LuaUtils) (W : World) (L : lua_State) (unitID : LuaValue)
    (optAllyTeam : Int) : Except String (List LuaValue) :=
  match ParseAllyUnit H W L "GetUnitPosErrorParams" unitID 1 with
  | .error e => .error e
  | .ok none => .ok []
  | .ok (some unit) =>
    let argAllyTeam := GetUnitPosErrorParams.argAllyTeam W optAllyTeam
    .ok [.number unit.posErrorVector.x, .number unit.posErrorVector.y,
      .number unit.posErrorVector.z,
      .number unit.posErrorDelta.x, .number unit.posErrorDelta.y, .number unit.posErrorDelta.z,
      .number unit.nextPosErrorUpdate,
      .boolean (unit.GetPosErrorBit argAllyTeam)]

/-! ## Team statistics history (source lines 1898-1988) -/

/-- The constant GAME_SPEED (its header is not part of the sources): the number
of simulation frames per second.  No result below depends on the value. -/
def GAME_SPEED : Int := 30

/-- The value of a C `int` whose mathematical value is `x`: two's-complement
wrap-around into 32 bits. -/
def int32 (x : Int) : Int := (x + 2 ^ 31) % 2 ^ 32 - 2 ^ 31

/-- What GetTeamStatsHistory pushes: the number of history entries or the
table of entries.  `outOfRange` stands for a run in which the iterator is
dereferenced outside the container, for which C++ defines no result. -/
inductive StatsHistoryResult where
  | size (n : Nat)
  | table (t : LuaTable (LuaTable LuaValue))
  | outOfRange
deriving DecidableEq

/-- The table that GetTeamStatsHistory builds for the entry `stats` at the
index `i` of a history of `size` entries (source lines 1947-1981): the most
recent entry carries the current frame, every other entry its own. -/
def GetTeamStatsHistory.pushStats (W : World) (size : Nat) (i : Int) (stats : TeamStatistics) :
    LuaTable LuaValue :=
  let head : List (String × ℚ) :=
    if i + 1 = (size : Int) then
      [("time", ((W.GetLuaSimFrame.tdiv GAME_SPEED : Int) : ℚ)), ("frame", (W.GetLuaSimFrame : ℚ))]
    else
      [("time", ((stats.frame.tdiv GAME_SPEED : Int) : ℚ)), ("frame", (stats.frame : ℚ))]
  (head ++
    [("metalUsed", stats.metalUsed), ("metalProduced", stats.metalProduced),
      ("metalExcess", stats.metalExcess), ("metalReceived", stats.metalReceived),
      ("metalSent", stats.metalSent),
      ("energyUsed", stats.energyUsed), ("energyProduced", stats.energyProduced),
      ("energyExcess", stats.energyExcess), ("energyReceived", stats.energyReceived),
      ("energySent", stats.energySent),
      ("damageDealt", stats.damageDealt), ("damageReceived", stats.damageReceived),
      ("unitsProduced", (stats.unitsProduced : ℚ)), ("unitsDied", (stats.unitsDied : ℚ)),
      ("unitsReceived", (stats.unitsReceived : ℚ)), ("unitsSent", (stats.unitsSent : ℚ)),
      ("unitsCaptured", (stats.unitsCaptured : ℚ)),
      ("unitsOutCaptured", (stats.unitsOutCaptured : ℚ)),
      ("unitsKilled", (stats.unitsKilled : ℚ))]).foldl
    (fun (t : LuaTable LuaValue) kv => t.rawset (.str kv.1) (.number kv.2)) []

/-- The index computation of GetTeamStatsHistory for one optional argument
(source lines 1931-1940): `arg` is the argument when the stack holds it,
`dflt` the value the variable has been initialised with.  The subtraction is
on C ints. -/
def GetTeamStatsHistory.index (L : lua_State) (statCount : Int) (arg : Option LuaValue)
    (dflt : Int) : Int :=
  match arg with
  | none => dflt
  | some a =>
    if lua_isnumber L a then max 0 (min (statCount - 1) (int32 (lua_toint L a - 1)))
    else dflt

/-- The loop of GetTeamStatsHistory (source lines 1946-1984) over the indices
it visits: `t` is the table under construction and `count` the next key.  The
iterator `it` stands at the index `i`; `none` when it is dereferenced outside
the container. -/
def GetTeamStatsHistory.loop (W : World) (teamStats : List TeamStatistics) :
    List Int → LuaTable (LuaTable LuaValue) → Nat → Option (LuaTable (LuaTable LuaValue))
  | [], t, _ => some t
  | i :: rest, t, count =>
    match (if 0 ≤ i then teamStats[i.toNat]? else none) with
    | none => none
    | some stats =>
      GetTeamStatsHistory.loop W teamStats rest
        (t.rawset (.int (count : Int)) (GetTeamStatsHistory.pushStats W teamStats.length i stats))
        (count + 1)

/-- GetTeamStatsHistory (source lines 1906-1988).  `teamID` is the value of
`luaL_checkint(L, 1)` and `rest` the arguments after the first, so that
`lua_gettop(L)` is one more than the length of `rest`; `stop` is the variable
`end` of the source.  The size of the history is taken to fit a C int. -/
def GetTeamStatsHistory (H : LuaUtils) (W : World) (L : lua_State) (teamID : Int)
    (rest : List LuaValue) : Except String (Option StatsHistoryResult) :=
  match ParseTeam W "GetTeamStatsHistory" teamID with
  | .error e => .error e
  | .ok team =>
    match W.game with
    | none => .ok none
    | some game =>
      let teamID := team.teamNum
      if !H.IsAlliedTeam L teamID && !game.IsGameOver then .ok none
      else
        let args := 1 + rest.length
        if args = 1 then .ok (some (.size team.statHistory.length))
        else
          let teamStats := team.statHistory
          let statCount : Int := teamStats.length
          let start := GetTeamStatsHistory.index L statCount rest[0]? 0
          let stop := GetTeamStatsHistory.index L statCount rest[1]? start
          if statCount > 0 then
            let visited := (List.range (stop + 1 - start).toNat).map (fun (k : Nat) => start + (k : Int))
            match GetTeamStatsHistory.loop W teamStats visited [] 1 with
            | none => .ok (some .outOfRange)
            | some t => .ok (some (.table t))
          else .ok (some (.table []))

/-! ## GetTeamUnitsSorted and GetTeamUnitsByDefs (source lines 2353-2509, 2602-2658) -/

/-- A value on the Lua stack of GetTeamUnitsSorted: a number, a string, or a
table whose values are again such values.  Every table is referred to from
one stack slot only until it is stored into another table, so tables are
kept by value. -/
inductive SortedValue where
  | number (n : Int)
  | string (s : String)
  | table (t : List (LuaKey × SortedValue))

/-- The key that a value on the stack denotes when lua_rawset uses it as a
key; GetTeamUnitsSorted uses numbers and strings as keys. -/
def SortedValue.toKey : SortedValue → Option LuaKey
  | .number n => some (.int n)
  | .string s => some (.str s)
  | .table _ => none

/-- The call `lua_rawseti(L, -2, n)` on a stack given top first: the value on
top is popped and stored at the key `n` of the table below it. -/
def SortedValue.rawseti (stack : List SortedValue) (n : Int) : List SortedValue :=
  match stack with
  | v :: .table t :: rest => .table (LuaTable.rawset t (.int n) v) :: rest
  | _ => stack

/-- The call `lua_rawset(L, -3)` on a stack given top first: the value on top
and the key below it are popped and stored into the table below them. -/
def SortedValue.rawset (stack : List SortedValue) : List SortedValue :=
  match stack with
  | v :: k :: .table t :: rest =>
    match k.toKey with
    | some key => .table (LuaTable.rawset t key v) :: rest
    | none => stack
  | _ => stack

/-- The Lua stack, the static buffer gtuObjectIDs and the two counters of
GetTeamUnitsSorted (source lines 2435-2436), which PushVisibleUnits updates
through pointers. -/
structure GetTeamUnitsSorted.State where
  stack : List SortedValue
  gtuObjectIDs : List Int
  unitCount : Nat
  defCount : Nat

/-- One iteration of the loop of PushVisibleUnits (source lines 2362-2384);
the first component of `acc` is `createdTable`. -/
def PushVisibleUnits.step (H : LuaUtils) (L : lua_State) (unitDefID : Int)
    (acc : Bool × GetTeamUnitsSorted.State) (unit : CUnit) : Bool × GetTeamUnitsSorted.State :=
  if !H.IsUnitVisible L unit then acc
  else if !H.IsUnitTyped L unit then
    (acc.1, { acc.2 with gtuObjectIDs := acc.2.gtuObjectIDs ++ [unit.id] })
  else
    let st : GetTeamUnitsSorted.State :=
      if !acc.1 then
        { acc.2 with
          stack := .table [] :: .number unitDefID :: acc.2.stack
          defCount := acc.2.defCount + 1 }
      else acc.2
    (true,
      { st with
        stack := SortedValue.rawseti (.number unit.id :: st.stack) st.unitCount
        unitCount := st.unitCount + 1 })

/-- PushVisibleUnits (source lines 2353-2387): the return value `createdTable`
and the state it leaves. -/
def PushVisibleUnits (H : LuaUtils) (L : lua_State) (defUnits : List CUnit) (unitDefID : Int)
    (st : GetTeamUnitsSorted.State) : Bool × GetTeamUnitsSorted.State :=
  defUnits.foldl (PushVisibleUnits.step H L unitDefID) (false, st)

/-- One iteration of the allied loop of GetTeamUnitsSorted (source lines
2443-2458). -/
def GetTeamUnitsSorted.allyStep (W : World) (teamID : Int) (st : GetTeamUnitsSorted.State)
    (i : Nat) : GetTeamUnitsSorted.State :=
  let unitsByDef := W.GetUnitsByTeamAndDef teamID (i + 1)
  if unitsByDef.isEmpty then st
  else
    let st : GetTeamUnitsSorted.State :=
      { st with
        stack := .table [] :: .number ((i + 1 : Nat) : Int) :: st.stack
        defCount := st.defCount + 1 }
    let st := unitsByDef.foldl
      (fun (st : GetTeamUnitsSorted.State) unit =>
        { st with
          stack := SortedValue.rawseti (.number unit.id :: st.stack) st.unitCount
          unitCount := st.unitCount + 1 })
      st
    { st with stack := SortedValue.rawset st.stack }

/-- One iteration of the enemy loop of GetTeamUnitsSorted (source lines
2464-2488).  The definitions 1..NumUnitDefs() exist; an ID for which
GetUnitDefByID gave the null pointer is passed over here. -/
def GetTeamUnitsSorted.enemyStep (H : LuaUtils) (W : World) (L : lua_State) (teamID : Int)
    (st : GetTeamUnitsSorted.State) (i : Nat) : GetTeamUnitsSorted.State :=
  let unitDefID := i + 1
  match W.GetUnitDefByID ((unitDefID : Nat) : Int) with
  | none => st
  | some ud =>
    if ud.decoyDef.isSome then st
    else
      let r := PushVisibleUnits H L (W.GetUnitsByTeamAndDef teamID unitDefID)
        ((unitDefID : Nat) : Int) st
      let r : Bool × GetTeamUnitsSorted.State :=
        match W.decoyDefIDs.lookup unitDefID with
        | none => r
        | some decoyDefIDs =>
          decoyDefIDs.foldl
            (fun (r : Bool × GetTeamUnitsSorted.State) decoyDefID =>
              let r2 := PushVisibleUnits H L (W.GetUnitsByTeamAndDef teamID decoyDefID)
                ((unitDefID : Nat) : Int) r.2
              (r.1 || r2.1, r2.2))
            r
      if r.1 then { r.2 with stack := SortedValue.rawset r.2.stack } else r.2

/-- The "unknown" bucket of GetTeamUnitsSorted (source lines 2490-2503). -/
def GetTeamUnitsSorted.pushUnknown (st : GetTeamUnitsSorted.State) : GetTeamUnitsSorted.State :=
  if st.gtuObjectIDs.isEmpty then st
  else
    let st : GetTeamUnitsSorted.State :=
      { st with
        stack := .table [] :: .string "unknown" :: st.stack
        defCount := st.defCount + 1
        unitCount := 1 }
    let st := st.gtuObjectIDs.foldl
      (fun (st : GetTeamUnitsSorted.State) unitID =>
        { st with
          stack := SortedValue.rawseti (.number unitID :: st.stack) st.unitCount
          unitCount := st.unitCount + 1 })
      st
    { st with stack := SortedValue.rawset st.stack }

/-- GetTeamUnitsSorted (source lines 2422-2509).  `teamID` is the value of
`luaL_checkint(L, 1)`.  The first component is the value on top of the stack
when the function returns 1, the second the state of the static buffers after
the call.  The counters are `unsigned int`; they count elements of containers
held in memory and are modelled without wrap-around. -/
def GetTeamUnitsSorted (H : LuaUtils) (W : World) (L : lua_State) (teamID : Int) (S : Statics) :
    Except String (Option SortedValue) × Statics :=
  if L.readAllyTeam = CEventClient.NoAccessTeam then (.ok none, S)
  else
    match ParseTeam W "GetTeamUnitsSorted" teamID with
    | .error e => (.error e, S)
    | .ok team =>
      let teamID := team.teamNum
      let st : GetTeamUnitsSorted.State :=
        { stack := [.table []], gtuObjectIDs := S.gtuObjectIDs, unitCount := 1, defCount := 0 }
      let st : GetTeamUnitsSorted.State :=
        if H.IsAlliedTeam L teamID then
          (List.range W.NumUnitDefs).foldl (GetTeamUnitsSorted.allyStep W teamID) st
        else
          let st := { st with gtuObjectIDs := [] }
          let st := (List.range W.NumUnitDefs).foldl
            (GetTeamUnitsSorted.enemyStep H W L teamID) st
          GetTeamUnitsSorted.pushUnknown st
      let stack := SortedValue.rawset (.number st.defCount :: .string "n" :: st.stack)
      (.ok stack.head?, { S with gtuObjectIDs := st.gtuObjectIDs })

/-- The second argument of GetTeamUnitsByDefs: a value that is no table, or a
table, given by its values in the order in which lua_next delivers them. -/
inductive UnitDefsArg where
  | value (v : LuaValue)
  | table (values : List LuaValue)

/-- InsertSearchUnitDefs (source lines 2389-2413): the buffer gtuObjectIDs
after the call. -/
def InsertSearchUnitDefs (W : World) (ud : Option UnitDef) (allied : Bool)
    (gtuObjectIDs : List Int) : List Int :=
  match ud with
  | none => gtuObjectIDs
  | some ud =>
    if allied then gtuObjectIDs ++ [(ud.id : Int)]
    else if ud.decoyDef.isSome then gtuObjectIDs
    else
      let gtuObjectIDs := gtuObjectIDs ++ [(ud.id : Int)]
      match W.decoyDefIDs.lookup ud.id with
      | none => gtuObjectIDs
      | some decoyDefIDs => decoyDefIDs.foldl (fun ids decoyDefID => ids ++ [(decoyDefID : Int)])
          gtuObjectIDs

/-- One iteration of the outer loop of GetTeamUnitsByDefs (source lines
2642-2655): `acc` holds the table under construction, `unitCount` and
`prevUnitDefID`.  The buffer holds IDs of unit definitions, which are not
negative, so none equals the initial `prevUnitDefID` of -1. -/
def GetTeamUnitsByDefs.step (H : LuaUtils) (W : World) (L : lua_State) (teamID : Int)
    (allied : Bool) (acc : LuaTable Int × Nat × Int) (unitDefID : Int) :
    LuaTable Int × Nat × Int :=
  if unitDefID = acc.2.2 then acc
  else
    let pushed := (W.GetUnitsByTeamAndDef teamID unitDefID.toNat).foldl
      (fun (tc : LuaTable Int × Nat) unit =>
        if !allied && !H.IsUnitTyped L unit then tc
        else (tc.1.rawset (.int (tc.2 : Int)) unit.id, tc.2 + 1))
      (acc.1, acc.2.1)
    (pushed.1, pushed.2, unitDefID)

/-- GetTeamUnitsByDefs (source lines 2602-2658).  `teamID` is the value of
`luaL_checkint(L, 1)` and `unitDefIDs` the second argument.  The second
component is the state of the static buffers after the call.  The sort of
integers is taken as insertion sort, which is stable. -/
def GetTeamUnitsByDefs (H : LuaUtils) (W : World) (L : lua_State) (teamID : Int)
    (unitDefIDs : UnitDefsArg) (S : Statics) : Except String (Option (LuaTable Int)) × Statics :=
  if L.readAllyTeam = CEventClient.NoAccessTeam then (.ok none, S)
  else
    match ParseTeam W "GetTeamUnitsByDefs" teamID with
    | .error e => (.error e, S)
    | .ok team =>
      let teamID := team.teamNum
      let allied := H.IsAlliedTeam L teamID
      let gtuObjectIDs : List Int := []
      let parsed : Option (List Int) :=
        match unitDefIDs with
        | .value v =>
          if lua_isnumber L v then
            some (InsertSearchUnitDefs W (W.GetUnitDefByID (lua_toint L v)) allied gtuObjectIDs)
          else none
        | .table values =>
          some (values.foldl
            (fun ids v =>
              if !lua_isnumber L v then ids
              else InsertSearchUnitDefs W (W.GetUnitDefByID (lua_toint L v)) allied ids)
            gtuObjectIDs)
      match parsed with
      | none =>
        (.error "Incorrect arguments to GetTeamUnitsByDefs()", { S with gtuObjectIDs := gtuObjectIDs })
      | some gtuObjectIDs =>
        let gtuObjectIDs := gtuObjectIDs.insertionSort (fun a b => a ≤ b)
        let r := gtuObjectIDs.foldl (GetTeamUnitsByDefs.step H W L teamID allied) ([], 1, -1)
        (.ok (some r.1), { S with gtuObjectIDs := gtuObjectIDs })

/-! ## The helpers of LuaUtils.h, from the spec -/

namespace LuaUtilsSpec

/-- Modelled from the spec: LuaUtils::IsAlliedAllyTeam is not part of the
sources.  Spec §4.1: full disclosure "if observer has full-read privilege",
else "if entity's owning team is allied (by the AllyTeam relation) with
observer's read-allyteam"; spec §4.4: "ally" is "allyteam match". -/
def IsAlliedAllyTeam (L : lua_State) (allyTeam : Int) : Bool :=
  L.fullRead || decide (allyTeam = L.readAllyTeam)

/-- Modelled from the spec: LuaUtils::IsAlliedTeam is not part of the sources.
The allyteam of the team (spec §3: a team is a member of exactly one AllyTeam)
is compared as in IsAlliedAllyTeam. -/
def IsAlliedTeam (W : World) (L : lua_State) (team : Int) : Bool :=
  IsAlliedAllyTeam L (W.AllyTeam team)

/-- Modelled from the spec: LuaUtils::IsAllyUnit is not part of the sources.
The unit's allyteam is compared as in IsAlliedAllyTeam. -/
def IsAllyUnit (L : lua_State) (unit : CUnit) : Bool :=
  IsAlliedAllyTeam L unit.allyteam

/-- Modelled from the spec: LuaUtils::IsEnemyUnit is not part of the sources.
Spec §3 and §4.1 oppose "allied" and "non-allied" observers; an enemy unit is
a unit that is not allied. -/
def IsEnemyUnit (L : lua_State) (unit : CUnit) : Bool :=
  !IsAllyUnit L unit

/-- The visibility status of a unit for the caller's read-allyteam;
`none` when the read-allyteam is a negative sentinel, which indexes no
status. -/
def readLosStatus (L : lua_State) (losStatus : Nat → Nat) : Option Nat :=
  if L.readAllyTeam < 0 then none else some (losStatus L.readAllyTeam.toNat)

/-- Modelled from the spec: LuaUtils::IsUnitVisible is not part of the sources.
Spec §4.1: "allies always see live state"; glossary: LOS and radar are the two
kinds of current sensor coverage, radar "reveals existence"; spec §4.1: for
the "no access" sentinel nothing is disclosed. -/
def IsUnitVisible (L : lua_State) (unit : CUnit) : Bool :=
  IsAllyUnit L unit ||
    match readLosStatus L unit.losStatus with
    | none => false
    | some losStatus => decide ((losStatus &&& (LOS_INLOS ||| LOS_INRADAR)) ≠ 0)

/-- Modelled from the spec: LuaUtils::IsUnitInLos is not part of the sources.
Spec §4.4: "LOS-gated: requires IN_LOS"; spec §4.1: "allies always see live
state"; for the "no access" sentinel nothing is disclosed. -/
def IsUnitInLos (L : lua_State) (unit : CUnit) : Bool :=
  IsAllyUnit L unit ||
    match readLosStatus L unit.losStatus with
    | none => false
    | some losStatus => decide ((losStatus &&& LOS_INLOS) ≠ 0)

/-- Modelled from the spec: LuaUtils::IsUnitTyped is not part of the sources.
Spec §4.1: typed is "PREV_LOS|CONTINUOUS_RADAR both set", and "if IN_LOS is set,
the typed ... tiers are also implied" (§8); this is also the test of
GetUnitLosState (source lines 7389-7391 and 7409). -/
def IsUnitTyped (L : lua_State) (unit : CUnit) : Bool :=
  IsAllyUnit L unit ||
    match readLosStatus L unit.losStatus with
    | none => false
    | some losStatus =>
      decide ((losStatus &&& LOS_INLOS) ≠ 0) ||
        decide ((losStatus &&& (LOS_PREVLOS ||| LOS_CONTRADAR)) = (LOS_PREVLOS ||| LOS_CONTRADAR))

/-- Modelled from the spec: LuaUtils::IsFeatureVisible is not part of the
sources.  A feature is visible to its allies and to an allyteam that has it in
LOS (spec §3, visibility status per entity and allyteam). -/
def IsFeatureVisible (L : lua_State) (feature : CFeature) : Bool :=
  IsAlliedAllyTeam L feature.allyteam ||
    match readLosStatus L feature.losStatus with
    | none => false
    | some losStatus => decide ((losStatus &&& LOS_INLOS) ≠ 0)

/-- Modelled from the spec: LuaUtils::EffectiveUnitDef is not part of the
sources.  Spec §4.1: "Returns the true definition if the entity is allied to
the observer, or if no decoy definition is set. Otherwise returns the decoy
definition." -/
def EffectiveUnitDef (L : lua_State) (unit : CUnit) : UnitDef :=
  if IsAllyUnit L unit then unit.unitDef
  else
    match unit.unitDef.decoyDef with
    | none => unit.unitDef
    | some decoyDef => decoyDef

end LuaUtilsSpec

/-- The helpers of LuaUtils.h as the spec describes them, for a world `W`. -/
def specLuaUtils (W : World) : LuaUtils where
  IsAlliedTeam := LuaUtilsSpec.IsAlliedTeam W
  IsAlliedAllyTeam := LuaUtilsSpec.IsAlliedAllyTeam
  IsAllyUnit := LuaUtilsSpec.IsAllyUnit
  IsEnemyUnit := LuaUtilsSpec.IsEnemyUnit
  IsUnitVisible := LuaUtilsSpec.IsUnitVisible
  IsUnitInLos := LuaUtilsSpec.IsUnitInLos
  IsUnitTyped := LuaUtilsSpec.IsUnitTyped
  IsFeatureVisible := LuaUtilsSpec.IsFeatureVisible
  EffectiveUnitDef := LuaUtilsSpec.EffectiveUnitDef

/-! ## A concrete scenario (spec §8)

Team 0 is alone in allyteam 0; teams 1 and 2 form allyteam 1.  Team 1 stores
the rules parameter "score" with level allied.  Unit 7 of team 1 (definition
42, health 100 of 100) is in radar only for allyteam 0. -/

namespace Scenario

/-- The rules parameters of team 1: "score", stored with level allied. -/
def teamParams : Params where
  entries := [("score", { los := RULESPARAMLOS_ALLIED, value := .number 7 })]
  nodup := by simp

/-- An empty parameter map. -/
def noParams : Params where
  entries := []
  nodup := by simp

/-- The allyteam of each team of the scenario; -1 for an ID that is no team. -/
def allyTeamOf (team : Int) : Int :=
  if team = 0 then 0 else if team = 1 ∨ team = 2 then 1 else -1

/-- Unit definition 42 of the scenario: 100 health, no decoy. -/
def def42 : UnitDef := .mk 42 100 false none "armpw" []

/-- Unit 7: owned by team 1, in radar only for allyteam 0. -/
def unitU : CUnit where
  id := 7
  team := 1
  allyteam := 1
  unitDef := def42
  losStatus := fun allyTeam => if allyTeam = 0 then LOS_INRADAR else 0
  health := 100
  maxHealth := 100
  paralyzeDamage := 0
  captureProgress := 0
  buildProgress := 1
  modParams := teamParams
  pos := { x := 10, y := 0, z := 20 }
  midPos := { x := 10, y := 5, z := 20 }
  aimPos := { x := 10, y := 8, z := 20 }
  radius := 4
  GetLuaErrorVector := fun _ fullRead => if fullRead then float3.zero else { x := 3, y := 0, z := -2 }
  experience := 2
  limExperience := 1 / 2
  isCloaked := true
  stockpileWeapon := some { numStockpiled := 1, numStockpileQued := 2, buildPercent := 0 }
  commandAI := { commandQue := [], newUnitCommands := none }
  unitType := .other

/-- Feature 3 of team 1. -/
def featureF : CFeature where
  id := 3
  team := 1
  allyteam := 1
  losStatus := fun _ => 0
  modParams := teamParams
  pos := { x := 1, y := 0, z := 1 }
  midPos := { x := 1, y := 1, z := 1 }
  aimPos := { x := 1, y := 2, z := 1 }

/-- The world of the scenario, game running. -/
def world : World where
  game := some { IsGameOver := false }
  IsValidTeam := fun team => decide (0 ≤ team) && decide (team < 3)
  Team := fun team => { teamNum := team, modParams := if team = 1 then teamParams else noParams }
  AlliedTeams := fun a b => decide (allyTeamOf a = allyTeamOf b)
  AllyTeam := allyTeamOf
  units := [unitU]
  features := [featureF]
  NumUnitDefs := 42
  decoyDefIDs := []
  ActiveTeams := 3
  GetUnitDefByID := fun id => if id = 42 then some def42 else none
  GetUnitsExact := fun _ _ => [unitU]
  ActiveAllyTeams := 2
  GetLuaSimFrame := 900

/-- The access context of a caller reading as team 0 (allyteam 0). -/
def asTeam0 : lua_State where
  readTeam := 0
  readAllyTeam := 0
  fullRead := false
  synced := true
  str2number := fun _ => none

/-- The access context of a caller reading as team 2 (allyteam 1). -/
def asTeam2 : lua_State where
  readTeam := 2
  readAllyTeam := 1
  fullRead := false
  synced := true
  str2number := fun _ => none

/-- The access context of a caller whose read-allyteam is the no-access
sentinel. -/
def noAccess : lua_State where
  readTeam := CEventClient.NoAccessTeam
  readAllyTeam := CEventClient.NoAccessTeam
  fullRead := false
  synced := false
  str2number := fun _ => none

/-- A parameter map with the one parameter "kind" of the typed level. -/
def typedParams : Params where
  entries := [("kind", { los := RULESPARAMLOS_TYPED, value := .number 3 })]
  nodup := by simp

/-- Unit 7 with PREV_LOS and IN_RADAR set for allyteam 0, and IN_LOS and
CONTINUOUS_RADAR unset: a unit seen before that has come back into radar
coverage.  It carries the parameter "kind" of the typed level. -/
def unitPrevLos : CUnit :=
  { unitU with
    losStatus := fun allyTeam => if allyTeam = 0 then LOS_PREVLOS ||| LOS_INRADAR else 0
    modParams := typedParams }

/-- Unit 7 with IN_LOS set in addition to IN_RADAR for allyteam 0. -/
def unitInLos : CUnit :=
  { unitU with losStatus := fun allyTeam => if allyTeam = 0 then LOS_INLOS ||| LOS_INRADAR else 0 }

/-- The running game of the scenario. -/
def running : CGame := { IsGameOver := false }

/-- The finished game. -/
def finished : CGame := { IsGameOver := true }

/-- The scenario world with another list of live units. -/
def worldOf (units : List CUnit) : World :=
  { world with units := units, GetUnitsExact := fun _ _ => units }

/-- Unit definition 43: 50 health, with definition 42 as its decoy definition. -/
def def43 : UnitDef := .mk 43 50 false (some def42) "armdecoy" []

/-- A definition with health 0 and definition 42 as its decoy definition. -/
def def44Zero : UnitDef := .mk 44 0 false (some def42) "armzero" []

/-- Unit 8 of team 1: true definition 43 (decoy definition 42), in LOS of
allyteam 0, health 20 of 50, paralyze damage 10. -/
def unitDecoy : CUnit :=
  { unitU with
    id := 8
    unitDef := def43
    losStatus := fun allyTeam => if allyTeam = 0 then LOS_INLOS else 0
    health := 20
    maxHealth := 50
    paralyzeDamage := 10 }

/-- Unit 8 with a true definition of health 0. -/
def unitZero : CUnit := { unitDecoy with unitDef := def44Zero }

/-- Unit 1 of team 0 (allyteam 0). -/
def unitA : CUnit := { unitU with id := 1, team := 0, allyteam := 0 }

/-- Unit 2 of team 1 (allyteam 1), in LOS of allyteam 0. -/
def unitB : CUnit := { unitInLos with id := 2 }

/-- A world in which definition 43 is registered as a decoy of definition 42;
team 1 owns unit 7 (definition 42, radar only), unit 2 (definition 42, in LOS)
and unit 8 (true definition 43, in LOS). -/
def decoyWorld : World :=
  { worldOf [unitU, unitB, unitDecoy] with
    NumUnitDefs := 43
    decoyDefIDs := [(42, [43])]
    GetUnitDefByID := fun id =>
      if id = 42 then some def42 else if id = 43 then some def43 else none }

/-- Unit 7 with PREV_LOS and CONTINUOUS_RADAR set for allyteam 0, and neither
IN_LOS nor IN_RADAR: typed, not in LOS. -/
def unitTyped : CUnit :=
  { unitU with losStatus := fun allyTeam => if allyTeam = 0 then LOS_PREVLOS ||| LOS_CONTRADAR else 0 }

/-- Three commands: a move order and two build orders. -/
def cmdMove : Command := { id := 10, options := 0, tag := 1, params := [1, 2, 3] }

/-- A build order for definition 42. -/
def cmdBuild42 : Command := { id := -42, options := 0, tag := 2, params := [] }

/-- A build order for definition 43. -/
def cmdBuild43 : Command := { id := -43, options := 0, tag := 3, params := [] }

/-- Unit 1 of team 0 with a queue of three commands; no factory. -/
def unitQueue : CUnit :=
  { unitA with commandAI := { commandQue := [cmdMove, cmdBuild42, cmdBuild43], newUnitCommands := none } }

/-- Unit 1 of team 0 as a factory: its own queue holds two build orders, the
orders for newly built units hold one move order. -/
def unitFactory : CUnit :=
  { unitA with
    commandAI := { commandQue := [cmdBuild42, cmdBuild43], newUnitCommands := some [cmdMove] }
    unitType := .factory none }

/-- A build order for definition 99, which does not exist. -/
def cmdBuild99 : Command := { id := -99, options := 0, tag := 4, params := [] }

/-- The definition of a builder whose only build option is definition 42,
written in another case than the name of that definition. -/
def defBuilder : UnitDef := .mk 41 500 false none "armcv" [(1, "ArmPW")]

/-- Unit 1 of team 0 as a builder with six commands: build orders for the
definitions 42, 43, 42, 99 and 42, and a move order after the second. -/
def unitBuilder : CUnit :=
  { unitA with
    unitDef := defBuilder
    commandAI :=
      { commandQue := [cmdBuild42, cmdBuild43, cmdMove, cmdBuild42, cmdBuild99, cmdBuild42]
        newUnitCommands := none }
    unitType := .builder none }

/-- The builder after the orders it cannot start (definitions 43 and 99) have
been removed from its queue. -/
def unitBuilderFiltered : CUnit :=
  { unitBuilder with
    commandAI :=
      { commandQue := [cmdBuild42, cmdMove, cmdBuild42, cmdBuild42]
        newUnitCommands := none } }

/-- The world with the definitions 42 and 43 and the given builder as its only
unit. -/
def builderWorld (unit : CUnit) : World :=
  { decoyWorld with units := [unit], GetUnitsExact := fun _ _ => [unit] }

/-- Unit 1 of team 0 as a factory whose queue holds one build order, for
definition 42. -/
def unitFactoryOne : CUnit :=
  { unitA with
    commandAI := { commandQue := [cmdBuild42], newUnitCommands := some [] }
    unitType := .factory none }

/-- Unit 1 of team 0 with a position-error-bit lookup that answers true only
for the index 2, which is the ID of no allyteam of the scenario. -/
def unitPosError : CUnit :=
  { unitA with GetPosErrorBit := fun allyTeam => decide (allyTeam = 2) }

/-- Unit 9 of team 0 (allyteam 0), of definition 43. -/
def unitA9 : CUnit := { unitA with id := 9, unitDef := def43 }

/-- The world with the definitions 42 and 43 in which team 0 owns unit 1, of
definition 42, and unit 9, of definition 43. -/
def sortedWorld : World :=
  { decoyWorld with units := [unitA, unitA9], GetUnitsExact := fun _ _ => [unitA, unitA9] }

/-- Empty static buffers. -/
def noStatics : Statics := { gtuObjectIDs := [], gtuDefCounts := [] }

end Scenario

/-! ## Lemmas on tables -/

theorem rawget_rawset_self {V : Type} (t : LuaTable V) (k : LuaKey) (v : V) :
    (t.rawset k v).rawget k = some v := by
  have h : List.find? (fun e : LuaKey × V => decide (e.1 = k))
      (List.filter (fun e => !decide (e.1 = k)) t) = none := by
    rw [List.find?_eq_none]
    intro x hx
    simp only [List.mem_filter] at hx
    simpa using hx.2
  simp [LuaTable.rawset, LuaTable.rawget, List.find?_append, h]

theorem rawget_rawset_ne {V : Type} (t : LuaTable V) (k k2 : LuaKey) (v : V) (hne : k2 ≠ k) :
    (t.rawset k v).rawget k2 = t.rawget k2 := by
  have h : List.find? (fun e : LuaKey × V => decide (e.1 = k2))
      (List.filter (fun e => !decide (e.1 = k)) t)
      = List.find? (fun e : LuaKey × V => decide (e.1 = k2)) t := by
    induction t with
    | nil => rfl
    | cons e t ih =>
      by_cases h1 : e.1 = k
      · have h2 : ¬ e.1 = k2 := fun h => hne (h ▸ h1 ▸ rfl)
        rw [List.filter_cons_of_neg (by simp [h1]), List.find?_cons_of_neg _ (by simp [h2])]
        exact ih
      · rw [List.filter_cons_of_pos (by simp [h1])]
        by_cases h2 : e.1 = k2
        · rw [List.find?_cons_of_pos _ (by simp [h2]), List.find?_cons_of_pos _ (by simp [h2])]
        · rw [List.find?_cons_of_neg _ (by simp [h2]), List.find?_cons_of_neg _ (by simp [h2])]
          exact ih
  have h3 : ¬ k = k2 := fun h => hne h.symm
  simp only [LuaTable.rawset, LuaTable.rawget, List.find?_append, h]
  cases hfind : List.find? (fun e : LuaKey × V => decide (e.1 = k2)) t <;>
    simp [List.find?_cons, h3]

/-! ## Rules parameters: the dump and the lookup -/

/-- The loop of PushRulesParams never writes an integer key. -/
theorem pushLoop_rawget_int (m : Nat) (i : Int) (entries : List (String × Param)) :
    ∀ t : LuaTable LuaValue,
      (entries.foldl (PushRulesParams.step m) t).rawget (.int i)
        = t.rawget (.int i) := by
  induction entries with
  | nil => intro t; rfl
  | cons e es ih =>
    intro t
    rw [List.foldl_cons, ih]
    unfold PushRulesParams.step
    by_cases h : (e.2.los &&& m) = 0
    · simp [h]
    · simp only [h, if_false]
      exact rawget_rawset_ne _ _ _ _ (by simp)

/-- The loop of PushRulesParams leaves a key alone that is not among the
entries it walks. -/
theorem pushLoop_rawget_absent (m : Nat) (k : String) (entries : List (String × Param))
    (habs : k ∉ entries.map Prod.fst) :
    ∀ t : LuaTable LuaValue,
      (entries.foldl (PushRulesParams.step m) t).rawget (.str k)
        = t.rawget (.str k) := by
  induction entries with
  | nil => intro t; rfl
  | cons e es ih =>
    intro t
    simp only [List.map_cons, List.mem_cons, not_or] at habs
    rw [List.foldl_cons, ih habs.2]
    unfold PushRulesParams.step
    by_cases h : (e.2.los &&& m) = 0
    · simp [h]
    · simp only [h, if_false]
      refine rawget_rawset_ne _ _ _ _ ?_
      intro hk
      exact habs.1 (by injection hk)

/-- What the loop of PushRulesParams leaves under a string key, for a map
without duplicate keys. -/
theorem pushLoop_rawget_str (m : Nat) (k : String) (entries : List (String × Param))
    (hnd : (entries.map Prod.fst).Nodup) :
    ∀ t : LuaTable LuaValue,
      (entries.foldl (PushRulesParams.step m) t).rawget (.str k)
        = match entries.lookup k with
          | none => t.rawget (.str k)
          | some param =>
            if (param.los &&& m) = 0 then t.rawget (.str k)
            else some (pushParamValue param.value) := by
  induction entries with
  | nil => intro t; rfl
  | cons e es ih =>
    intro t
    obtain ⟨name, param⟩ := e
    simp only [List.map_cons, List.nodup_cons] at hnd
    rw [List.foldl_cons]
    by_cases hk : k = name
    · subst hk
      rw [pushLoop_rawget_absent m k es hnd.1]
      unfold PushRulesParams.step
      simp only [List.lookup_cons, beq_self_eq_true]
      by_cases h : (param.los &&& m) = 0
      · simp [h]
      · simp only [h, if_false]
        exact rawget_rawset_self _ _ _
    · rw [ih hnd.2]
      have hbeq : (k == name) = false := by simpa using hk
      simp only [List.lookup_cons, hbeq]
      have hkeep : LuaTable.rawget (PushRulesParams.step m t (name, param)) (.str k)
          = t.rawget (.str k) := by
        unfold PushRulesParams.step
        by_cases h : (param.los &&& m) = 0
        · simp [h]
        · simp only [h, if_false]
          refine rawget_rawset_ne _ _ _ _ ?_
          intro hkk
          exact hk (by injection hkk)
      simp only [hkeep]

/-- The table of PushRulesParams, read at a string key. -/
theorem PushRulesParams_rawget_str (params : Params) (m : Nat) (k : String) :
    (PushRulesParams params m).rawget (.str k)
      = match params.find k with
        | none => none
        | some param =>
          if (param.los &&& m) = 0 then none else some (pushParamValue param.value) := by
  unfold PushRulesParams
  rw [pushLoop_rawget_str m k params.entries params.nodup]
  rfl

/-- The table of PushRulesParams has no integer key. -/
theorem PushRulesParams_rawget_int (params : Params) (m : Nat) (i : Int) :
    (PushRulesParams params m).rawget (.int i) = none := by
  unfold PushRulesParams
  rw [pushLoop_rawget_int]
  rfl

/-- The single-key lookup returns what the dump holds under the key. -/
theorem GetRulesParam_eq_rawget (params : Params) (m : Nat) (k : String) :
    GetRulesParam params k m = ((PushRulesParams params m).rawget (.str k)).toList := by
  rw [PushRulesParams_rawget_str]
  unfold GetRulesParam
  cases params.find k with
  | none => rfl
  | some param =>
    by_cases h : (param.los &&& m) = 0 <;> simp [h]

/-- C2. The table built by PushRulesParams binds a key to a value exactly when
the key is a stored parameter name whose level shares a bit with the mask and
the value is the stored one; every other key, in particular a stored name
whose level fails the mask, is absent. -/
theorem PushRulesParams_keys (params : Params) (m : Nat) (key : LuaKey) (v : LuaValue) :
    (PushRulesParams params m).rawget key = some v ↔
      ∃ k param, key = .str k ∧ params.find k = some param ∧ (param.los &&& m) ≠ 0 ∧
        v = pushParamValue param.value := by
  cases key with
  | int i =>
    rw [PushRulesParams_rawget_int]
    constructor
    · intro h; cases h
    · rintro ⟨k, param, hk, _⟩; cases hk
  | str k =>
    rw [PushRulesParams_rawget_str]
    constructor
    · intro h
      cases hf : params.find k with
      | none => rw [hf] at h; cases h
      | some param =>
        rw [hf] at h
        by_cases hm : (param.los &&& m) = 0
        · simp [hm] at h
        · simp only [hm, if_false, Option.some.injEq] at h
          exact ⟨k, param, rfl, hf, hm, h.symm⟩
    · rintro ⟨k2, param, hk, hf, hm, hv⟩
      injection hk with hk
      subst hk
      simp [hf, hm, hv]

/-- C3. Single-key lookup agrees with the full-table dump, for teams and for
features: GetTeamRulesParam (resp. GetFeatureRulesParam) raises an error
exactly when the dump raises one; otherwise it returns the one value the
dump's table holds under the key, and zero results when the key is absent
from the table or the dump returns no table. -/
theorem GetRulesParam_agrees_with_dump (H : LuaUtils) (W : World) (L : lua_State) (game : CGame)
    (teamID : Int) (featureID : LuaValue) (k : String) :
    (match GetTeamRulesParam H W L teamID k, GetTeamRulesParams H W L teamID with
      | .ok vs, .ok none => vs = []
      | .ok vs, .ok (some t) => vs = (t.rawget (.str k)).toList
      | .error _, .error _ => True
      | _, _ => False)
    ∧ (match GetFeatureRulesParam H W L game featureID k,
          GetFeatureRulesParams H W L game featureID with
      | .ok vs, .ok none => vs = []
      | .ok vs, .ok (some t) => vs = (t.rawget (.str k)).toList
      | .error _, .error _ => True
      | _, _ => False) := by
  constructor
  · unfold GetTeamRulesParam GetTeamRulesParams ParseTeam
    by_cases hv : W.IsValidTeam teamID = true
    · cases hg : W.game with
      | none => simp [hv]
      | some g =>
        simp only [hv, Bool.not_true, Bool.false_eq_true, if_false]
        rw [GetRulesParam_eq_rawget]
        rfl
    · simp [hv]
  · unfold GetFeatureRulesParam GetFeatureRulesParams ParseFeature
    by_cases hn : lua_isnumber L featureID = true
    · cases hf : W.GetFeature (lua_toint L featureID) with
      | none => simp [hn]
      | some f =>
        by_cases hvis : H.IsFeatureVisible L f = true
        · simp only [hn, hvis, Bool.not_true, Bool.false_eq_true, if_false]
          rw [GetRulesParam_eq_rawget]
          rfl
        · simp [hn, hvis]
    · simp [hn]

/-! ## The access mask of unit rules parameters -/

/-- A mask that misses a status misses every part of that status. -/
theorem and_eq_zero_of_part (s a m : Nat) (ham : a &&& m = a) (h : s &&& m = 0) :
    s &&& a = 0 := by
  rw [← ham, Nat.and_comm a m, ← Nat.and_assoc, h, Nat.zero_and]

/-- A bit test that fails on a status fails on every status contained in it. -/
theorem and_eq_zero_of_sub (s s2 c : Nat) (hsub : s &&& s2 = s) (h : s2 &&& c = 0) :
    s &&& c = 0 := by
  rw [← hsub, Nat.and_assoc, h, Nat.and_zero]

/-- C4. Alliance supersedes LOS: for a unit allied to the caller, whatever its
visibility status, the mask returned by GetUnitRulesParamLosMask contains
every bit of RULESPARAMLOS_INLOS_MASK. -/
theorem GetUnitRulesParamLosMask_ally (H : LuaUtils) (W : World) (L : lua_State) (game : CGame)
    (unit : CUnit) (hally : H.IsAllyUnit L unit = true) :
    GetUnitRulesParamLosMask H W L game unit &&& RULESPARAMLOS_INLOS_MASK
      = RULESPARAMLOS_INLOS_MASK := by
  unfold GetUnitRulesParamLosMask
  simp only [hally, Bool.true_or, if_true]
  decide

/-- C4, at the scenario: unit 7 read by team 2, its ally, with a status that
has no bit set for allyteam 1. -/
theorem GetUnitRulesParamLosMask_ally_witness :
    (specLuaUtils Scenario.world).IsAllyUnit Scenario.asTeam2 Scenario.unitU = true
      ∧ Scenario.unitU.losStatus 1 = 0
      ∧ GetUnitRulesParamLosMask (specLuaUtils Scenario.world) Scenario.world Scenario.asTeam2
          Scenario.running Scenario.unitU &&& RULESPARAMLOS_INLOS_MASK
        = RULESPARAMLOS_INLOS_MASK :=
  ⟨by decide, by decide,
    GetUnitRulesParamLosMask_ally (specLuaUtils Scenario.world) Scenario.world Scenario.asTeam2
      Scenario.running Scenario.unitU (by decide)⟩

/-- C5, at the failing input: unit 7 of team 1 has PREV_LOS and IN_RADAR set
for allyteam 0 and IN_LOS and CONTINUOUS_RADAR unset; it is read by team 0
(not allied, read-allyteam valid, game running).  The unit is visible, so
ParseUnit lets it pass.  Only one of PREV_LOS and CONTINUOUS_RADAR is set and
IN_RADAR is set, yet GetUnitRulesParamLosMask returns the typed mask, not the
in-radar mask: GetUnitRulesParam discloses the parameter "kind" of the typed
level, which the in-radar mask does not disclose. -/
theorem GetUnitRulesParam_prevLos_in_radar :
    (specLuaUtils (Scenario.worldOf [Scenario.unitPrevLos])).IsAllyUnit Scenario.asTeam0
        Scenario.unitPrevLos = false
      ∧ (Scenario.worldOf [Scenario.unitPrevLos]).AlliedTeams Scenario.unitPrevLos.team
        Scenario.asTeam0.readTeam = false
      ∧ Scenario.unitPrevLos.losStatus Scenario.asTeam0.readAllyTeam.toNat
        = LOS_PREVLOS ||| LOS_INRADAR
      ∧ (specLuaUtils (Scenario.worldOf [Scenario.unitPrevLos])).IsUnitVisible Scenario.asTeam0
        Scenario.unitPrevLos = true
      ∧ GetUnitRulesParamLosMask (specLuaUtils (Scenario.worldOf [Scenario.unitPrevLos]))
          (Scenario.worldOf [Scenario.unitPrevLos]) Scenario.asTeam0 Scenario.running
          Scenario.unitPrevLos = RULESPARAMLOS_TYPED_MASK
      ∧ RULESPARAMLOS_TYPED_MASK ≠ RULESPARAMLOS_INRADAR_MASK
      ∧ GetUnitRulesParam (specLuaUtils (Scenario.worldOf [Scenario.unitPrevLos]))
          (Scenario.worldOf [Scenario.unitPrevLos]) Scenario.asTeam0 (.number 7) "kind"
        = .ok [.number 3]
      ∧ GetRulesParam Scenario.unitPrevLos.modParams "kind" RULESPARAMLOS_INRADAR_MASK = [] :=
  ⟨by decide, by decide, by decide, by decide, by decide, by decide, by rfl, by rfl⟩

/-- C6. Monotonic lattice.  For an observer that is not allied to the unit
(read-allyteam valid, teams not in-game allied, game running), write `mask s`
for the result of GetUnitRulesParamLosMask when the unit's status is `s`.
The mask is the in-LOS mask when IN_LOS is set, else the typed mask when
PREV_LOS and CONTINUOUS_RADAR are set, else the in-radar mask for a radar-only
status, else the public mask for an empty status; each of these four masks
contains the next; and a status contained in another gets a mask contained in
the other's mask. -/
theorem GetUnitRulesParamLosMask_lattice (H : LuaUtils) (W : World) (L : lua_State) (game : CGame)
    (unit : CUnit)
    (hna : ∀ s, H.IsAllyUnit L { unit with losStatus := fun _ => s } = false)
    (hgo : game.IsGameOver = false)
    (hat : W.AlliedTeams unit.team L.readTeam = false)
    (hra : 0 ≤ L.readAllyTeam) :
    (∀ s, (s &&& LOS_INLOS) ≠ 0 →
        GetUnitRulesParamLosMask H W L game { unit with losStatus := fun _ => s }
          = RULESPARAMLOS_INLOS_MASK)
    ∧ (∀ s, (s &&& LOS_INLOS) = 0 → (s &&& LOS_PREVLOS) ≠ 0 → (s &&& LOS_CONTRADAR) ≠ 0 →
        GetUnitRulesParamLosMask H W L game { unit with losStatus := fun _ => s }
          = RULESPARAMLOS_TYPED_MASK)
    ∧ (∀ s, (s &&& LOS_INLOS) = 0 → (s &&& LOS_PREVLOS) = 0 → (s &&& LOS_CONTRADAR) = 0 →
        (s &&& LOS_INRADAR) ≠ 0 →
        GetUnitRulesParamLosMask H W L game { unit with losStatus := fun _ => s }
          = RULESPARAMLOS_INRADAR_MASK)
    ∧ (∀ s, (s &&& LOS_INLOS) = 0 → (s &&& LOS_PREVLOS) = 0 → (s &&& LOS_CONTRADAR) = 0 →
        (s &&& LOS_INRADAR) = 0 →
        GetUnitRulesParamLosMask H W L game { unit with losStatus := fun _ => s }
          = RULESPARAMLOS_PUBLIC_MASK)
    ∧ RULESPARAMLOS_INLOS_MASK &&& RULESPARAMLOS_TYPED_MASK = RULESPARAMLOS_TYPED_MASK
    ∧ RULESPARAMLOS_TYPED_MASK &&& RULESPARAMLOS_INRADAR_MASK = RULESPARAMLOS_INRADAR_MASK
    ∧ RULESPARAMLOS_INRADAR_MASK &&& RULESPARAMLOS_PUBLIC_MASK = RULESPARAMLOS_PUBLIC_MASK
    ∧ (∀ s s2, s &&& s2 = s →
        GetUnitRulesParamLosMask H W L game { unit with losStatus := fun _ => s }
          &&& GetUnitRulesParamLosMask H W L game { unit with losStatus := fun _ => s2 }
        = GetUnitRulesParamLosMask H W L game { unit with losStatus := fun _ => s }) := by
  have hneg : ¬ L.readAllyTeam < 0 := not_lt.mpr hra
  have hmask : ∀ s, GetUnitRulesParamLosMask H W L game { unit with losStatus := fun _ => s }
      = if (s &&& LOS_INLOS) ≠ 0 then RULESPARAMLOS_INLOS_MASK
        else if (s &&& (LOS_PREVLOS ||| LOS_CONTRADAR)) ≠ 0 then RULESPARAMLOS_TYPED_MASK
        else if (s &&& LOS_INRADAR) ≠ 0 then RULESPARAMLOS_INRADAR_MASK
        else RULESPARAMLOS_PUBLIC_MASK := by
    intro s
    unfold GetUnitRulesParamLosMask
    simp only [hna s, hgo, hat, hneg, Bool.or_self, Bool.false_eq_true, if_false]
  have hprev : LOS_PREVLOS &&& (LOS_PREVLOS ||| LOS_CONTRADAR) = LOS_PREVLOS := by decide
  have hcont : LOS_CONTRADAR &&& (LOS_PREVLOS ||| LOS_CONTRADAR) = LOS_CONTRADAR := by decide
  refine ⟨?_, ?_, ?_, ?_, by decide, by decide, by decide, ?_⟩
  · intro s h1
    rw [hmask, if_pos h1]
  · intro s h1 h2 _
    have h12 : (s &&& (LOS_PREVLOS ||| LOS_CONTRADAR)) ≠ 0 :=
      fun h => h2 (and_eq_zero_of_part s _ _ hprev h)
    rw [hmask, if_neg (not_not.mpr h1), if_pos h12]
  · intro s h1 h2 h3 h4
    have h12 : (s &&& (LOS_PREVLOS ||| LOS_CONTRADAR)) = 0 := by
      rw [Nat.and_or_distrib_left, h2, h3]; rfl
    rw [hmask, if_neg (not_not.mpr h1), if_neg (not_not.mpr h12), if_pos h4]
  · intro s h1 h2 h3 h4
    have h12 : (s &&& (LOS_PREVLOS ||| LOS_CONTRADAR)) = 0 := by
      rw [Nat.and_or_distrib_left, h2, h3]; rfl
    rw [hmask, if_neg (not_not.mpr h1), if_neg (not_not.mpr h12), if_neg (not_not.mpr h4)]
  · intro s s2 hsub
    rw [hmask s, hmask s2]
    have m1 := and_eq_zero_of_sub s s2 LOS_INLOS hsub
    have m2 := and_eq_zero_of_sub s s2 (LOS_PREVLOS ||| LOS_CONTRADAR) hsub
    have m3 := and_eq_zero_of_sub s s2 LOS_INRADAR hsub
    by_cases a1 : (s2 &&& LOS_INLOS) = 0
    · by_cases a2 : (s2 &&& (LOS_PREVLOS ||| LOS_CONTRADAR)) = 0
      · by_cases a3 : (s2 &&& LOS_INRADAR) = 0
        · simp only [a1, a2, a3, m1 a1, m2 a2, m3 a3, ne_eq, not_true_eq_false, if_false]
          decide
        · by_cases b3 : (s &&& LOS_INRADAR) = 0 <;>
            simp only [a1, a2, a3, m1 a1, m2 a2, b3, ne_eq, not_true_eq_false,
              not_false_eq_true, if_false, if_true] <;> decide
      · by_cases b2 : (s &&& (LOS_PREVLOS ||| LOS_CONTRADAR)) = 0 <;>
          by_cases b3 : (s &&& LOS_INRADAR) = 0 <;>
            simp only [a1, a2, m1 a1, b2, b3, ne_eq, not_true_eq_false,
              not_false_eq_true, if_false, if_true] <;> decide
    · by_cases b1 : (s &&& LOS_INLOS) = 0 <;>
        by_cases b2 : (s &&& (LOS_PREVLOS ||| LOS_CONTRADAR)) = 0 <;>
          by_cases b3 : (s &&& LOS_INRADAR) = 0 <;>
            simp only [a1, b1, b2, b3, ne_eq, not_true_eq_false,
              not_false_eq_true, if_false, if_true] <;> decide

/-- C6, at the scenario: unit 7 read by team 0; the radar-only status is
contained in the status with IN_LOS and IN_RADAR. -/
theorem GetUnitRulesParamLosMask_lattice_witness :
    GetUnitRulesParamLosMask (specLuaUtils Scenario.world) Scenario.world Scenario.asTeam0
        Scenario.running { Scenario.unitU with losStatus := fun _ => LOS_INRADAR }
      &&& GetUnitRulesParamLosMask (specLuaUtils Scenario.world) Scenario.world Scenario.asTeam0
        Scenario.running { Scenario.unitU with losStatus := fun _ => LOS_INLOS ||| LOS_INRADAR }
      = GetUnitRulesParamLosMask (specLuaUtils Scenario.world) Scenario.world Scenario.asTeam0
        Scenario.running { Scenario.unitU with losStatus := fun _ => LOS_INRADAR } :=
  (GetUnitRulesParamLosMask_lattice (specLuaUtils Scenario.world) Scenario.world Scenario.asTeam0
    Scenario.running Scenario.unitU (fun _ => rfl) (by decide) (by decide)
    (by decide)).2.2.2.2.2.2.2 LOS_INRADAR (LOS_INLOS ||| LOS_INRADAR) (by decide)

/-- C7. Global unlock: when the game is over, the access mask computed for a
unit, for a team (single key and dump) and for a feature (single key and dump)
is RULESPARAMLOS_PRIVATE_MASK, for every caller context, every implementation
of the alliance and visibility helpers and every target. -/
theorem losMask_game_over (H : LuaUtils) (W : World) (L : lua_State) (game : CGame)
    (hover : game.IsGameOver = true) :
    (∀ unit, GetUnitRulesParamLosMask H W L game unit = RULESPARAMLOS_PRIVATE_MASK)
    ∧ (∀ team, GetTeamRulesParam.losMask H W L game team = RULESPARAMLOS_PRIVATE_MASK
        ∧ GetTeamRulesParams.losMask H W L game team = RULESPARAMLOS_PRIVATE_MASK)
    ∧ (∀ feature, GetFeatureRulesParam.losMask H W L game feature = RULESPARAMLOS_PRIVATE_MASK
        ∧ GetFeatureRulesParams.losMask H W L game feature = RULESPARAMLOS_PRIVATE_MASK) := by
  refine ⟨?_, ?_, ?_⟩
  · intro unit
    unfold GetUnitRulesParamLosMask
    simp only [hover, Bool.or_true, if_true]
  · intro team
    unfold GetTeamRulesParam.losMask GetTeamRulesParams.losMask
    simp only [hover, Bool.or_true, if_true]
    exact ⟨by decide, by decide⟩
  · intro feature
    unfold GetFeatureRulesParam.losMask GetFeatureRulesParams.losMask
    simp only [hover, Bool.or_true, if_true]
    exact ⟨by decide, by decide⟩

/-- C7, at the scenario with the game finished: the enemy team 0 reads unit 7
with the maximal mask. -/
theorem losMask_game_over_witness :
    Scenario.finished.IsGameOver = true
      ∧ GetUnitRulesParamLosMask (specLuaUtils Scenario.world) Scenario.world Scenario.asTeam0
          Scenario.finished Scenario.unitU = RULESPARAMLOS_PRIVATE_MASK :=
  ⟨rfl, (losMask_game_over (specLuaUtils Scenario.world) Scenario.world Scenario.asTeam0
    Scenario.finished rfl).1 Scenario.unitU⟩

/-- C9. A key stored on team T with level allied (the allied bit set, no bit of
the in-LOS mask set): GetTeamRulesParam returns zero results when the caller
is neither allied with T nor in-game allied with T and the game is not over,
and returns the stored value when the caller is allied with T (same allyteam)
or in-game allied with T. -/
theorem GetTeamRulesParam_allied_level (H : LuaUtils) (W : World) (L : lua_State) (game : CGame)
    (teamID : Int) (key : String) (param : Param)
    (hvalid : W.IsValidTeam teamID = true)
    (hgame : W.game = some game)
    (hstored : (W.Team teamID).modParams.find key = some param)
    (hallied : (param.los &&& RULESPARAMLOS_ALLIED) ≠ 0)
    (hnotlos : (param.los &&& RULESPARAMLOS_INLOS_MASK) = 0) :
    (H.IsAlliedTeam L (W.Team teamID).teamNum = false →
        W.AlliedTeams (W.Team teamID).teamNum L.readTeam = false →
        game.IsGameOver = false →
        GetTeamRulesParam H W L teamID key = .ok [])
    ∧ (H.IsAlliedTeam L (W.Team teamID).teamNum = true
          ∨ W.AlliedTeams (W.Team teamID).teamNum L.readTeam = true →
        GetTeamRulesParam H W L teamID key = .ok [pushParamValue param.value]) := by
  have hpub : (param.los &&& RULESPARAMLOS_PUBLIC) = 0 :=
    and_eq_zero_of_part param.los RULESPARAMLOS_PUBLIC RULESPARAMLOS_INLOS_MASK (by decide) hnotlos
  have hpriv : (param.los &&& (RULESPARAMLOS_PUBLIC ||| RULESPARAMLOS_PRIVATE_MASK)) ≠ 0 :=
    fun h => hallied (and_eq_zero_of_part param.los RULESPARAMLOS_ALLIED _ (by decide) h)
  have hall : (param.los &&& (RULESPARAMLOS_PUBLIC ||| RULESPARAMLOS_ALLIED_MASK)) ≠ 0 :=
    fun h => hallied (and_eq_zero_of_part param.los RULESPARAMLOS_ALLIED _ (by decide) h)
  constructor
  · intro h1 h2 h3
    unfold GetTeamRulesParam ParseTeam GetTeamRulesParam.losMask GetRulesParam
    simp [hvalid, hgame, hstored, h1, h2, h3, hpub]
  · intro h
    unfold GetTeamRulesParam ParseTeam GetTeamRulesParam.losMask GetRulesParam
    by_cases h1 : H.IsAlliedTeam L (W.Team teamID).teamNum = true
    · simp [hvalid, hgame, hstored, h1, hpriv]
    · have h2 : W.AlliedTeams (W.Team teamID).teamNum L.readTeam = true := by
        rcases h with h | h
        · exact absurd h h1
        · exact h
      by_cases h3 : game.IsGameOver = true
      · simp [hvalid, hgame, hstored, h3, hpriv]
      · simp [hvalid, hgame, hstored, h1, h2, h3, hall]

/-- C9, at the scenario: GetTeamRulesParam(1, "score") read as team 0 (enemy)
gives zero results and read as team 2 (allied) gives the stored value. -/
theorem GetTeamRulesParam_allied_level_witness :
    GetTeamRulesParam (specLuaUtils Scenario.world) Scenario.world Scenario.asTeam0 1 "score"
        = .ok []
      ∧ GetTeamRulesParam (specLuaUtils Scenario.world) Scenario.world Scenario.asTeam2 1 "score"
        = .ok [.number 7] :=
  ⟨(GetTeamRulesParam_allied_level (specLuaUtils Scenario.world) Scenario.world Scenario.asTeam0
      Scenario.running 1 "score" { los := RULESPARAMLOS_ALLIED, value := .number 7 }
      (by decide) rfl (by decide) (by decide) (by decide)).1 (by decide) (by decide) rfl,
    (GetTeamRulesParam_allied_level (specLuaUtils Scenario.world) Scenario.world Scenario.asTeam2
      Scenario.running 1 "score" { los := RULESPARAMLOS_ALLIED, value := .number 7 }
      (by decide) rfl (by decide) (by decide) (by decide)).2 (Or.inl (by decide))⟩

/-! ## GetUnitHealth -/

/-- C10. GetUnitHealth is LOS-gated.  With the helpers of LuaUtils.h as the
spec describes them: for a caller without full read and a unit of another
allyteam whose status for the caller's read-allyteam lacks IN_LOS,
GetUnitHealth returns zero results, whatever the other status bits and the
unit's health. -/
theorem GetUnitHealth_los_gated (W : World) (L : lua_State) (unitID : LuaValue) (unit : CUnit)
    (hnum : lua_isnumber L unitID = true)
    (hunit : W.GetUnit (lua_toint L unitID) = some unit)
    (hfull : L.fullRead = false)
    (hna : unit.allyteam ≠ L.readAllyTeam)
    (hlos : (unit.losStatus L.readAllyTeam.toNat &&& LOS_INLOS) = 0) :
    GetUnitHealth (specLuaUtils W) W L unitID = .ok [] := by
  have hgate : LuaUtilsSpec.IsUnitInLos L unit = false := by
    unfold LuaUtilsSpec.IsUnitInLos LuaUtilsSpec.IsAllyUnit LuaUtilsSpec.IsAlliedAllyTeam
      LuaUtilsSpec.readLosStatus
    by_cases hneg : L.readAllyTeam < 0
    · simp [hfull, hna, hneg]
    · simp [hfull, hna, hneg, hlos]
  unfold GetUnitHealth ParseInLosUnit ParseRawUnit
  simp [hnum, hunit, specLuaUtils, hgate]

/-- C10, at the scenario: unit 7 (health 100 of 100, IN_RADAR only) queried by
team 0. -/
theorem GetUnitHealth_los_gated_witness :
    Scenario.unitU.health = 100 ∧ Scenario.unitU.maxHealth = 100
      ∧ Scenario.unitU.losStatus Scenario.asTeam0.readAllyTeam.toNat = LOS_INRADAR
      ∧ GetUnitHealth (specLuaUtils Scenario.world) Scenario.world Scenario.asTeam0 (.number 7)
        = .ok [] :=
  ⟨rfl, rfl, by decide,
    GetUnitHealth_los_gated Scenario.world Scenario.asTeam0 (.number 7) Scenario.unitU
      rfl (by rfl) rfl (by decide) (by decide)⟩

/-! ## GetTeamUnitsCounts -/

/-- Setting a key that the table does not hold appends the binding. -/
theorem rawset_fresh {V : Type} (t : LuaTable V) (k : LuaKey) (v : V)
    (hfresh : ∀ e ∈ t, e.1 ≠ k) : t.rawset k v = t ++ [(k, v)] := by
  unfold LuaTable.rawset
  congr 1
  rw [List.filter_eq_self]
  intro e he
  simpa using hfresh e he

/-- The push loop of GetTeamUnitsCounts over entries whose non-zero counts sit
at their own index (shifted by `off`): the table keeps integer keys only and
its values sum to the counts pushed. -/
theorem pushLoop_sum (cs : List (Nat × Nat)) :
    ∀ (off : Nat) (t : LuaTable Nat) (dc : Nat),
      (∀ j (h : j < cs.length), (cs.get ⟨j, h⟩).2 ≠ 0 → (cs.get ⟨j, h⟩).1 = off + j) →
      (∀ e ∈ t, ∃ d : Nat, d < off ∧ e.1 = .int d) →
      (∀ e ∈ (cs.foldl GetTeamUnitsCounts.pushStep (t, dc)).1, ∃ d : Nat, e.1 = .int d)
        ∧ (((cs.foldl GetTeamUnitsCounts.pushStep (t, dc)).1).map Prod.snd).sum
          = (t.map Prod.snd).sum + (cs.map Prod.snd).sum := by
  induction cs with
  | nil =>
    intro off t dc _ ht
    refine ⟨fun e he => ?_, by simp⟩
    obtain ⟨d, _, hd⟩ := ht e he
    exact ⟨d, hd⟩
  | cons c rest ih =>
    intro off t dc hidx ht
    rw [List.foldl_cons]
    have hrest : ∀ j (h : j < rest.length),
        (rest.get ⟨j, h⟩).2 ≠ 0 → (rest.get ⟨j, h⟩).1 = (off + 1) + j := by
      intro j h hnz
      have := hidx (j + 1) (by simp; omega) (by simpa using hnz)
      simp at this
      simp
      omega
    by_cases hc : c.2 = 0
    · have hstep : GetTeamUnitsCounts.pushStep (t, dc) c = (t, dc) := by
        simp [GetTeamUnitsCounts.pushStep, hc]
      rw [hstep]
      have ht2 : ∀ e ∈ t, ∃ d : Nat, d < off + 1 ∧ e.1 = .int d := by
        intro e he
        obtain ⟨d, hd, hk⟩ := ht e he
        exact ⟨d, by omega, hk⟩
      obtain ⟨h1, h2⟩ := ih (off + 1) t dc hrest ht2
      refine ⟨h1, ?_⟩
      rw [h2]
      simp [hc]
    · have hkey : c.1 = off := by
        have := hidx 0 (by simp) (by simpa using hc)
        simpa using this
      have hfresh : ∀ e ∈ t, e.1 ≠ LuaKey.int (c.1 : Nat) := by
        intro e he hk
        obtain ⟨d, hd, hk2⟩ := ht e he
        rw [hk2] at hk
        injection hk with hk
        have : d = c.1 := by exact_mod_cast hk
        omega
      have hstep : GetTeamUnitsCounts.pushStep (t, dc) c
          = (t ++ [(LuaKey.int (c.1 : Nat), c.2)], dc + 1) := by
        simp only [GetTeamUnitsCounts.pushStep, hc, if_false]
        rw [rawset_fresh t _ _ hfresh]
      rw [hstep]
      have ht2 : ∀ e ∈ t ++ [(LuaKey.int (c.1 : Nat), c.2)],
          ∃ d : Nat, d < off + 1 ∧ e.1 = .int d := by
        intro e he
        rcases List.mem_append.mp he with he | he
        · obtain ⟨d, hd, hk⟩ := ht e he
          exact ⟨d, by omega, hk⟩
        · simp only [List.mem_singleton] at he
          subst he
          exact ⟨c.1, by omega, rfl⟩
      obtain ⟨h1, h2⟩ := ih (off + 1) _ (dc + 1) hrest ht2
      refine ⟨h1, ?_⟩
      rw [h2]
      simp
      omega

/-- The allied loop of GetTeamUnitsCounts is the push loop over the raw
per-definition counts of the definitions 1..n. -/
theorem allyLoop_eq_pushLoop (W : World) (teamID : Int) (n : Nat) (acc : LuaTable Nat × Nat) :
    (List.range n).foldl (GetTeamUnitsCounts.allyStep W teamID) acc
      = ((List.range n).map (fun i => (i + 1, W.NumUnitsByTeamAndDef teamID (i + 1)))).foldl
          GetTeamUnitsCounts.pushStep acc := by
  rw [List.foldl_map]
  rfl

/-- Exactly one definition ID among 1..n equals a given ID of that range. -/
theorem sum_indicator_range (d n : Nat) (h1 : 1 ≤ d) (h2 : d ≤ n) :
    ((List.range n).map (fun i => if d = i + 1 then 1 else 0)).sum = 1 := by
  induction n with
  | zero => omega
  | succ n ih =>
    rw [List.range_succ, List.map_append, List.sum_append]
    by_cases hd : d = n + 1
    · have hz : ((List.range n).map (fun i => if d = i + 1 then 1 else 0)).sum = 0 := by
        apply List.sum_eq_zero
        intro x hx
        simp only [List.mem_map, List.mem_range] at hx
        obtain ⟨i, hi, hx⟩ := hx
        rw [← hx, if_neg (by omega)]
      rw [hz]
      simp [hd]
    · rw [ih (by omega)]
      simp [hd]

/-- The per-definition counts of the definitions 1..n add up to the length of
a list of units whose definition IDs all lie in 1..n. -/
theorem sum_counts_by_def (n : Nat) (us : List CUnit)
    (hdefs : ∀ u ∈ us, 1 ≤ u.unitDef.id ∧ u.unitDef.id ≤ n) :
    ((List.range n).map
        (fun i => (us.filter (fun u => decide (u.unitDef.id = i + 1))).length)).sum
      = us.length := by
  induction us with
  | nil => simp
  | cons u us ih =>
    have hu := hdefs u (List.mem_cons_self _ _)
    have hrest : ∀ v ∈ us, 1 ≤ v.unitDef.id ∧ v.unitDef.id ≤ n :=
      fun v hv => hdefs v (List.mem_cons_of_mem _ hv)
    have hsplit : ∀ i, ((u :: us).filter (fun u => decide (u.unitDef.id = i + 1))).length
        = (us.filter (fun u => decide (u.unitDef.id = i + 1))).length
          + (if u.unitDef.id = i + 1 then 1 else 0) := by
      intro i
      by_cases h : u.unitDef.id = i + 1 <;> simp [List.filter_cons, h]
    simp only [hsplit]
    rw [List.sum_map_add, ih hrest, sum_indicator_range _ _ hu.1 hu.2]
    simp

/-- The units of a team with a given definition, by filtering the team's
units. -/
theorem GetUnitsByTeamAndDef_eq (W : World) (teamID : Int) (d : Nat) :
    W.GetUnitsByTeamAndDef teamID d
      = (W.GetUnitsByTeam teamID).filter (fun u => decide (u.unitDef.id = d)) := by
  unfold World.GetUnitsByTeamAndDef World.GetUnitsByTeam
  rw [List.filter_filter]
  congr 1
  funext u
  exact Bool.and_comm _ _

/-- Overwriting one element of a list changes the sum of a projection by the
difference of the projections. -/
theorem sum_map_set {α : Type} (f : α → Nat) (l : List α) :
    ∀ (i : Nat) (x : α) (h : i < l.length),
      ((l.set i x).map f).sum + f (l.get ⟨i, h⟩) = (l.map f).sum + f x := by
  induction l with
  | nil => intro i x h; simp at h
  | cons a l ih =>
    intro i x h
    cases i with
    | zero => simp; omega
    | succ i =>
      have := ih i x (by simpa using h)
      simp at this ⊢
      omega

/-- The enemy tally loop of GetTeamUnitsCounts keeps the size of the buffer,
keeps every non-zero count at the index equal to its stored definition ID, and
adds one to the counts or to `unknownCount` for every visible unit. -/
theorem tallyLoop_inv (H : LuaUtils) (L : lua_State) (n : Nat) (us : List CUnit) :
    ∀ (cs : List (Nat × Nat)) (unk : Nat),
      cs.length = n + 1 →
      (∀ j (h : j < cs.length), (cs.get ⟨j, h⟩).2 ≠ 0 → (cs.get ⟨j, h⟩).1 = j) →
      (∀ u ∈ us, (H.EffectiveUnitDef L u).id ≤ n) →
      (us.foldl (GetTeamUnitsCounts.tallyStep H L) (cs, unk)).1.length = n + 1
        ∧ (∀ j (h : j < (us.foldl (GetTeamUnitsCounts.tallyStep H L) (cs, unk)).1.length),
            ((us.foldl (GetTeamUnitsCounts.tallyStep H L) (cs, unk)).1.get ⟨j, h⟩).2 ≠ 0 →
            ((us.foldl (GetTeamUnitsCounts.tallyStep H L) (cs, unk)).1.get ⟨j, h⟩).1 = j)
        ∧ ((us.foldl (GetTeamUnitsCounts.tallyStep H L) (cs, unk)).1.map Prod.snd).sum
            + (us.foldl (GetTeamUnitsCounts.tallyStep H L) (cs, unk)).2
          = (cs.map Prod.snd).sum + unk + (us.filter (H.IsUnitVisible L)).length := by
  induction us with
  | nil =>
    intro cs unk hlen hidx _
    exact ⟨hlen, hidx, by simp⟩
  | cons u us ih =>
    intro cs unk hlen hidx heff
    have hrest : ∀ v ∈ us, (H.EffectiveUnitDef L v).id ≤ n :=
      fun v hv => heff v (List.mem_cons_of_mem _ hv)
    rw [List.foldl_cons]
    by_cases hvis : H.IsUnitVisible L u = true
    · by_cases htyped : H.IsUnitTyped L u = true
      · have hid : (H.EffectiveUnitDef L u).id < cs.length := by
          have := heff u (List.mem_cons_self _ _)
          omega
        have hstep : GetTeamUnitsCounts.tallyStep H L (cs, unk) u
            = (cs.set (H.EffectiveUnitDef L u).id
                ((H.EffectiveUnitDef L u).id, (cs.get ⟨_, hid⟩).2 + 1), unk) := by
          simp [GetTeamUnitsCounts.tallyStep, hvis, htyped, List.getD_eq_getElem?_getD,
            List.getElem?_eq_getElem hid]
        rw [hstep]
        have hlen2 : (cs.set (H.EffectiveUnitDef L u).id
            ((H.EffectiveUnitDef L u).id, (cs.get ⟨_, hid⟩).2 + 1)).length = n + 1 := by
          rw [List.length_set]; exact hlen
        have hidx2 : ∀ j (h : j < (cs.set (H.EffectiveUnitDef L u).id
            ((H.EffectiveUnitDef L u).id, (cs.get ⟨_, hid⟩).2 + 1)).length),
            ((cs.set (H.EffectiveUnitDef L u).id
              ((H.EffectiveUnitDef L u).id, (cs.get ⟨_, hid⟩).2 + 1)).get ⟨j, h⟩).2 ≠ 0 →
            ((cs.set (H.EffectiveUnitDef L u).id
              ((H.EffectiveUnitDef L u).id, (cs.get ⟨_, hid⟩).2 + 1)).get ⟨j, h⟩).1 = j := by
          intro j h hnz
          have hj : j < cs.length := by rw [List.length_set] at h; exact h
          by_cases hji : (H.EffectiveUnitDef L u).id = j
          · simp [List.getElem_set, hji]
          · have h3 := hidx j hj
            simp only [List.get_eq_getElem, List.getElem_set, hji, if_false] at hnz h3 ⊢
            exact h3 hnz
        obtain ⟨r1, r2, r3⟩ := ih _ unk hlen2 hidx2 hrest
        refine ⟨r1, r2, ?_⟩
        rw [r3]
        have hsum := sum_map_set Prod.snd cs (H.EffectiveUnitDef L u).id
          ((H.EffectiveUnitDef L u).id, (cs.get ⟨_, hid⟩).2 + 1) hid
        simp only [List.filter_cons, hvis, if_true, List.length_cons]
        simp only at hsum
        omega
      · have hstep : GetTeamUnitsCounts.tallyStep H L (cs, unk) u = (cs, unk + 1) := by
          simp [GetTeamUnitsCounts.tallyStep, hvis, htyped]
        rw [hstep]
        obtain ⟨r1, r2, r3⟩ := ih cs (unk + 1) hlen hidx hrest
        refine ⟨r1, r2, ?_⟩
        rw [r3]
        simp only [List.filter_cons, hvis, if_true, List.length_cons]
        omega
    · have hstep : GetTeamUnitsCounts.tallyStep H L (cs, unk) u = (cs, unk) := by
        simp [GetTeamUnitsCounts.tallyStep, hvis]
      rw [hstep]
      obtain ⟨r1, r2, r3⟩ := ih cs unk hlen hidx hrest
      refine ⟨r1, r2, ?_⟩
      rw [r3]
      simp [List.filter_cons, hvis]

/-- The enemy loop of GetTeamUnitCount counts the visible units. -/
theorem countLoop_eq (p : CUnit → Bool) (us : List CUnit) :
    ∀ c : Nat, us.foldl (fun (unitCount : Nat) unit => unitCount + (if p unit then 1 else 0)) c
      = c + (us.filter p).length := by
  induction us with
  | nil => intro c; simp
  | cons u us ih =>
    intro c
    rw [List.foldl_cons, ih]
    by_cases h : p u = true
    · simp only [List.filter_cons, h, if_true, List.length_cons]
      omega
    · simp [List.filter_cons, h]

/-- Adding the field "n" to a table without it leaves the bucket sum equal to
the sum of the values already in the table. -/
theorem bucketSum_rawset_n (t : LuaTable Nat) (dc : Nat)
    (hkeys : ∀ e ∈ t, e.1 ≠ LuaKey.str "n") :
    bucketSum (t.rawset (.str "n") dc) = (t.map Prod.snd).sum := by
  rw [rawset_fresh t _ _ hkeys]
  unfold bucketSum
  rw [List.filter_append]
  have hkeep : t.filter (fun e => !decide (e.1 = LuaKey.str "n")) = t := by
    rw [List.filter_eq_self]
    intro e he
    simpa using hkeys e he
  rw [hkeep]
  simp

/-- C1. Aggregate consistency.  For a valid team T and a caller whose
read-allyteam is not the no-access sentinel, in a world whose units of T carry
definition IDs of the range 1..NumUnitDefs (true and effective),
GetTeamUnitsCounts returns a table whose buckets, the field "n" left out, sum
to the number of units of T when the caller is allied with T and to the number
of units of T visible to the caller otherwise; this is the number that
GetTeamUnitCount returns. -/
theorem GetTeamUnitsCounts_sum (H : LuaUtils) (W : World) (L : lua_State) (teamID : Int)
    (S : Statics)
    (hacc : L.readAllyTeam ≠ CEventClient.NoAccessTeam)
    (hvalid : W.IsValidTeam teamID = true)
    (hdefs : ∀ u ∈ W.GetUnitsByTeam (W.Team teamID).teamNum,
      1 ≤ u.unitDef.id ∧ u.unitDef.id ≤ W.NumUnitDefs)
    (heff : ∀ u ∈ W.GetUnitsByTeam (W.Team teamID).teamNum,
      (H.EffectiveUnitDef L u).id ≤ W.NumUnitDefs) :
    ∃ t, (GetTeamUnitsCounts H W L teamID S).1 = .ok (some t)
      ∧ bucketSum t
        = (if H.IsAlliedTeam L (W.Team teamID).teamNum
            then (W.GetUnitsByTeam (W.Team teamID).teamNum).length
            else ((W.GetUnitsByTeam (W.Team teamID).teamNum).filter (H.IsUnitVisible L)).length)
      ∧ GetTeamUnitCount H W L teamID = .ok [.number (bucketSum t : Nat)] := by
  have hparse1 : ParseTeam W "GetTeamUnitsCounts" teamID = .ok (W.Team teamID) := by
    simp [ParseTeam, hvalid]
  have hparse2 : ParseTeam W "GetTeamUnitCount" teamID = .ok (W.Team teamID) := by
    simp [ParseTeam, hvalid]
  by_cases hally : H.IsAlliedTeam L (W.Team teamID).teamNum = true
  · -- the raw counts for allies
    obtain ⟨hk, hs⟩ := pushLoop_sum
      ((List.range W.NumUnitDefs).map
        (fun i => (i + 1, W.NumUnitsByTeamAndDef (W.Team teamID).teamNum (i + 1))))
      1 [] 0
      (by
        intro j h _
        simp
        omega)
      (by intro e he; simp at he)
    rw [← allyLoop_eq_pushLoop] at hk hs
    have hkeys : ∀ e ∈ ((List.range W.NumUnitDefs).foldl
        (GetTeamUnitsCounts.allyStep W (W.Team teamID).teamNum) ([], 0)).1,
        e.1 ≠ LuaKey.str "n" := by
      intro e he hn
      obtain ⟨d, hd⟩ := hk e he
      rw [hd] at hn
      cases hn
    have hsum : bucketSum (((List.range W.NumUnitDefs).foldl
        (GetTeamUnitsCounts.allyStep W (W.Team teamID).teamNum) ([], 0)).1.rawset (.str "n")
        ((List.range W.NumUnitDefs).foldl
          (GetTeamUnitsCounts.allyStep W (W.Team teamID).teamNum) ([], 0)).2)
        = (W.GetUnitsByTeam (W.Team teamID).teamNum).length := by
      rw [bucketSum_rawset_n _ _ hkeys, hs]
      simp only [List.map_nil, List.sum_nil, Nat.zero_add, List.map_map]
      rw [← sum_counts_by_def W.NumUnitDefs _ hdefs]
      congr 1
      apply List.map_congr_left
      intro i _
      simp [World.NumUnitsByTeamAndDef, GetUnitsByTeamAndDef_eq]
    refine ⟨((List.range W.NumUnitDefs).foldl
        (GetTeamUnitsCounts.allyStep W (W.Team teamID).teamNum) ([], 0)).1.rawset (.str "n")
        ((List.range W.NumUnitDefs).foldl
          (GetTeamUnitsCounts.allyStep W (W.Team teamID).teamNum) ([], 0)).2, ?_, ?_, ?_⟩
    · unfold GetTeamUnitsCounts
      simp only [hacc, hparse1, hally, if_false, if_true]
    · rw [hsum, if_pos hally]
    · unfold GetTeamUnitCount
      simp only [hacc, hparse2, hally, if_false, if_true]
      rw [hsum]
      rfl
  · -- the tally for enemies
    obtain ⟨hlen, hidx, htally⟩ := tallyLoop_inv H L W.NumUnitDefs
      (W.GetUnitsByTeam (W.Team teamID).teamNum)
      (List.replicate (W.NumUnitDefs + 1) (0, 0)) 0
      (by simp)
      (by intro j h hnz; simp at hnz)
      heff
    obtain ⟨hk, hs⟩ := pushLoop_sum
      ((W.GetUnitsByTeam (W.Team teamID).teamNum).foldl (GetTeamUnitsCounts.tallyStep H L)
        (List.replicate (W.NumUnitDefs + 1) (0, 0), 0)).1
      0 [] 0
      (by
        intro j h hnz
        rw [hidx j h hnz]
        omega)
      (by intro e he; simp at he)
    have hzero : ((List.replicate (W.NumUnitDefs + 1) ((0, 0) : Nat × Nat)).map Prod.snd).sum = 0 := by
      simp
    rw [hzero] at htally
    simp only [List.map_nil, List.sum_nil, Nat.zero_add] at hs htally
    have hcount : GetTeamUnitCount H W L teamID
        = .ok [.number (((W.GetUnitsByTeam (W.Team teamID).teamNum).filter
            (H.IsUnitVisible L)).length : Nat)] := by
      unfold GetTeamUnitCount
      simp only [hacc, hparse2, hally, if_false]
      rw [countLoop_eq (H.IsUnitVisible L)]
      simp
    unfold GetTeamUnitsCounts
    simp only [hacc, hparse1, hally, if_false]
    refine ⟨_, rfl, ?_⟩
    rw [hcount]
    generalize (W.GetUnitsByTeam (W.Team teamID).teamNum).foldl (GetTeamUnitsCounts.tallyStep H L)
      (List.replicate (W.NumUnitDefs + 1) (0, 0), 0) = tally at hk hs htally ⊢
    generalize tally.1.foldl GetTeamUnitsCounts.pushStep ([], 0) = pushed at hk hs ⊢
    have hgoal : bucketSum
        ((if tally.2 > 0 then (pushed.1.rawset (.str "unknown") tally.2, pushed.2 + 1)
            else pushed).1.rawset (.str "n")
          (if tally.2 > 0 then (pushed.1.rawset (.str "unknown") tally.2, pushed.2 + 1)
            else pushed).2)
        = ((W.GetUnitsByTeam (W.Team teamID).teamNum).filter (H.IsUnitVisible L)).length := by
      by_cases hunk : tally.2 > 0
      · simp only [hunk, if_true]
        have hfresh : ∀ e ∈ pushed.1, e.1 ≠ LuaKey.str "unknown" := by
          intro e he hn
          obtain ⟨d, hd⟩ := hk e he
          rw [hd] at hn
          cases hn
        rw [rawset_fresh _ _ _ hfresh, bucketSum_rawset_n]
        · rw [List.map_append, List.sum_append, hs]
          simp only [List.map_cons, List.map_nil, List.sum_cons, List.sum_nil, Nat.add_zero]
          exact htally
        · intro e he hn
          rcases List.mem_append.mp he with he | he
          · obtain ⟨d, hd⟩ := hk e he
            rw [hd] at hn
            cases hn
          · simp only [List.mem_singleton] at he
            subst he
            have hne : ("unknown" : String) ≠ "n" := by decide
            exact hne (by injection hn)
      · simp only [hunk, if_false]
        rw [bucketSum_rawset_n]
        · rw [hs]
          omega
        · intro e he hn
          obtain ⟨d, hd⟩ := hk e he
          rw [hd] at hn
          cases hn
    exact ⟨hgoal, by rw [hgoal]⟩

/-- C1, at the scenario: team 1 counted by team 0.  Unit 7 is visible and not
typed, so the table is the "unknown" bucket with count 1 and "n" with 1. -/
theorem GetTeamUnitsCounts_sum_witness :
    (GetTeamUnitsCounts (specLuaUtils Scenario.world) Scenario.world Scenario.asTeam0 1
        { gtuObjectIDs := [], gtuDefCounts := [] }).1
      = .ok (some [(.str "unknown", 1), (.str "n", 1)])
    ∧ ∃ t, (GetTeamUnitsCounts (specLuaUtils Scenario.world) Scenario.world Scenario.asTeam0 1
          { gtuObjectIDs := [], gtuDefCounts := [] }).1 = .ok (some t)
      ∧ bucketSum t
        = (if (specLuaUtils Scenario.world).IsAlliedTeam Scenario.asTeam0
              (Scenario.world.Team 1).teamNum
            then (Scenario.world.GetUnitsByTeam (Scenario.world.Team 1).teamNum).length
            else ((Scenario.world.GetUnitsByTeam (Scenario.world.Team 1).teamNum).filter
              ((specLuaUtils Scenario.world).IsUnitVisible Scenario.asTeam0)).length)
      ∧ GetTeamUnitCount (specLuaUtils Scenario.world) Scenario.world Scenario.asTeam0 1
        = .ok [.number (bucketSum t : Nat)] :=
  ⟨by rfl,
    GetTeamUnitsCounts_sum (specLuaUtils Scenario.world) Scenario.world Scenario.asTeam0 1
      { gtuObjectIDs := [], gtuDefCounts := [] } (by decide) (by decide)
      (by
        intro u hu
        have hu2 : u = Scenario.unitU := by
          simpa [World.GetUnitsByTeam, Scenario.world, Scenario.unitU] using hu
        subst hu2
        decide)
      (by
        intro u hu
        have hu2 : u = Scenario.unitU := by
          simpa [World.GetUnitsByTeam, Scenario.world, Scenario.unitU] using hu
        subst hu2
        decide)⟩

/-! ## GetUnitDefID -/

/-- C11. GetUnitDefID is typed-gated.  With the helpers of LuaUtils.h as the
spec describes them, for a numeric ID that resolves to a unit: an allied unit
(full read, or the unit's allyteam is the read-allyteam) gives the ID of the
true definition; a unit of another allyteam that is visible (IN_LOS or
IN_RADAR) but not typed (IN_LOS unset and PREV_LOS, CONTINUOUS_RADAR not both
set) gives zero results; a unit of another allyteam that is visible and typed
gives the ID of the decoy definition when one is set and of the true
definition otherwise. -/
theorem GetUnitDefID_typed_gated (W : World) (L : lua_State) (unitID : LuaValue) (unit : CUnit)
    (hnum : lua_isnumber L unitID = true)
    (hunit : W.GetUnit (lua_toint L unitID) = some unit) :
    (L.fullRead = true ∨ unit.allyteam = L.readAllyTeam →
        GetUnitDefID (specLuaUtils W) W L unitID = .ok [.number unit.unitDef.id])
    ∧ (L.fullRead = false → unit.allyteam ≠ L.readAllyTeam → 0 ≤ L.readAllyTeam →
        (unit.losStatus L.readAllyTeam.toNat &&& (LOS_INLOS ||| LOS_INRADAR)) ≠ 0 →
        (unit.losStatus L.readAllyTeam.toNat &&& LOS_INLOS) = 0 →
        (unit.losStatus L.readAllyTeam.toNat &&& (LOS_PREVLOS ||| LOS_CONTRADAR))
          ≠ (LOS_PREVLOS ||| LOS_CONTRADAR) →
        GetUnitDefID (specLuaUtils W) W L unitID = .ok [])
    ∧ (L.fullRead = false → unit.allyteam ≠ L.readAllyTeam → 0 ≤ L.readAllyTeam →
        (unit.losStatus L.readAllyTeam.toNat &&& (LOS_INLOS ||| LOS_INRADAR)) ≠ 0 →
        ((unit.losStatus L.readAllyTeam.toNat &&& LOS_INLOS) ≠ 0
          ∨ (unit.losStatus L.readAllyTeam.toNat &&& (LOS_PREVLOS ||| LOS_CONTRADAR))
            = (LOS_PREVLOS ||| LOS_CONTRADAR)) →
        GetUnitDefID (specLuaUtils W) W L unitID
          = .ok [.number (match unit.unitDef.decoyDef with
              | some decoyDef => decoyDef.id
              | none => unit.unitDef.id)]) := by
  have hparse : ParseRawUnit W L "GetUnitDefID" unitID 1 = .ok (some unit) := by
    simp [ParseRawUnit, hnum, hunit]
  refine ⟨?_, ?_, ?_⟩
  · intro hally
    have h1 : LuaUtilsSpec.IsAllyUnit L unit = true := by
      unfold LuaUtilsSpec.IsAllyUnit LuaUtilsSpec.IsAlliedAllyTeam
      rcases hally with h | h
      · simp [h]
      · simp [h]
    have h2 : LuaUtilsSpec.IsUnitVisible L unit = true := by
      unfold LuaUtilsSpec.IsUnitVisible
      simp [h1]
    unfold GetUnitDefID ParseUnit
    simp [hparse, specLuaUtils, h1, h2]
  · intro hfull hother hread hvis hlos hprev
    have hneg : ¬ L.readAllyTeam < 0 := not_lt.mpr hread
    have h1 : LuaUtilsSpec.IsAllyUnit L unit = false := by
      unfold LuaUtilsSpec.IsAllyUnit LuaUtilsSpec.IsAlliedAllyTeam
      simp [hfull, hother]
    have h2 : LuaUtilsSpec.IsUnitVisible L unit = true := by
      unfold LuaUtilsSpec.IsUnitVisible LuaUtilsSpec.readLosStatus
      simp [h1, hneg, hvis]
    have h3 : LuaUtilsSpec.IsUnitTyped L unit = false := by
      unfold LuaUtilsSpec.IsUnitTyped LuaUtilsSpec.readLosStatus
      simp [h1, hneg, hlos, hprev]
    unfold GetUnitDefID ParseUnit
    simp [hparse, specLuaUtils, h1, h2, h3]
  · intro hfull hother hread hvis htyped
    have hneg : ¬ L.readAllyTeam < 0 := not_lt.mpr hread
    have h1 : LuaUtilsSpec.IsAllyUnit L unit = false := by
      unfold LuaUtilsSpec.IsAllyUnit LuaUtilsSpec.IsAlliedAllyTeam
      simp [hfull, hother]
    have h2 : LuaUtilsSpec.IsUnitVisible L unit = true := by
      unfold LuaUtilsSpec.IsUnitVisible LuaUtilsSpec.readLosStatus
      simp [h1, hneg, hvis]
    have h3 : LuaUtilsSpec.IsUnitTyped L unit = true := by
      unfold LuaUtilsSpec.IsUnitTyped LuaUtilsSpec.readLosStatus
      rcases htyped with h | h
      · simp [h1, hneg, h]
      · simp [h1, hneg, h]
    have h4 : (LuaUtilsSpec.EffectiveUnitDef L unit).id
        = (match unit.unitDef.decoyDef with
            | some decoyDef => decoyDef.id
            | none => unit.unitDef.id) := by
      unfold LuaUtilsSpec.EffectiveUnitDef
      simp only [h1, Bool.false_eq_true, if_false]
      cases unit.unitDef.decoyDef <;> rfl
    unfold GetUnitDefID ParseUnit
    simp only [hparse, specLuaUtils, h1, h2, h3, h4, Bool.not_true, Bool.not_false,
      Bool.false_eq_true, if_false, if_true]
    cases unit.unitDef.decoyDef <;> rfl

/-- C11, at the scenario: unit 7 (definition 42, IN_RADAR only for allyteam 0)
gives zero results to team 0 and its definition ID to its ally, team 2; unit 8
(true definition 43, decoy definition 42, in LOS) gives 42 to team 0. -/
theorem GetUnitDefID_typed_gated_witness :
    GetUnitDefID (specLuaUtils Scenario.world) Scenario.world Scenario.asTeam0 (.number 7)
        = .ok []
      ∧ GetUnitDefID (specLuaUtils Scenario.world) Scenario.world Scenario.asTeam2 (.number 7)
        = .ok [.number 42]
      ∧ GetUnitDefID (specLuaUtils (Scenario.worldOf [Scenario.unitDecoy]))
          (Scenario.worldOf [Scenario.unitDecoy]) Scenario.asTeam0 (.number 8)
        = .ok [.number 42] :=
  ⟨(GetUnitDefID_typed_gated Scenario.world Scenario.asTeam0 (.number 7) Scenario.unitU
      rfl (by rfl)).2.1 rfl (by decide) (by decide) (by decide) (by decide) (by decide),
    (GetUnitDefID_typed_gated Scenario.world Scenario.asTeam2 (.number 7) Scenario.unitU
      rfl (by rfl)).1 (Or.inr (by decide)),
    (GetUnitDefID_typed_gated (Scenario.worldOf [Scenario.unitDecoy]) Scenario.asTeam0
      (.number 8) Scenario.unitDecoy rfl (by rfl)).2.2 rfl (by decide) (by decide) (by decide)
      (Or.inl (by decide))⟩

/-! ## GetUnitPosition -/

/-- C12. GetUnitPosition applies the radar position error to non-allies only.
For a numeric ID that resolves to a visible unit, with `e` the unit's error
vector for the caller's read-allyteam: for a unit that is not allied every
returned point (base, then mid and aim when requested) is the true point plus
`e`; for an allied unit the true points are returned; and the number of values
is 3 + 3*[midPos requested] + 3*[aimPos requested] in both cases. -/
theorem GetUnitPosition_error (H : LuaUtils) (W : World) (L : lua_State) (unitID : LuaValue)
    (unit : CUnit) (returnMidPos returnAimPos : Bool)
    (hnum : lua_isnumber L unitID = true)
    (hunit : W.GetUnit (lua_toint L unitID) = some unit)
    (hvis : H.IsUnitVisible L unit = true) :
    (H.IsAllyUnit L unit = false →
        GetUnitPosition H W L unitID returnMidPos returnAimPos
          = .ok ([LuaValue.number (unit.pos.x + (unit.GetLuaErrorVector L.readAllyTeam L.fullRead).x),
                .number (unit.pos.y + (unit.GetLuaErrorVector L.readAllyTeam L.fullRead).y),
                .number (unit.pos.z + (unit.GetLuaErrorVector L.readAllyTeam L.fullRead).z)]
            ++ (if returnMidPos then
                [LuaValue.number (unit.midPos.x + (unit.GetLuaErrorVector L.readAllyTeam L.fullRead).x),
                  .number (unit.midPos.y + (unit.GetLuaErrorVector L.readAllyTeam L.fullRead).y),
                  .number (unit.midPos.z + (unit.GetLuaErrorVector L.readAllyTeam L.fullRead).z)]
              else [])
            ++ (if returnAimPos then
                [LuaValue.number (unit.aimPos.x + (unit.GetLuaErrorVector L.readAllyTeam L.fullRead).x),
                  .number (unit.aimPos.y + (unit.GetLuaErrorVector L.readAllyTeam L.fullRead).y),
                  .number (unit.aimPos.z + (unit.GetLuaErrorVector L.readAllyTeam L.fullRead).z)]
              else [])))
    ∧ (H.IsAllyUnit L unit = true →
        GetUnitPosition H W L unitID returnMidPos returnAimPos
          = .ok ([LuaValue.number unit.pos.x, .number unit.pos.y, .number unit.pos.z]
            ++ (if returnMidPos then
                [LuaValue.number unit.midPos.x, .number unit.midPos.y, .number unit.midPos.z]
              else [])
            ++ (if returnAimPos then
                [LuaValue.number unit.aimPos.x, .number unit.aimPos.y, .number unit.aimPos.z]
              else [])))
    ∧ (∃ vs, GetUnitPosition H W L unitID returnMidPos returnAimPos = .ok vs
        ∧ vs.length = 3 + 3 * (if returnMidPos then 1 else 0)
            + 3 * (if returnAimPos then 1 else 0)) := by
  have hparse : ParseUnit H W L "GetUnitPosition" unitID 1 = .ok (some unit) := by
    simp [ParseUnit, ParseRawUnit, hnum, hunit, hvis]
  refine ⟨?_, ?_, ?_⟩
  · intro hna
    unfold GetUnitPosition GetSolidObjectPosition
    simp [hparse, hna, CSolidObject.pos, CSolidObject.midPos, CSolidObject.aimPos]
  · intro hally
    unfold GetUnitPosition GetSolidObjectPosition
    simp [hparse, hally, CSolidObject.pos, CSolidObject.midPos, CSolidObject.aimPos,
      float3.zero]
  · unfold GetUnitPosition GetSolidObjectPosition
    refine ⟨_, by rw [hparse], ?_⟩
    cases returnMidPos <;> cases returnAimPos <;> simp

/-- C12, at the scenario: unit 7 (position 10, 0, 20; error vector 3, 0, -2)
is reported at 13, 0, 18 to team 0 and at its true position to team 2. -/
theorem GetUnitPosition_error_witness :
    GetUnitPosition (specLuaUtils Scenario.world) Scenario.world Scenario.asTeam0 (.number 7)
        false false
      = .ok [.number (10 + 3), .number (0 + 0), .number (20 + -2)]
    ∧ GetUnitPosition (specLuaUtils Scenario.world) Scenario.world Scenario.asTeam2 (.number 7)
        false false
      = .ok [.number 10, .number 0, .number 20] :=
  ⟨(GetUnitPosition_error (specLuaUtils Scenario.world) Scenario.world Scenario.asTeam0
      (.number 7) Scenario.unitU false false rfl (by rfl) (by decide)).1 (by decide),
    (GetUnitPosition_error (specLuaUtils Scenario.world) Scenario.world Scenario.asTeam2
      (.number 7) Scenario.unitU false false rfl (by rfl) (by decide)).2.1 (by decide)⟩

/-! ## GetUnitHealth: decoys -/

/-- C14, as stated, fails: unit 8 with a true definition of health 0 and a
decoy definition of health 100, in LOS of its enemy team 0.  GetUnitHealth
does not fail: the division by zero is performed and the call returns five
values, the first three of them infinities that come from that division. -/
theorem GetUnitHealth_zero_health_returns :
    Scenario.unitZero.unitDef.health = 0
      ∧ Scenario.unitZero.unitDef.decoyDef = some Scenario.def42
      ∧ (specLuaUtils (Scenario.worldOf [Scenario.unitZero])).IsUnitInLos Scenario.asTeam0
        Scenario.unitZero = true
      ∧ (specLuaUtils (Scenario.worldOf [Scenario.unitZero])).IsEnemyUnit Scenario.asTeam0
        Scenario.unitZero = true
      ∧ GetUnitHealth (specLuaUtils (Scenario.worldOf [Scenario.unitZero]))
          (Scenario.worldOf [Scenario.unitZero]) Scenario.asTeam0 (.number 8)
        = .ok [.number .inf, .number .inf, .number .inf, .number (.finite 0),
            .number (.finite 1)] :=
  ⟨rfl, rfl, by decide, by decide, by rfl⟩

/-- C14, amended.  GetUnitHealth has no test of the divisor: for an enemy
caller and a numeric ID that resolves to an in-LOS unit with a decoy
definition D whose true definition has health 0, the call does not fail.
When the definition does not hide damage the float division by zero is
performed and the first three of the five values returned are not finite:
each is NaN when D.health or the unit's own value is 0, and an infinity
otherwise.  When the definition hides damage the first three values are
nil. -/
theorem GetUnitHealth_zero_health (H : LuaUtils) (W : World) (L : lua_State)
    (unitID : LuaValue) (unit : CUnit) (D : UnitDef)
    (hnum : lua_isnumber L unitID = true)
    (hunit : W.GetUnit (lua_toint L unitID) = some unit)
    (hlos : H.IsUnitInLos L unit = true)
    (henemy : H.IsEnemyUnit L unit = true)
    (hdecoy : unit.unitDef.decoyDef = some D)
    (hzero : unit.unitDef.health = 0) :
    (unit.unitDef.hideDamage = false →
        GetUnitHealth H W L unitID
          = .ok [.number (if D.health = 0 ∨ unit.health = 0 then .nan else .inf),
              .number (if D.health = 0 ∨ unit.maxHealth = 0 then .nan else .inf),
              .number (if D.health = 0 ∨ unit.paralyzeDamage = 0 then .nan else .inf),
              .number (.finite unit.captureProgress), .number (.finite unit.buildProgress)])
    ∧ (unit.unitDef.hideDamage = true →
        GetUnitHealth H W L unitID
          = .ok [.nil, .nil, .nil, .number (.finite unit.captureProgress),
              .number (.finite unit.buildProgress)]) := by
  have hparse : ParseInLosUnit H W L "GetUnitHealth" unitID 1 = .ok (some unit) := by
    simp [ParseInLosUnit, ParseRawUnit, hnum, hunit, hlos]
  have hmul : ∀ x : ℚ, (CFloat.div D.health unit.unitDef.health).mul x
      = if D.health = 0 ∨ x = 0 then CFloat.nan else CFloat.inf := by
    intro x
    rw [hzero]
    unfold CFloat.div CFloat.mul
    by_cases hD : D.health = 0
    · simp [hD]
    · by_cases hx : x = 0
      · simp [hD, hx]
      · simp [hD, hx]
  refine ⟨?_, ?_⟩
  · intro hhide
    unfold GetUnitHealth
    simp only [hparse, henemy, hhide, hdecoy, Bool.false_and, Bool.false_eq_true, if_false,
      Bool.not_true, hmul, List.cons_append, List.nil_append]
  · intro hhide
    unfold GetUnitHealth
    simp [hparse, henemy, hhide]

/-- C14 amended, at the scenario: unit 8 with a true definition of health 0
and a decoy definition of health 100; health 20, maxHealth 50 and paralyze
damage 10 each come back as an infinity. -/
theorem GetUnitHealth_zero_health_witness :
    GetUnitHealth (specLuaUtils (Scenario.worldOf [Scenario.unitZero]))
        (Scenario.worldOf [Scenario.unitZero]) Scenario.asTeam0 (.number 8)
      = .ok [.number (if Scenario.def42.health = 0 ∨ Scenario.unitZero.health = 0
              then .nan else .inf),
          .number (if Scenario.def42.health = 0 ∨ Scenario.unitZero.maxHealth = 0
              then .nan else .inf),
          .number (if Scenario.def42.health = 0 ∨ Scenario.unitZero.paralyzeDamage = 0
              then .nan else .inf),
          .number (.finite Scenario.unitZero.captureProgress),
          .number (.finite Scenario.unitZero.buildProgress)] :=
  (GetUnitHealth_zero_health
    (specLuaUtils (Scenario.worldOf [Scenario.unitZero])) (Scenario.worldOf [Scenario.unitZero])
    Scenario.asTeam0 (.number 8) Scenario.unitZero Scenario.def42 rfl (by rfl) (by decide)
    (by decide) rfl rfl).1 rfl

/-! ## Object-ID arguments -/

/-- C16. Tombstone.  For a numeric ID that resolves to no live unit, in every
caller context and for every implementation of the visibility helpers:
ParseRawUnit, ParseUnit, ParseAllyUnit, ParseInLosUnit and ParseTypedUnit
yield no unit and raise no error, and the unit queries return zero values
(ValidUnitID returns false).  For a numeric ID that resolves to no live
feature, ParseFeature yields no feature and the feature queries return zero
values. -/
theorem tombstone (H : LuaUtils) (W : World) (L : lua_State) (game : CGame) (arg : LuaValue)
    (hnum : lua_isnumber L arg = true) :
    (W.GetUnit (lua_toint L arg) = none →
      (∀ (caller : String) (index : Nat),
          ParseRawUnit W L caller arg index = .ok none
          ∧ ParseUnit H W L caller arg index = .ok none
          ∧ ParseAllyUnit H W L caller arg index = .ok none
          ∧ ParseInLosUnit H W L caller arg index = .ok none
          ∧ ParseTypedUnit H W L caller arg index = .ok none)
      ∧ GetUnitHealth H W L arg = .ok []
      ∧ GetUnitDefID H W L arg = .ok []
      ∧ (∀ mid aim, GetUnitPosition H W L arg mid aim = .ok [])
      ∧ (∀ key, GetUnitRulesParam H W L arg key = .ok [])
      ∧ GetUnitRulesParams H W L arg = .ok none
      ∧ GetUnitExperience H W L arg = .ok []
      ∧ GetUnitStockpile H W L arg = .ok []
      ∧ GetUnitIsCloaked H W L arg = .ok []
      ∧ GetUnitIsBuilding H W L arg = .ok []
      ∧ (∀ numCmds cmdsTable, GetUnitCommands H W L arg numCmds cmdsTable = .ok none)
      ∧ (∀ body : CUnit → Except String (Option (LuaTable LuaValue)),
          GetUnitWeaponState H W L arg body = .ok none
          ∧ GetUnitMoveTypeData H W L arg body = .ok none)
      ∧ ValidUnitID H W L arg = .ok [.boolean false])
    ∧ (W.GetFeature (lua_toint L arg) = none →
      (∀ (caller : String) (index : Nat), ParseFeature H W L caller arg index = .ok none)
      ∧ (∀ key, GetFeatureRulesParam H W L game arg key = .ok [])
      ∧ GetFeatureRulesParams H W L game arg = .ok none
      ∧ (∀ mid aim, GetFeaturePosition H W L arg mid aim = .ok [])
      ∧ ValidFeatureID H W L arg = .ok [.boolean false]) := by
  constructor
  · intro hgone
    have hraw : ∀ (caller : String) (index : Nat),
        ParseRawUnit W L caller arg index = .ok none := by
      intro caller index
      simp [ParseRawUnit, hnum, hgone]
    have hunit : ∀ (caller : String) (index : Nat),
        ParseUnit H W L caller arg index = .ok none := by
      intro caller index
      simp only [ParseUnit, hraw]
    have hally : ∀ (caller : String) (index : Nat),
        ParseAllyUnit H W L caller arg index = .ok none := by
      intro caller index
      simp only [ParseAllyUnit, hraw]
    have hinlos : ∀ (caller : String) (index : Nat),
        ParseInLosUnit H W L caller arg index = .ok none := by
      intro caller index
      simp only [ParseInLosUnit, hraw]
    have htyped : ∀ (caller : String) (index : Nat),
        ParseTypedUnit H W L caller arg index = .ok none := by
      intro caller index
      simp only [ParseTypedUnit, hraw]
    refine ⟨fun caller index => ⟨hraw _ _, hunit _ _, hally _ _, hinlos _ _, htyped _ _⟩,
      ?_, ?_, ?_, ?_, ?_, ?_, ?_, ?_, ?_, ?_, ?_, ?_⟩
    · simp only [GetUnitHealth, hinlos]
    · simp only [GetUnitDefID, hunit]
    · intro mid aim
      simp only [GetUnitPosition, hunit]
      rfl
    · intro key; simp only [GetUnitRulesParam, hunit]
    · simp only [GetUnitRulesParams, hunit]
    · simp only [GetUnitExperience, hally]
    · simp only [GetUnitStockpile, hally]
    · simp only [GetUnitIsCloaked, hally]
    · simp only [GetUnitIsBuilding, hally]
    · intro numCmds cmdsTable; simp only [GetUnitCommands, hally]
    · intro body
      exact ⟨by simp only [GetUnitWeaponState, hally], by simp only [GetUnitMoveTypeData, hally]⟩
    · simp [ValidUnitID, hnum, hunit]
  · intro hgone
    have hfeat : ∀ (caller : String) (index : Nat),
        ParseFeature H W L caller arg index = .ok none := by
      intro caller index
      simp [ParseFeature, hnum, hgone]
    refine ⟨hfeat, ?_, ?_, ?_, ?_⟩
    · intro key; simp only [GetFeatureRulesParam, hfeat]
    · simp only [GetFeatureRulesParams, hfeat]
    · intro mid aim
      simp only [GetFeaturePosition, hfeat]
      rfl
    · simp [ValidFeatureID, hnum, hfeat]

/-- C16, at the scenario: no unit and no feature has the ID 99. -/
theorem tombstone_witness :
    Scenario.world.GetUnit 99 = none
      ∧ GetUnitHealth (specLuaUtils Scenario.world) Scenario.world Scenario.asTeam2 (.number 99)
        = .ok []
      ∧ GetFeaturePosition (specLuaUtils Scenario.world) Scenario.world Scenario.asTeam2
          (.number 99) true true
        = .ok [] :=
  ⟨by rfl,
    ((tombstone (specLuaUtils Scenario.world) Scenario.world Scenario.asTeam2 Scenario.running
      (.number 99) rfl).1 (by rfl)).2.1,
    ((tombstone (specLuaUtils Scenario.world) Scenario.world Scenario.asTeam2 Scenario.running
      (.number 99) rfl).2 (by rfl)).2.2.2.1 true true⟩

/-! ## GetTeamUnitDefCount -/

/-- The tally of GetTeamUnitDefCount adds the number of typed units. -/
theorem tally_eq (H : LuaUtils) (L : lua_State) (c : Nat) (us : List CUnit) :
    GetTeamUnitDefCount.tally H L c us = c + (us.filter (H.IsUnitTyped L)).length := by
  unfold GetTeamUnitDefCount.tally
  exact countLoop_eq (H.IsUnitTyped L) us c

/-- A fold that adds one term per element adds the sum of the terms. -/
theorem foldl_add_eq_sum {α : Type} (f : α → Nat) (l : List α) :
    ∀ c : Nat, l.foldl (fun c a => c + f a) c = c + (l.map f).sum := by
  induction l with
  | nil => intro c; simp
  | cons a l ih =>
    intro c
    rw [List.foldl_cons, ih]
    simp only [List.map_cons, List.sum_cons]
    omega

/-- Counting the elements that satisfy one of two exclusive tests. -/
theorem length_filter_or {α : Type} (a b : α → Bool) (l : List α)
    (hdisj : ∀ x ∈ l, ¬ (a x = true ∧ b x = true)) :
    (l.filter (fun x => a x || b x)).length = (l.filter a).length + (l.filter b).length := by
  induction l with
  | nil => rfl
  | cons x l ih =>
    have hx := hdisj x (List.mem_cons_self _ _)
    have hrest : ∀ y ∈ l, ¬ (a y = true ∧ b y = true) :=
      fun y hy => hdisj y (List.mem_cons_of_mem _ hy)
    have ih2 := ih hrest
    cases ha : a x <;> cases hb : b x
    · simp only [List.filter_cons, ha, hb, Bool.or_self, Bool.false_eq_true, if_false]
      exact ih2
    · simp only [List.filter_cons, ha, hb, Bool.or_true, Bool.false_eq_true, if_false, if_true,
        List.length_cons]
      omega
    · simp only [List.filter_cons, ha, hb, Bool.or_false, Bool.false_eq_true, if_false, if_true,
        List.length_cons]
      omega
    · exact absurd ⟨ha, hb⟩ hx

/-- The typed units counted definition by definition over a list of distinct
definition IDs are the typed units whose definition is in the list. -/
theorem sum_typed_by_decoy (p : CUnit → Bool) (us : List CUnit) (ds : List Nat)
    (hnd : ds.Nodup) :
    (ds.map (fun d => ((us.filter (fun u => decide (u.unitDef.id = d))).filter p).length)).sum
      = (us.filter (fun u => decide (u.unitDef.id ∈ ds) && p u)).length := by
  induction ds with
  | nil => simp
  | cons d ds ih =>
    simp only [List.nodup_cons] at hnd
    rw [List.map_cons, List.sum_cons, ih hnd.2]
    have hsplit : (us.filter (fun u => decide (u.unitDef.id ∈ d :: ds) && p u))
        = us.filter (fun u => (decide (u.unitDef.id = d) && p u)
            || (decide (u.unitDef.id ∈ ds) && p u)) := by
      apply List.filter_congr
      intro u _
      by_cases h1 : u.unitDef.id = d <;> by_cases h2 : u.unitDef.id ∈ ds <;>
        simp [h1, h2]
    rw [hsplit, length_filter_or]
    · rw [List.filter_filter]
      congr 2
      apply List.filter_congr
      intro u _
      exact Bool.and_comm _ _
    · intro u _ h
      simp only [Bool.and_eq_true, decide_eq_true_eq] at h
      exact hnd.1 (h.1.1 ▸ h.2.1)

/-- C17, as stated, fails: the caller whose read-allyteam is the no-access
sentinel is not allied with team 1, definition 42 is no decoy, and
GetTeamUnitDefCount returns zero results, not a count. -/
theorem GetTeamUnitDefCount_noAccess :
    (specLuaUtils Scenario.world).IsAlliedTeam Scenario.noAccess
        (Scenario.world.Team 1).teamNum = false
      ∧ Scenario.world.GetUnitDefByID 42 = some Scenario.def42
      ∧ Scenario.def42.decoyDef = none
      ∧ GetTeamUnitDefCount (specLuaUtils Scenario.world) Scenario.world Scenario.noAccess 1 42
        = .ok [] :=
  ⟨by decide, rfl, rfl, rfl⟩

/-- C17, amended.  Decoy folding in GetTeamUnitDefCount, for a caller whose
read-allyteam is not the no-access sentinel, a valid team T and an existing
definition D whose registered decoy IDs are distinct: a caller not allied
with T gets, for D that is no decoy, the number of typed units of T whose
true definition is D plus the number of typed units of T whose true
definition is one of D's registered decoy definitions, and 0 for D that is a
decoy; a caller allied with T gets the number of units of T whose true
definition is D. -/
theorem GetTeamUnitDefCount_folding (H : LuaUtils) (W : World) (L : lua_State) (teamID : Int)
    (unitDefID : Int) (D : UnitDef)
    (hacc : L.readAllyTeam ≠ CEventClient.NoAccessTeam)
    (hvalid : W.IsValidTeam teamID = true)
    (hdef : W.GetUnitDefByID unitDefID = some D)
    (hnd : ((W.decoyDefIDs.lookup D.id).getD []).Nodup) :
    (H.IsAlliedTeam L (W.Team teamID).teamNum = false → D.decoyDef = none →
        GetTeamUnitDefCount H W L teamID unitDefID
          = .ok [.number
              ((((W.GetUnitsByTeam (W.Team teamID).teamNum).filter
                  (fun u => decide (u.unitDef.id = D.id) && H.IsUnitTyped L u)).length
                + ((W.GetUnitsByTeam (W.Team teamID).teamNum).filter
                  (fun u => decide (u.unitDef.id ∈ (W.decoyDefIDs.lookup D.id).getD [])
                    && H.IsUnitTyped L u)).length : Nat) : ℚ)])
    ∧ (H.IsAlliedTeam L (W.Team teamID).teamNum = false → D.decoyDef.isSome = true →
        GetTeamUnitDefCount H W L teamID unitDefID = .ok [.number 0])
    ∧ (H.IsAlliedTeam L (W.Team teamID).teamNum = true →
        GetTeamUnitDefCount H W L teamID unitDefID
          = .ok [.number
              (((W.GetUnitsByTeam (W.Team teamID).teamNum).filter
                (fun u => decide (u.unitDef.id = D.id))).length : ℚ)]) := by
  have hparse : ParseTeam W "GetTeamUnitDefCount" teamID = .ok (W.Team teamID) := by
    simp [ParseTeam, hvalid]
  refine ⟨?_, ?_, ?_⟩
  · intro hna hnodecoy
    have hfold : ∀ (ds : List Nat) (c : Nat),
        ds.foldl (fun (unitCount : Nat) udID => GetTeamUnitDefCount.tally H L unitCount
          (W.GetUnitsByTeamAndDef (W.Team teamID).teamNum udID)) c
        = c + (ds.map (fun d => (((W.GetUnitsByTeam (W.Team teamID).teamNum).filter
            (fun u => decide (u.unitDef.id = d))).filter (H.IsUnitTyped L)).length)).sum := by
      intro ds c
      rw [← foldl_add_eq_sum]
      congr 1
      funext c2 d
      rw [tally_eq, GetUnitsByTeamAndDef_eq]
    have hfirst : GetTeamUnitDefCount.tally H L 0
        (W.GetUnitsByTeamAndDef (W.Team teamID).teamNum D.id)
        = ((W.GetUnitsByTeam (W.Team teamID).teamNum).filter
            (fun u => decide (u.unitDef.id = D.id) && H.IsUnitTyped L u)).length := by
      rw [tally_eq, GetUnitsByTeamAndDef_eq, List.filter_filter, Nat.zero_add]
      congr 2
      funext u
      exact Bool.and_comm _ _
    unfold GetTeamUnitDefCount
    simp only [hacc, hparse, hdef, hna, hnodecoy, Option.isSome_none, Bool.false_eq_true,
      if_false, hfirst]
    cases hlk : W.decoyDefIDs.lookup D.id with
    | none => simp
    | some ds =>
      rw [hlk] at hnd
      simp only [Option.getD_some] at hnd ⊢
      rw [hfold ds, sum_typed_by_decoy (H.IsUnitTyped L) _ ds hnd]
  · intro hna hdecoy
    unfold GetTeamUnitDefCount
    simp [hacc, hparse, hdef, hna, hdecoy]
  · intro hally
    unfold GetTeamUnitDefCount
    simp [hacc, hparse, hdef, hally, World.NumUnitsByTeamAndDef, GetUnitsByTeamAndDef_eq]

/-- C17 amended, at the scenario with definition 43 registered as a decoy of
definition 42: team 0 counts two units of definition 42 in team 1, the typed
unit 2 and the typed decoy unit 8; the untyped unit 7 is not counted. -/
theorem GetTeamUnitDefCount_folding_witness :
    GetTeamUnitDefCount (specLuaUtils Scenario.decoyWorld) Scenario.decoyWorld Scenario.asTeam0
        1 42 = .ok [.number 2] := by
  have h := (GetTeamUnitDefCount_folding (specLuaUtils Scenario.decoyWorld) Scenario.decoyWorld
    Scenario.asTeam0 1 42 Scenario.def42 (by decide) (by decide) rfl (by decide)).1
    (by decide) rfl
  rw [h]
  rfl

/-! ## Region queries -/

/-- Appending a value to a Lua array puts it at the next key. -/
theorem luaArray_append_singleton {V : Type} (vs : List V) (v : V) :
    luaArray (vs ++ [v]) = luaArray vs ++ [(LuaKey.int ((vs.length + 1 : Nat) : Int), v)] := by
  unfold luaArray
  rw [List.enum_append, List.map_append, List.enumFrom_singleton]
  rfl

/-- A Lua array of n values has no binding at the key n + 1. -/
theorem luaArray_fresh {V : Type} (vs : List V) :
    ∀ e ∈ luaArray vs, e.1 ≠ LuaKey.int ((vs.length + 1 : Nat) : Int) := by
  intro e he hk
  unfold luaArray at he
  simp only [List.mem_map] at he
  obtain ⟨⟨i, v⟩, hmem, rfl⟩ := he
  have hi := (List.mem_enum hmem).1
  simp only at hk
  injection hk with hk
  have : i + 1 = vs.length + 1 := by exact_mod_cast hk
  omega

/-- The macro LOOP_UNIT_CONTAINER, started on a Lua array with its counter
equal to the size of the array, appends the IDs of the units that pass both
tests. -/
theorem loop_unit_container_array (a c : CUnit → Bool) (units : List CUnit) :
    ∀ pre : List Int,
      units.foldl (LOOP_UNIT_CONTAINER.step a c) (luaArray pre, pre.length)
        = (luaArray (pre ++ (units.filter (fun u => a u && c u)).map (fun u => u.id)),
            (pre ++ (units.filter (fun u => a u && c u)).map (fun u => u.id)).length) := by
  induction units with
  | nil => intro pre; simp
  | cons u us ih =>
    intro pre
    rw [List.foldl_cons]
    by_cases ha : a u = true
    · by_cases hc : c u = true
      · have hstep : LOOP_UNIT_CONTAINER.step a c (luaArray pre, pre.length) u
            = (luaArray (pre ++ [u.id]), (pre ++ [u.id]).length) := by
          simp only [LOOP_UNIT_CONTAINER.step, ha, hc, Bool.not_true, Bool.false_eq_true,
            if_false]
          rw [rawset_fresh _ _ _ (luaArray_fresh pre), luaArray_append_singleton]
          simp
        rw [hstep, ih]
        simp [List.filter_cons, ha, hc]
      · have hstep : LOOP_UNIT_CONTAINER.step a c (luaArray pre, pre.length) u
            = (luaArray pre, pre.length) := by
          simp [LOOP_UNIT_CONTAINER.step, ha, hc]
        rw [hstep, ih]
        simp [List.filter_cons, ha, hc]
    · have hstep : LOOP_UNIT_CONTAINER.step a c (luaArray pre, pre.length) u
          = (luaArray pre, pre.length) := by
        simp [LOOP_UNIT_CONTAINER.step, ha]
      rw [hstep, ih]
      simp [List.filter_cons, ha]

/-- The macro LOOP_UNIT_CONTAINER with NEWTABLE builds the Lua array of the IDs
of the units that pass both tests, in the order of the container. -/
theorem loop_unit_container_new (a c : CUnit → Bool) (top : LuaTable Int) (units : List CUnit) :
    LOOP_UNIT_CONTAINER a c true top units
      = luaArray ((units.filter (fun u => a u && c u)).map (fun u => u.id)) := by
  unfold LOOP_UNIT_CONTAINER
  have h := loop_unit_container_array a c units []
  simp only [List.nil_append, List.length_nil] at h
  have h0 : (luaArray ([] : List Int)) = [] := rfl
  rw [h0] at h
  simp only [if_true, h]

/-- The allegiance dispatch of the region queries returns the Lua array of the
IDs of the candidates that pass the allegiance filter of the spec and the
shape test of the query, in candidate order. -/
theorem regionDispatch_eq (H : LuaUtils) (L : lua_State) (allegiance : Int)
    (c : CUnit → Bool) (units : List CUnit) :
    regionDispatch H L allegiance c units
      = luaArray ((units.filter
          (fun u => specAllegianceFilter H L allegiance u && c u)).map (fun u => u.id)) := by
  unfold regionDispatch
  have hcongr : ∀ t : CUnit → Bool, (∀ u, t u = specAllegianceFilter H L allegiance u) →
      LOOP_UNIT_CONTAINER t c true [] units
        = luaArray ((units.filter
            (fun u => specAllegianceFilter H L allegiance u && c u)).map (fun u => u.id)) := by
    intro t ht
    rw [loop_unit_container_new]
    congr 2
    apply List.filter_congr
    intro u _
    rw [ht u]
  by_cases h0 : allegiance ≥ 0
  · rw [if_pos h0]
    by_cases hal : H.IsAlliedTeam L allegiance = true
    · rw [if_pos hal]
      apply hcongr
      intro u
      simp [specAllegianceFilter, SIMPLE_TEAM_TEST, h0, hal]
    · rw [if_neg hal]
      apply hcongr
      intro u
      by_cases ht : u.team = allegiance <;> by_cases hv : H.IsUnitVisible L u = true <;>
        simp [specAllegianceFilter, VISIBLE_TEAM_TEST, h0, hal, ht, hv]
  · rw [if_neg h0]
    by_cases h1 : allegiance = LuaUtils.MyUnits
    · rw [if_pos h1]
      apply hcongr
      intro u
      unfold specAllegianceFilter MY_UNIT_TEST
      rw [if_neg h0, if_pos h1]
      simp
    · rw [if_neg h1]
      by_cases h2 : allegiance = LuaUtils.AllyUnits
      · rw [if_pos h2]
        apply hcongr
        intro u
        unfold specAllegianceFilter ALLY_UNIT_TEST
        rw [if_neg h0, if_neg h1, if_pos h2]
        simp
      · rw [if_neg h2]
        by_cases h3 : allegiance = LuaUtils.EnemyUnits
        · rw [if_pos h3]
          apply hcongr
          intro u
          unfold specAllegianceFilter ENEMY_UNIT_TEST
          rw [if_neg h0, if_neg h1, if_neg h2, if_pos h3]
          by_cases ht : u.allyteam = L.readAllyTeam <;>
            by_cases hv : H.IsUnitVisible L u = true <;>
            simp [ht, hv]
        · rw [if_neg h3]
          apply hcongr
          intro u
          unfold specAllegianceFilter VISIBLE_TEST
          rw [if_neg h0, if_neg h1, if_neg h2, if_neg h3]

/-- C18. Allegiance filter of the region queries.  For every candidate list
delivered by the spatial index and every allegiance argument,
GetUnitsInRectangle returns the array (keys 1..k, candidate order) of the IDs
of exactly the candidates that satisfy the allegiance filter: explicit team
t >= 0, `u.team == t` and `u` visible unless the caller is allied with t;
Mine, `u.team` is the read team; Ally, `u.allyteam` is the read-allyteam;
Enemy, `u.allyteam` differs from the read-allyteam and `u` is visible; All,
`u` is visible.  GetUnitsInBox, GetUnitsInCylinder and GetUnitsInSphere apply
the same filter to the candidates that pass their shape test. -/
theorem region_queries_allegiance (H : LuaUtils) (W : World) (L : lua_State)
    (allegiance : Int) :
    (∀ xmin zmin xmax zmax : ℚ,
      GetUnitsInRectangle H W L xmin zmin xmax zmax allegiance
        = luaArray (((W.GetUnitsExact { x := xmin, y := 0, z := zmin }
              { x := xmax, y := 0, z := zmax }).filter
            (specAllegianceFilter H L allegiance)).map (fun u => u.id)))
    ∧ (∀ xmin ymin zmin xmax ymax zmax : ℚ,
      GetUnitsInBox H W L xmin ymin zmin xmax ymax zmax allegiance
        = luaArray (((W.GetUnitsExact { x := xmin, y := 0, z := zmin }
              { x := xmax, y := 0, z := zmax }).filter
            (fun u => specAllegianceFilter H L allegiance u
              && BOX_TEST ymin ymax u)).map (fun u => u.id)))
    ∧ (∀ x z radius : ℚ,
      GetUnitsInCylinder H W L x z radius allegiance
        = luaArray (((W.GetUnitsExact { x := x - radius, y := 0, z := z - radius }
              { x := x + radius, y := 0, z := z + radius }).filter
            (fun u => specAllegianceFilter H L allegiance u
              && CYLINDER_TEST x z (radius * radius) u)).map (fun u => u.id)))
    ∧ (∀ x y z radius : ℚ,
      GetUnitsInSphere H W L x y z radius allegiance
        = luaArray (((W.GetUnitsExact { x := x - radius, y := 0, z := z - radius }
              { x := x + radius, y := 0, z := z + radius }).filter
            (fun u => specAllegianceFilter H L allegiance u
              && SPHERE_TEST x y z (radius * radius) u)).map (fun u => u.id))) := by
  refine ⟨?_, ?_, ?_, ?_⟩
  · intro xmin zmin xmax zmax
    unfold GetUnitsInRectangle
    simp only [regionDispatch_eq, Bool.and_true]
  · intro xmin ymin zmin xmax ymax zmax
    unfold GetUnitsInBox
    simp only [regionDispatch_eq]
  · intro x z radius
    unfold GetUnitsInCylinder
    simp only [regionDispatch_eq]
  · intro x y z radius
    unfold GetUnitsInSphere
    simp only [regionDispatch_eq]

/-! ## GetUnitsInPlanes -/

/-- C19, at the failing input: team 0 owns unit 1, team 1 owns unit 2, both
lie inside the (empty) list of planes and both pass the filter of the
allegiance All for the caller team 0 (unit 1 is its own, unit 2 is in its
LOS).  GetUnitsInPlanes returns a table with the single binding 1 -> 2: the
counter of LOOP_UNIT_CONTAINER restarts at 0 for every team, so unit 2
overwrites unit 1, whose ID is at no key of the result. -/
theorem GetUnitsInPlanes_overwrites :
    UnitInPlanes Scenario.unitA [] = true
      ∧ UnitInPlanes Scenario.unitB [] = true
      ∧ (specLuaUtils (Scenario.worldOf [Scenario.unitA, Scenario.unitB])).IsAlliedTeam
          Scenario.asTeam0 Scenario.unitA.team = true
      ∧ (specLuaUtils (Scenario.worldOf [Scenario.unitA, Scenario.unitB])).IsUnitVisible
          Scenario.asTeam0 Scenario.unitB = true
      ∧ GetUnitsInPlanes (specLuaUtils (Scenario.worldOf [Scenario.unitA, Scenario.unitB]))
          (Scenario.worldOf [Scenario.unitA, Scenario.unitB]) Scenario.asTeam0 (some [])
          LuaUtils.AllUnits
        = .ok [(.int 1, 2)]
      ∧ ∀ key, LuaTable.rawget [((LuaKey.int 1, 2) : LuaKey × Int)] key ≠ some Scenario.unitA.id := by
  refine ⟨rfl, rfl, by decide, by decide, by rfl, ?_⟩
  intro key
  unfold LuaTable.rawget
  by_cases hk : LuaKey.int 1 = key
  · simp [hk, Scenario.unitA]
  · simp [hk]

/-! ## Ally-only queries -/

/-- C20. Ally-only queries leak nothing to non-allies.  For a numeric ID that
resolves to a unit that is not allied to the caller, whatever the unit's
visibility status and internal state and for every implementation of the
other helpers: GetUnitExperience, GetUnitStockpile, GetUnitIsCloaked,
GetUnitWeaponState, GetUnitCommands, GetUnitMoveTypeData and GetUnitIsBuilding
return zero results; hence in a second world, where the ID resolves to a unit
with any other state that is not allied either, the results are the same. -/
theorem ally_only_queries {R : Type} (H : LuaUtils) (W W2 : World) (L : lua_State)
    (unitID : LuaValue) (unit unit2 : CUnit) (numCmds : Int) (cmdsTable : Bool)
    (body : CUnit → Except String (Option R))
    (hnum : lua_isnumber L unitID = true)
    (hunit : W.GetUnit (lua_toint L unitID) = some unit)
    (hunit2 : W2.GetUnit (lua_toint L unitID) = some unit2)
    (hna : H.IsAllyUnit L unit = false)
    (hna2 : H.IsAllyUnit L unit2 = false) :
    (GetUnitExperience H W L unitID = .ok []
      ∧ GetUnitStockpile H W L unitID = .ok []
      ∧ GetUnitIsCloaked H W L unitID = .ok []
      ∧ GetUnitWeaponState H W L unitID body = .ok none
      ∧ GetUnitCommands H W L unitID numCmds cmdsTable = .ok none
      ∧ GetUnitMoveTypeData H W L unitID body = .ok none
      ∧ GetUnitIsBuilding H W L unitID = .ok [])
    ∧ (GetUnitExperience H W2 L unitID = GetUnitExperience H W L unitID
      ∧ GetUnitStockpile H W2 L unitID = GetUnitStockpile H W L unitID
      ∧ GetUnitIsCloaked H W2 L unitID = GetUnitIsCloaked H W L unitID
      ∧ GetUnitWeaponState H W2 L unitID body = GetUnitWeaponState H W L unitID body
      ∧ GetUnitCommands H W2 L unitID numCmds cmdsTable
          = GetUnitCommands H W L unitID numCmds cmdsTable
      ∧ GetUnitMoveTypeData H W2 L unitID body = GetUnitMoveTypeData H W L unitID body
      ∧ GetUnitIsBuilding H W2 L unitID = GetUnitIsBuilding H W L unitID) := by
  have hgate : ∀ caller : String, ParseAllyUnit H W L caller unitID 1 = .ok none := by
    intro caller
    simp [ParseAllyUnit, ParseRawUnit, hnum, hunit, hna]
  have hgate2 : ∀ caller : String, ParseAllyUnit H W2 L caller unitID 1 = .ok none := by
    intro caller
    simp [ParseAllyUnit, ParseRawUnit, hnum, hunit2, hna2]
  refine ⟨⟨?_, ?_, ?_, ?_, ?_, ?_, ?_⟩, ?_, ?_, ?_, ?_, ?_, ?_, ?_⟩
  · simp only [GetUnitExperience, hgate]
  · simp only [GetUnitStockpile, hgate]
  · simp only [GetUnitIsCloaked, hgate]
  · simp only [GetUnitWeaponState, hgate]
  · simp only [GetUnitCommands, hgate]
  · simp only [GetUnitMoveTypeData, hgate]
  · simp only [GetUnitIsBuilding, hgate]
  · simp only [GetUnitExperience, hgate, hgate2]
  · simp only [GetUnitStockpile, hgate, hgate2]
  · simp only [GetUnitIsCloaked, hgate, hgate2]
  · simp only [GetUnitWeaponState, hgate, hgate2]
  · simp only [GetUnitCommands, hgate, hgate2]
  · simp only [GetUnitMoveTypeData, hgate, hgate2]
  · simp only [GetUnitIsBuilding, hgate, hgate2]

/-- C20, at the scenario: unit 2 is in LOS of team 0 but not allied to it;
team 0 gets zero results for its experience, also in the world where unit 2
is a veteran, while the allied team 2 reads the experience. -/
theorem ally_only_queries_witness :
    (specLuaUtils (Scenario.worldOf [Scenario.unitB])).IsUnitInLos Scenario.asTeam0
        Scenario.unitB = true
      ∧ GetUnitExperience (specLuaUtils (Scenario.worldOf [Scenario.unitB]))
          (Scenario.worldOf [Scenario.unitB]) Scenario.asTeam0 (.number 2) = .ok []
      ∧ GetUnitExperience (specLuaUtils (Scenario.worldOf [Scenario.unitB]))
          (Scenario.worldOf [{ Scenario.unitB with experience := 9 }]) Scenario.asTeam0
          (.number 2)
        = GetUnitExperience (specLuaUtils (Scenario.worldOf [Scenario.unitB]))
          (Scenario.worldOf [Scenario.unitB]) Scenario.asTeam0 (.number 2)
      ∧ GetUnitExperience (specLuaUtils (Scenario.worldOf [Scenario.unitB]))
          (Scenario.worldOf [Scenario.unitB]) Scenario.asTeam2 (.number 2)
        = .ok [.number 2, .number (1 / 2)] :=
  ⟨by decide,
    (ally_only_queries (specLuaUtils (Scenario.worldOf [Scenario.unitB]))
      (Scenario.worldOf [Scenario.unitB])
      (Scenario.worldOf [{ Scenario.unitB with experience := 9 }]) Scenario.asTeam0 (.number 2)
      Scenario.unitB { Scenario.unitB with experience := 9 } 0 true
      (fun _ => (.ok none : Except String (Option Nat))) rfl (by rfl) (by rfl) (by decide)
      (by decide)).1.1,
    (ally_only_queries (specLuaUtils (Scenario.worldOf [Scenario.unitB]))
      (Scenario.worldOf [Scenario.unitB])
      (Scenario.worldOf [{ Scenario.unitB with experience := 9 }]) Scenario.asTeam0 (.number 2)
      Scenario.unitB { Scenario.unitB with experience := 9 } 0 true
      (fun _ => (.ok none : Except String (Option Nat))) rfl (by rfl) (by rfl) (by decide)
      (by decide)).2.1,
    by rfl⟩

/-! ## GetUnitBlocking -/

/-- C21, counterexample.  Unit 7 of team 1 has PREV_LOS and CONTINUOUS_RADAR
set for allyteam 0 and IN_LOS unset; it is not allied to the caller reading as
team 0.  GetUnitBlocking does not return zero results: it returns the seven
blocking flags of the unit. -/
theorem GetUnitBlocking_typed_not_in_los :
    Scenario.unitTyped.allyteam ≠ Scenario.asTeam0.readAllyTeam
      ∧ Scenario.asTeam0.fullRead = false
      ∧ (Scenario.unitTyped.losStatus Scenario.asTeam0.readAllyTeam.toNat &&& LOS_INLOS) = 0
      ∧ GetUnitBlocking (specLuaUtils (Scenario.worldOf [Scenario.unitTyped]))
          (Scenario.worldOf [Scenario.unitTyped]) Scenario.asTeam0 (.number 7)
        = .ok [.boolean false, .boolean false, .boolean false, .boolean false,
            .boolean false, .boolean true, .boolean false] :=
  ⟨by decide, rfl, by decide, by rfl⟩

/-- C21, amended.  GetUnitBlocking is typed-gated.  With the helpers of
LuaUtils.h as the spec describes them, for a numeric ID that resolves to a
unit that is not allied to the caller: when the unit's visibility status for
the caller's allyteam lacks IN_LOS and does not have both PREV_LOS and
CONTINUOUS_RADAR set, or when the read-allyteam is a negative sentinel,
GetUnitBlocking returns zero results; when the status has IN_LOS set, or both
PREV_LOS and CONTINUOUS_RADAR (typed, also when not currently in LOS), it
returns the seven blocking flags of the unit. -/
theorem GetUnitBlocking_typed_gated (W : World) (L : lua_State) (unitID : LuaValue)
    (unit : CUnit)
    (hnum : lua_isnumber L unitID = true)
    (hunit : W.GetUnit (lua_toint L unitID) = some unit)
    (hfull : L.fullRead = false) (hother : unit.allyteam ≠ L.readAllyTeam) :
    (0 ≤ L.readAllyTeam →
        (unit.losStatus L.readAllyTeam.toNat &&& LOS_INLOS) = 0 →
        (unit.losStatus L.readAllyTeam.toNat &&& (LOS_PREVLOS ||| LOS_CONTRADAR))
          ≠ (LOS_PREVLOS ||| LOS_CONTRADAR) →
        GetUnitBlocking (specLuaUtils W) W L unitID = .ok [])
    ∧ (L.readAllyTeam < 0 → GetUnitBlocking (specLuaUtils W) W L unitID = .ok [])
    ∧ (0 ≤ L.readAllyTeam →
        ((unit.losStatus L.readAllyTeam.toNat &&& LOS_INLOS) ≠ 0
          ∨ (unit.losStatus L.readAllyTeam.toNat &&& (LOS_PREVLOS ||| LOS_CONTRADAR))
            = (LOS_PREVLOS ||| LOS_CONTRADAR)) →
        GetUnitBlocking (specLuaUtils W) W L unitID
          = .ok [.boolean (unit.HasPhysicalStateBit CSolidObject.PSTATE_BIT_BLOCKING),
              .boolean (unit.HasCollidableStateBit CSolidObject.CSTATE_BIT_SOLIDOBJECTS),
              .boolean (unit.HasCollidableStateBit CSolidObject.CSTATE_BIT_PROJECTILES),
              .boolean (unit.HasCollidableStateBit CSolidObject.CSTATE_BIT_QUADMAPRAYS),
              .boolean unit.crushable, .boolean unit.blockEnemyPushing,
              .boolean unit.blockHeightChanges]) := by
  have hparse : ParseRawUnit W L "GetUnitBlocking" unitID 1 = .ok (some unit) := by
    simp [ParseRawUnit, hnum, hunit]
  have h1 : LuaUtilsSpec.IsAllyUnit L unit = false := by
    unfold LuaUtilsSpec.IsAllyUnit LuaUtilsSpec.IsAlliedAllyTeam
    simp [hfull, hother]
  refine ⟨?_, ?_, ?_⟩
  · intro hread hlos hprev
    have hneg : ¬ L.readAllyTeam < 0 := not_lt.mpr hread
    have h3 : LuaUtilsSpec.IsUnitTyped L unit = false := by
      unfold LuaUtilsSpec.IsUnitTyped LuaUtilsSpec.readLosStatus
      simp [h1, hneg, hlos, hprev]
    unfold GetUnitBlocking ParseTypedUnit
    simp [hparse, specLuaUtils, h3, GetSolidObjectBlocking]
  · intro hneg
    have h3 : LuaUtilsSpec.IsUnitTyped L unit = false := by
      unfold LuaUtilsSpec.IsUnitTyped LuaUtilsSpec.readLosStatus
      simp [h1, hneg]
    unfold GetUnitBlocking ParseTypedUnit
    simp [hparse, specLuaUtils, h3, GetSolidObjectBlocking]
  · intro hread htyped
    have hneg : ¬ L.readAllyTeam < 0 := not_lt.mpr hread
    have h3 : LuaUtilsSpec.IsUnitTyped L unit = true := by
      unfold LuaUtilsSpec.IsUnitTyped LuaUtilsSpec.readLosStatus
      rcases htyped with h | h
      · simp [h1, hneg, h]
      · simp [h1, hneg, h]
    unfold GetUnitBlocking ParseTypedUnit
    simp [hparse, specLuaUtils, h3, GetSolidObjectBlocking]

/-- C21, amended, at the scenario: unit 7 in radar only gives zero results to
team 0; the same unit with PREV_LOS and CONTINUOUS_RADAR set gives its seven
flags. -/
theorem GetUnitBlocking_typed_gated_witness :
    GetUnitBlocking (specLuaUtils Scenario.world) Scenario.world Scenario.asTeam0 (.number 7)
        = .ok []
      ∧ GetUnitBlocking (specLuaUtils (Scenario.worldOf [Scenario.unitTyped]))
          (Scenario.worldOf [Scenario.unitTyped]) Scenario.asTeam0 (.number 7)
        = .ok [.boolean false, .boolean false, .boolean false, .boolean false,
            .boolean false, .boolean true, .boolean false] :=
  ⟨(GetUnitBlocking_typed_gated Scenario.world Scenario.asTeam0 (.number 7) Scenario.unitU
      rfl (by rfl) rfl (by decide)).1 (by decide) (by decide) (by decide),
    (GetUnitBlocking_typed_gated (Scenario.worldOf [Scenario.unitTyped]) Scenario.asTeam0
      (.number 7) Scenario.unitTyped rfl (by rfl) rfl (by decide)).2.2 (by decide)
      (Or.inr (by decide))⟩

/-! ## GetUnitCommands -/

/-- The loop of PackCommandQueue, started on a Lua array with its counter at
the length of the array, appends the commands up to `count` in total. -/
theorem packLoop_eq (count : Nat) (cmds : List Command) :
    ∀ pre : List Command, pre.length ≤ count →
      PackCommandQueue.loop count cmds (luaArray pre) pre.length
        = luaArray (pre ++ cmds.take (count - pre.length)) := by
  induction cmds with
  | nil => intro pre _; simp [PackCommandQueue.loop]
  | cons c rest ih =>
    intro pre hle
    unfold PackCommandQueue.loop
    by_cases hge : pre.length ≥ count
    · have h0 : count - pre.length = 0 := by omega
      simp [hge, h0]
    · have hlt : pre.length < count := by omega
      rw [if_neg hge, rawset_fresh _ _ _ (luaArray_fresh pre), ← luaArray_append_singleton]
      have hlen : (pre ++ [c]).length = pre.length + 1 := by simp
      have := ih (pre ++ [c]) (by rw [hlen]; omega)
      rw [hlen] at this
      rw [this]
      have htake : List.take (count - pre.length) (c :: rest)
          = c :: List.take (count - (pre.length + 1)) rest := by
        have : count - pre.length = (count - (pre.length + 1)) + 1 := by omega
        rw [this, List.take_succ_cons]
      rw [htake]
      simp

/-- PackCommandQueue builds the Lua array of the first `count` commands, and
of all commands when `count` is the sentinel 4294967295. -/
theorem PackCommandQueue_eq (cmds : List Command) (count : Nat) :
    PackCommandQueue cmds count
      = luaArray (cmds.take (if count = 4294967295 then cmds.length else count)) := by
  unfold PackCommandQueue
  have := packLoop_eq (if count = 4294967295 then cmds.length else count) cmds [] (by simp)
  simpa [luaArray] using this

/-- C22. Bounded prefix of GetUnitCommands.  For every unit allied to the
caller, with `queue` the queue that is read (the orders for newly built units
when the unit is a factory, the unit's own queue otherwise), of a length a
container in memory can have, and every int `n`: for n > 0 in table mode the
result is the Lua array of the first min(n, s) commands of the queue, in queue
order at the keys 1..min(n, s); for n < 0 in table mode it is the Lua array of
all s commands; for n = 0, or with the table flag false, it is the number s. -/
theorem GetUnitCommands_first_commands (H : LuaUtils) (W : World) (L : lua_State)
    (unitID : LuaValue) (unit : CUnit) (queue : List Command) (n : Int)
    (hnum : lua_isnumber L unitID = true)
    (hunit : W.GetUnit (lua_toint L unitID) = some unit)
    (hally : H.IsAllyUnit L unit = true)
    (hqueue : queue = match unit.commandAI.newUnitCommands with
      | none => unit.commandAI.commandQue
      | some newUnitCommands => newUnitCommands)
    (hint : -2 ^ 31 ≤ n ∧ n < 2 ^ 31)
    (hsize : queue.length < 2 ^ 63) :
    (0 < n → GetUnitCommands H W L unitID n true
        = .ok (some (.table (luaArray (queue.take (min n.toNat queue.length))))))
    ∧ (n < 0 → GetUnitCommands H W L unitID n true = .ok (some (.table (luaArray queue))))
    ∧ GetUnitCommands H W L unitID 0 true = .ok (some (.size queue.length))
    ∧ GetUnitCommands H W L unitID n false = .ok (some (.size queue.length)) := by
  have hparse : ParseAllyUnit H W L "GetUnitCommands" unitID 1 = .ok (some unit) := by
    simp [ParseAllyUnit, ParseRawUnit, hnum, hunit, hally]
  obtain ⟨hlo, hhi⟩ := hint
  refine ⟨?_, ?_, ?_, ?_⟩
  · intro hpos
    have hne : n ≠ 0 := by omega
    have hmod : (n % (2 ^ 64 : Int)).toNat = n.toNat := by
      rw [Int.emod_eq_of_lt (by omega) (by omega)]
    have hsent : n.toNat ≠ 4294967295 := by omega
    unfold GetUnitCommands
    simp only [hparse, ← hqueue, Bool.true_and, decide_eq_true_eq, hne, ne_eq, not_false_eq_true,
      if_true, hmod, PackCommandQueue_eq, if_neg hsent]
    have htake : List.take (min n.toNat queue.length) queue = List.take n.toNat queue := by
      rcases Nat.le_total n.toNat queue.length with h | h
      · rw [Nat.min_eq_left h]
      · rw [Nat.min_eq_right h, List.take_length, List.take_of_length_le h]
    rw [htake]
  · intro hneg
    have hne : n ≠ 0 := by omega
    have hmod : (n % (2 ^ 64 : Int)).toNat = (n + 2 ^ 64).toNat := by
      have : n % (2 ^ 64 : Int) = n + 2 ^ 64 := by
        rw [← Int.add_emod_self, Int.emod_eq_of_lt (by omega) (by omega)]
      rw [this]
    have hsent : (n + 2 ^ 64).toNat ≠ 4294967295 := by omega
    have hall : List.take (n + 2 ^ 64).toNat queue = queue :=
      List.take_of_length_le (by omega)
    unfold GetUnitCommands
    simp only [hparse, ← hqueue, Bool.true_and, decide_eq_true_eq, hne, ne_eq, not_false_eq_true,
      if_true, hmod, PackCommandQueue_eq, if_neg hsent, hall]
  · unfold GetUnitCommands
    simp [hparse, ← hqueue]
  · unfold GetUnitCommands
    simp [hparse, ← hqueue]

/-- C22, at the scenario: unit 1 of team 0 holds three commands; its ally gets
the first two for n = 2, all three for n = 5 and n = -1, and the number 3 for
n = 0.  As a factory with one order for newly built units, the unit gives that
order and the number 1. -/
theorem GetUnitCommands_first_commands_witness :
    GetUnitCommands (specLuaUtils (Scenario.worldOf [Scenario.unitQueue]))
        (Scenario.worldOf [Scenario.unitQueue]) Scenario.asTeam0 (.number 1) 2 true
        = .ok (some (.table [(.int 1, Scenario.cmdMove), (.int 2, Scenario.cmdBuild42)]))
      ∧ GetUnitCommands (specLuaUtils (Scenario.worldOf [Scenario.unitQueue]))
        (Scenario.worldOf [Scenario.unitQueue]) Scenario.asTeam0 (.number 1) (-1) true
        = .ok (some (.table [(.int 1, Scenario.cmdMove), (.int 2, Scenario.cmdBuild42),
            (.int 3, Scenario.cmdBuild43)]))
      ∧ GetUnitCommands (specLuaUtils (Scenario.worldOf [Scenario.unitQueue]))
        (Scenario.worldOf [Scenario.unitQueue]) Scenario.asTeam0 (.number 1) 0 true
        = .ok (some (.size 3))
      ∧ GetUnitCommands (specLuaUtils (Scenario.worldOf [Scenario.unitFactory]))
        (Scenario.worldOf [Scenario.unitFactory]) Scenario.asTeam0 (.number 1) 7 true
        = .ok (some (.table [(.int 1, Scenario.cmdMove)]))
      ∧ GetUnitCommands (specLuaUtils (Scenario.worldOf [Scenario.unitFactory]))
        (Scenario.worldOf [Scenario.unitFactory]) Scenario.asTeam0 (.number 1) 7 false
        = .ok (some (.size 1)) :=
  ⟨(GetUnitCommands_first_commands (specLuaUtils (Scenario.worldOf [Scenario.unitQueue]))
      (Scenario.worldOf [Scenario.unitQueue]) Scenario.asTeam0 (.number 1) Scenario.unitQueue
      [Scenario.cmdMove, Scenario.cmdBuild42, Scenario.cmdBuild43] 2
      rfl (by rfl) (by rfl) rfl (by decide) (by decide)).1 (by decide),
    (GetUnitCommands_first_commands (specLuaUtils (Scenario.worldOf [Scenario.unitQueue]))
      (Scenario.worldOf [Scenario.unitQueue]) Scenario.asTeam0 (.number 1) Scenario.unitQueue
      [Scenario.cmdMove, Scenario.cmdBuild42, Scenario.cmdBuild43] (-1)
      rfl (by rfl) (by rfl) rfl (by decide) (by decide)).2.1 (by decide),
    (GetUnitCommands_first_commands (specLuaUtils (Scenario.worldOf [Scenario.unitQueue]))
      (Scenario.worldOf [Scenario.unitQueue]) Scenario.asTeam0 (.number 1) Scenario.unitQueue
      [Scenario.cmdMove, Scenario.cmdBuild42, Scenario.cmdBuild43] 0
      rfl (by rfl) (by rfl) rfl (by decide) (by decide)).2.2.1,
    (GetUnitCommands_first_commands (specLuaUtils (Scenario.worldOf [Scenario.unitFactory]))
      (Scenario.worldOf [Scenario.unitFactory]) Scenario.asTeam0 (.number 1) Scenario.unitFactory
      [Scenario.cmdMove] 7
      rfl (by rfl) (by rfl) rfl (by decide) (by decide)).1 (by decide),
    (GetUnitCommands_first_commands (specLuaUtils (Scenario.worldOf [Scenario.unitFactory]))
      (Scenario.worldOf [Scenario.unitFactory]) Scenario.asTeam0 (.number 1) Scenario.unitFactory
      [Scenario.cmdMove] 7
      rfl (by rfl) (by rfl) rfl (by decide) (by decide)).2.2.2⟩

/-! ## Build queues -/

/-- The loop of PackBuildQueue reads the queue only through the definition IDs
of the orders it keeps. -/
theorem buildLoop_eq_push (W : World) (unit : CUnit) (canBuild : Bool) (q : List Command) :
    ∀ st : PackBuildQueue.State,
      q.foldl (PackBuildQueue.step W unit canBuild) st
        = ((q.filter (fun cmd => decide (cmd.id < 0)
              && !(canBuild && PackBuildQueue.skip W unit (-cmd.id)))).map
            (fun cmd => -cmd.id)).foldl PackBuildQueue.push st := by
  induction q with
  | nil => intro st; rfl
  | cons cmd rest ih =>
    intro st
    rw [List.foldl_cons, ih]
    by_cases hid : cmd.id ≥ 0
    · have hlt : ¬ cmd.id < 0 := by omega
      have hp : ¬ ((decide (cmd.id < 0)
          && !(canBuild && PackBuildQueue.skip W unit (-cmd.id))) = true) := by
        simp only [hlt, decide_False, Bool.false_and, Bool.false_eq_true, not_false_eq_true]
      rw [List.filter_cons, if_neg hp]
      simp only [PackBuildQueue.step, hid, if_true]
    · have hlt : cmd.id < 0 := by omega
      by_cases hskip : (canBuild && PackBuildQueue.skip W unit (-cmd.id)) = true
      · have hp : ¬ ((decide (cmd.id < 0)
            && !(canBuild && PackBuildQueue.skip W unit (-cmd.id))) = true) := by
          simp only [hskip, Bool.not_true, Bool.and_false, Bool.false_eq_true,
            not_false_eq_true]
        rw [List.filter_cons, if_neg hp]
        simp only [PackBuildQueue.step, hid, if_false, hskip, if_true]
      · have hskip2 : (canBuild && PackBuildQueue.skip W unit (-cmd.id)) = false := by
          simpa using hskip
        have hp : (decide (cmd.id < 0)
            && !(canBuild && PackBuildQueue.skip W unit (-cmd.id))) = true := by
          simp only [hskip2, hlt, decide_True, Bool.not_false, Bool.and_self]
        rw [List.filter_cons, if_pos hp, List.map_cons, List.foldl_cons]
        simp only [PackBuildQueue.step, hid, if_false, hskip2, Bool.false_eq_true]

/-- The run-length loop from a state that holds the finished runs `done` as a
Lua array and the current run `(d, c)`: the final table is the Lua array of
runs that expand to the runs so far followed by the remaining IDs, every run
is non-empty and adjacent runs differ in their ID. -/
theorem buildRuns_inv (ds : List Int) :
    ∀ (done : List (Int × Nat)) (d : Int) (c : Nat),
      d ≠ -1 → 1 ≤ c → (∀ x ∈ ds, x ≠ -1) → (∀ r ∈ done, 1 ≤ r.2) →
      List.Chain' (fun a b : Int × Nat => a.1 ≠ b.1) (done ++ [(d, c)]) →
      ∃ runs : List (Int × Nat),
        PackBuildQueue.finish (ds.foldl PackBuildQueue.push
            { table := luaArray (done.map (fun r => [(LuaKey.int r.1, r.2)]))
              entry := done.length, currentType := d, currentCount := c })
          = (luaArray (runs.map (fun r => [(LuaKey.int r.1, r.2)])), runs.length)
        ∧ runs.flatMap (fun r => List.replicate r.2 r.1)
          = done.flatMap (fun r => List.replicate r.2 r.1) ++ List.replicate c d ++ ds
        ∧ (∀ r ∈ runs, 1 ≤ r.2)
        ∧ List.Chain' (fun a b : Int × Nat => a.1 ≠ b.1) runs := by
  induction ds with
  | nil =>
    intro done d c _ hc _ hdone hchain
    refine ⟨done ++ [(d, c)], ?_, ?_, ?_, hchain⟩
    · have hpos : c > 0 := hc
      have hfresh := luaArray_fresh (done.map (fun r : Int × Nat => [(LuaKey.int r.1, r.2)]))
      rw [List.length_map] at hfresh
      simp only [List.foldl_nil, PackBuildQueue.finish, hpos, if_true]
      rw [rawset_fresh _ _ _ hfresh, List.map_append, List.map_singleton,
        luaArray_append_singleton, List.length_map]
      simp [LuaTable.rawset]
    · simp [List.flatMap_append]
    · intro r hr
      rcases List.mem_append.mp hr with h | h
      · exact hdone r h
      · simp only [List.mem_singleton] at h
        rw [h]
        exact hc
  | cons x xs ih =>
    intro done d c hd hc hds hdone hchain
    have hx : x ≠ -1 := hds x (List.mem_cons_self _ _)
    have hxs : ∀ y ∈ xs, y ≠ -1 := fun y hy => hds y (List.mem_cons_of_mem _ hy)
    rw [List.chain'_append] at hchain
    obtain ⟨hch1, _, hch3⟩ := hchain
    rw [List.foldl_cons]
    by_cases hxd : d = x
    · have hstep : PackBuildQueue.push
          { table := luaArray (done.map (fun r : Int × Nat => [(LuaKey.int r.1, r.2)]))
            entry := done.length, currentType := d, currentCount := c } x
          = { table := luaArray (done.map (fun r : Int × Nat => [(LuaKey.int r.1, r.2)]))
              entry := done.length, currentType := d, currentCount := c + 1 } := by
        simp [PackBuildQueue.push, hxd]
      rw [hstep]
      have hchain2 : List.Chain' (fun a b : Int × Nat => a.1 ≠ b.1) (done ++ [(d, c + 1)]) := by
        rw [List.chain'_append]
        refine ⟨hch1, List.chain'_singleton _, ?_⟩
        intro a ha b hb
        simp only [List.head?_cons, Option.mem_def, Option.some.injEq] at hb
        have := hch3 a ha (d, c) (by simp)
        rw [← hb]
        exact this
      obtain ⟨runs, h1, h2, h3, h4⟩ := ih done d (c + 1) hd (by omega) hxs hdone hchain2
      refine ⟨runs, h1, ?_, h3, h4⟩
      rw [h2, List.replicate_succ', hxd]
      simp
    · have hstep : PackBuildQueue.push
          { table := luaArray (done.map (fun r : Int × Nat => [(LuaKey.int r.1, r.2)]))
            entry := done.length, currentType := d, currentCount := c } x
          = { table := luaArray ((done ++ [(d, c)]).map
                (fun r : Int × Nat => [(LuaKey.int r.1, r.2)]))
              entry := (done ++ [(d, c)]).length, currentType := x, currentCount := 1 } := by
        have hfresh := luaArray_fresh (done.map (fun r : Int × Nat => [(LuaKey.int r.1, r.2)]))
        rw [List.length_map] at hfresh
        simp only [PackBuildQueue.push, hxd, hd, if_false]
        rw [rawset_fresh _ _ _ hfresh, List.map_append, List.map_singleton,
          luaArray_append_singleton, List.length_map]
        simp [LuaTable.rawset]
      rw [hstep]
      have hdone2 : ∀ r ∈ done ++ [(d, c)], 1 ≤ r.2 := by
        intro r hr
        rcases List.mem_append.mp hr with h | h
        · exact hdone r h
        · simp only [List.mem_singleton] at h
          rw [h]
          exact hc
      have hchain2 : List.Chain' (fun a b : Int × Nat => a.1 ≠ b.1)
          ((done ++ [(d, c)]) ++ [(x, 1)]) := by
        rw [List.chain'_append]
        refine ⟨?_, List.chain'_singleton _, ?_⟩
        · rw [List.chain'_append]
          exact ⟨hch1, List.chain'_singleton _, hch3⟩
        · intro a ha b hb
          simp only [List.head?_cons, Option.mem_def, Option.some.injEq] at hb
          simp only [List.getLast?_append, List.getLast?_singleton, Option.or_some,
            Option.mem_def, Option.some.injEq] at ha
          rw [← hb, ← ha]
          exact hxd
      obtain ⟨runs, h1, h2, h3, h4⟩ := ih (done ++ [(d, c)]) x 1 hx (le_refl 1) hxs hdone2 hchain2
      refine ⟨runs, h1, ?_, h3, h4⟩
      rw [h2]
      simp [List.flatMap_append]

/-- The run-length loop of PackBuildQueue from its initial state, over
definition IDs other than the sentinel -1. -/
theorem buildRuns_init (ds : List Int) (hds : ∀ x ∈ ds, x ≠ -1) :
    ∃ runs : List (Int × Nat),
      PackBuildQueue.finish (ds.foldl PackBuildQueue.push
          { table := [], entry := 0, currentType := -1, currentCount := 0 })
        = (luaArray (runs.map (fun r => [(LuaKey.int r.1, r.2)])), runs.length)
      ∧ runs.flatMap (fun r => List.replicate r.2 r.1) = ds
      ∧ (∀ r ∈ runs, 1 ≤ r.2)
      ∧ List.Chain' (fun a b : Int × Nat => a.1 ≠ b.1) runs := by
  cases ds with
  | nil => exact ⟨[], by simp [PackBuildQueue.finish, luaArray], rfl, by simp, List.chain'_nil⟩
  | cons x xs =>
    have hx : x ≠ -1 := hds x (List.mem_cons_self _ _)
    have hx2 : ¬ (-1 : Int) = x := fun h => hx h.symm
    have hxs : ∀ y ∈ xs, y ≠ -1 := fun y hy => hds y (List.mem_cons_of_mem _ hy)
    have hstep : PackBuildQueue.push
        { table := [], entry := 0, currentType := -1, currentCount := 0 } x
        = { table := luaArray (([] : List (Int × Nat)).map
              (fun r : Int × Nat => [(LuaKey.int r.1, r.2)]))
            entry := ([] : List (Int × Nat)).length, currentType := x, currentCount := 1 } := by
      simp [PackBuildQueue.push, hx2, luaArray]
    rw [List.foldl_cons, hstep]
    obtain ⟨runs, h1, h2, h3, h4⟩ := buildRuns_inv xs [] x 1 hx (le_refl 1) hxs (by simp)
      (List.chain'_singleton _)
    exact ⟨runs, h1, by simpa using h2, h3, h4⟩

/-- C23. GetFullBuildQueue returns the run-length encoding of the build
orders.  For every unit allied to the caller there is a list of runs
(definitionID, runLength) such that the first return value is the Lua array
that holds for each run, in order at the keys 1..m, the table
`{[definitionID] = runLength}`, the second return value is the number m of
runs, the runs expanded back (each definitionID repeated runLength times, in
order) are the sequence of -id over the commands of the unit's queue with
negative id, in queue order, every runLength is at least 1, and no two
adjacent runs carry the same definitionID. -/
theorem GetFullBuildQueue_run_length (H : LuaUtils) (W : World) (L : lua_State)
    (unitID : LuaValue) (unit : CUnit)
    (hnum : lua_isnumber L unitID = true)
    (hunit : W.GetUnit (lua_toint L unitID) = some unit)
    (hally : H.IsAllyUnit L unit = true) :
    ∃ runs : List (Int × Nat),
      GetFullBuildQueue H W L unitID
        = .ok (some (luaArray (runs.map (fun r => [(LuaKey.int r.1, r.2)])), runs.length))
      ∧ runs.flatMap (fun r => List.replicate r.2 r.1)
        = (unit.commandAI.commandQue.filter (fun cmd => decide (cmd.id < 0))).map
            (fun cmd => -cmd.id)
      ∧ (∀ r ∈ runs, 1 ≤ r.2)
      ∧ List.Chain' (fun a b : Int × Nat => a.1 ≠ b.1) runs := by
  have hparse : ParseAllyUnit H W L "GetFullBuildQueue" unitID 1 = .ok (some unit) := by
    simp [ParseAllyUnit, ParseRawUnit, hnum, hunit, hally]
  have hds : ∀ x ∈ (unit.commandAI.commandQue.filter (fun cmd => decide (cmd.id < 0))).map
      (fun cmd => -cmd.id), x ≠ -1 := by
    intro x hx
    simp only [List.mem_map, List.mem_filter, decide_eq_true_eq] at hx
    obtain ⟨cmd, ⟨_, hneg⟩, rfl⟩ := hx
    omega
  obtain ⟨runs, h1, h2, h3, h4⟩ := buildRuns_init _ hds
  refine ⟨runs, ?_, h2, h3, h4⟩
  unfold GetFullBuildQueue PackBuildQueue
  simp only [hparse, buildLoop_eq_push, Bool.false_and, Bool.not_false, Bool.and_true]
  rw [h1]

/-- C23, at the scenario: the builder's queue holds build orders for the
definitions 42, 43, 42, 99, 42 around a move order; the full build queue is
the five runs of length 1 and the number 5. -/
theorem GetFullBuildQueue_run_length_witness :
    (∃ runs : List (Int × Nat),
      GetFullBuildQueue (specLuaUtils (Scenario.builderWorld Scenario.unitBuilder))
          (Scenario.builderWorld Scenario.unitBuilder) Scenario.asTeam0 (.number 1)
        = .ok (some (luaArray (runs.map (fun r => [(LuaKey.int r.1, r.2)])), runs.length))
      ∧ runs.flatMap (fun r => List.replicate r.2 r.1)
        = (Scenario.unitBuilder.commandAI.commandQue.filter
            (fun cmd => decide (cmd.id < 0))).map (fun cmd => -cmd.id)
      ∧ (∀ r ∈ runs, 1 ≤ r.2)
      ∧ List.Chain' (fun a b : Int × Nat => a.1 ≠ b.1) runs)
    ∧ GetFullBuildQueue (specLuaUtils (Scenario.builderWorld Scenario.unitBuilder))
          (Scenario.builderWorld Scenario.unitBuilder) Scenario.asTeam0 (.number 1)
        = .ok (some ([(.int 1, [(.int 42, 1)]), (.int 2, [(.int 43, 1)]),
            (.int 3, [(.int 42, 1)]), (.int 4, [(.int 99, 1)]), (.int 5, [(.int 42, 1)])], 5)) :=
  ⟨GetFullBuildQueue_run_length (specLuaUtils (Scenario.builderWorld Scenario.unitBuilder))
      (Scenario.builderWorld Scenario.unitBuilder) Scenario.asTeam0 (.number 1)
      Scenario.unitBuilder rfl (by rfl) (by rfl),
    by rfl⟩

/-- The test of PackBuildQueue under `canBuild` is the removal of the spec on
build orders. -/
theorem skip_eq_specRemovedOrder (W : World) (unit : CUnit) (cmd : Command) :
    specRemovedOrder W unit cmd
      = (decide (cmd.id < 0) && PackBuildQueue.skip W unit (-cmd.id)) := by
  unfold specRemovedOrder PackBuildQueue.skip
  congr 1
  cases W.GetUnitDefByID (-cmd.id) with
  | none => rfl
  | some buildeeDef =>
    simp only
    congr 2
    funext e
    unfold STRCASECMP
    by_cases h : e.2.data.map Char.toLower = buildeeDef.name.data.map Char.toLower
    · simp [h]
    · simp [h]

/-- C24. GetRealBuildQueue equals GetFullBuildQueue on the filtered queue.
For every builder `unit` allied to the caller, and every unit `unit2` allied
to the caller (in a world `W2`) whose queue is the queue of `unit` from which
every build order has been removed whose buildee definition does not exist or
whose name matches, case-insensitively, no entry of the build-option list of
the definition of `unit`: GetRealBuildQueue on `unit` returns what
GetFullBuildQueue returns on `unit2`; so orders separated only by removed
entries are in one run. -/
theorem GetRealBuildQueue_eq_full_on_filtered (H : LuaUtils) (W W2 : World) (L : lua_State)
    (unitID : LuaValue) (unit unit2 : CUnit)
    (hnum : lua_isnumber L unitID = true)
    (hunit : W.GetUnit (lua_toint L unitID) = some unit)
    (hally : H.IsAllyUnit L unit = true)
    (hunit2 : W2.GetUnit (lua_toint L unitID) = some unit2)
    (hally2 : H.IsAllyUnit L unit2 = true)
    (hqueue : unit2.commandAI.commandQue
      = unit.commandAI.commandQue.filter (fun cmd => !specRemovedOrder W unit cmd)) :
    GetRealBuildQueue H W L unitID = GetFullBuildQueue H W2 L unitID := by
  have hparse : ParseAllyUnit H W L "GetRealBuildQueue" unitID 1 = .ok (some unit) := by
    simp [ParseAllyUnit, ParseRawUnit, hnum, hunit, hally]
  have hparse2 : ParseAllyUnit H W2 L "GetFullBuildQueue" unitID 1 = .ok (some unit2) := by
    simp [ParseAllyUnit, ParseRawUnit, hnum, hunit2, hally2]
  have hfilter : (unit.commandAI.commandQue.filter (fun cmd => !specRemovedOrder W unit cmd)).filter
        (fun cmd => decide (cmd.id < 0) && !(false && PackBuildQueue.skip W2 unit2 (-cmd.id)))
      = unit.commandAI.commandQue.filter (fun cmd => decide (cmd.id < 0)
          && !(true && PackBuildQueue.skip W unit (-cmd.id))) := by
    rw [List.filter_filter]
    apply List.filter_congr
    intro cmd _
    rw [skip_eq_specRemovedOrder]
    cases decide (cmd.id < 0) <;> cases PackBuildQueue.skip W unit (-cmd.id) <;> rfl
  unfold GetRealBuildQueue GetFullBuildQueue PackBuildQueue
  simp only [hparse, hparse2, buildLoop_eq_push]
  rw [hqueue, hfilter]

/-- C24, at the scenario: the builder can build definition 42 only (its
build option is spelled "ArmPW", the definition is named "armpw"); its real
build queue is the full build queue of the builder without the orders for the
definitions 43 and 99, the single run of three orders for definition 42. -/
theorem GetRealBuildQueue_eq_full_on_filtered_witness :
    GetRealBuildQueue (specLuaUtils (Scenario.builderWorld Scenario.unitBuilder))
        (Scenario.builderWorld Scenario.unitBuilder) Scenario.asTeam0 (.number 1)
      = GetFullBuildQueue (specLuaUtils (Scenario.builderWorld Scenario.unitBuilder))
        (Scenario.builderWorld Scenario.unitBuilderFiltered) Scenario.asTeam0 (.number 1)
    ∧ GetRealBuildQueue (specLuaUtils (Scenario.builderWorld Scenario.unitBuilder))
        (Scenario.builderWorld Scenario.unitBuilder) Scenario.asTeam0 (.number 1)
      = .ok (some ([(.int 1, [(.int 42, 3)])], 1)) :=
  ⟨GetRealBuildQueue_eq_full_on_filtered
      (specLuaUtils (Scenario.builderWorld Scenario.unitBuilder))
      (Scenario.builderWorld Scenario.unitBuilder)
      (Scenario.builderWorld Scenario.unitBuilderFiltered) Scenario.asTeam0 (.number 1)
      Scenario.unitBuilder Scenario.unitBuilderFiltered rfl (by rfl) (by rfl) (by rfl) (by rfl)
      (by rfl),
    by rfl⟩

/-! ## GetFactoryCounts -/

/-- C30, the failing inputs.  A factory allied to the caller holds one build
order, for definition 42.  With the default count GetFactoryCounts returns a
table whose field "n" is 2 and whose only run sits at the key 2; there is no
entry at the key 1.  For the factory with the two build orders 42 and 43 and
the count 1 the field "n" is 1 and the table holds no run at all. -/
theorem GetFactoryCounts_key_one_absent :
    GetFactoryCounts (specLuaUtils (Scenario.worldOf [Scenario.unitFactoryOne]))
        (Scenario.worldOf [Scenario.unitFactoryOne]) Scenario.asTeam0 (.number 1) (-1) false
      = .ok (some [(.int 2, .run [(.int 42, 1)]), (.str "n", .number 2)])
    ∧ LuaTable.rawget
        [(LuaKey.int 2, FactoryCountsValue.run [(.int 42, 1)]), (.str "n", .number 2)] (.int 1)
      = none
    ∧ GetFactoryCounts (specLuaUtils (Scenario.worldOf [Scenario.unitFactory]))
        (Scenario.worldOf [Scenario.unitFactory]) Scenario.asTeam0 (.number 1) 1 false
      = .ok (some [(.str "n", .number 1)]) :=
  ⟨by rfl, by rfl, by rfl⟩

/-! ## GetUnitPosErrorParams -/

/-- C26, the failing input.  The scenario has the two allyteams 0 and 1.  For
the argument allyTeamID = 2 = ActiveAllyTeams() the index passed to the
position-error-bit lookup is 2, which is not below ActiveAllyTeams(): the
eighth return value is the answer of the lookup at the index 2. -/
theorem GetUnitPosErrorParams_index_out_of_range :
    Scenario.world.ActiveAllyTeams = 2
      ∧ GetUnitPosErrorParams.argAllyTeam Scenario.world 2 = 2
      ∧ ¬ (GetUnitPosErrorParams.argAllyTeam Scenario.world 2 < Scenario.world.ActiveAllyTeams)
      ∧ GetUnitPosErrorParams (specLuaUtils (Scenario.worldOf [Scenario.unitPosError]))
          (Scenario.worldOf [Scenario.unitPosError]) Scenario.asTeam0 (.number 1) 2
        = .ok [.number 0, .number 0, .number 0, .number 0, .number 0, .number 0, .number 1,
            .boolean true]
      ∧ GetUnitPosErrorParams (specLuaUtils (Scenario.worldOf [Scenario.unitPosError]))
          (Scenario.worldOf [Scenario.unitPosError]) Scenario.asTeam0 (.number 1) 1
        = .ok [.number 0, .number 0, .number 0, .number 0, .number 0, .number 0, .number 1,
            .boolean false] :=
  ⟨rfl, by decide, by decide, by rfl, by rfl⟩

/-! ## GetTeamStatsHistory -/

/-- The unit loop of the allied branch of GetTeamUnitsSorted does not read the
buffer gtuObjectIDs and leaves it as it is. -/
theorem sortedUnitLoop_frame (units : List CUnit) (g : List Int) :
    ∀ st : GetTeamUnitsSorted.State,
      units.foldl
          (fun (st : GetTeamUnitsSorted.State) (unit : CUnit) =>
            { st with
              stack := SortedValue.rawseti (.number unit.id :: st.stack) st.unitCount
              unitCount := st.unitCount + 1 })
          { st with gtuObjectIDs := g }
        = { units.foldl
              (fun (st : GetTeamUnitsSorted.State) (unit : CUnit) =>
                { st with
                  stack := SortedValue.rawseti (.number unit.id :: st.stack) st.unitCount
                  unitCount := st.unitCount + 1 })
              st with gtuObjectIDs := g } := by
  induction units with
  | nil => intro st; rfl
  | cons u us ih =>
    intro st
    rw [List.foldl_cons, List.foldl_cons]
    exact ih
      { st with
        stack := SortedValue.rawseti (.number u.id :: st.stack) st.unitCount
        unitCount := st.unitCount + 1 }

/-- One iteration of the allied loop of GetTeamUnitsSorted does not read the
buffer gtuObjectIDs and leaves it as it is. -/
theorem sortedAllyStep_frame (W : World) (teamID : Int) (g : List Int)
    (st : GetTeamUnitsSorted.State) (i : Nat) :
    GetTeamUnitsSorted.allyStep W teamID { st with gtuObjectIDs := g } i
      = { GetTeamUnitsSorted.allyStep W teamID st i with gtuObjectIDs := g } := by
  unfold GetTeamUnitsSorted.allyStep
  by_cases h : (W.GetUnitsByTeamAndDef teamID (i + 1)).isEmpty = true
  · simp only [h, if_true]
  · simp only [h, Bool.false_eq_true, if_false]
    have := sortedUnitLoop_frame (W.GetUnitsByTeamAndDef teamID (i + 1)) g
      { st with
        stack := .table [] :: .number ((i + 1 : Nat) : Int) :: st.stack
        defCount := st.defCount + 1 }
    simp only at this
    rw [this]

/-- The allied loop of GetTeamUnitsSorted does not read the buffer
gtuObjectIDs and leaves it as it is. -/
theorem sortedAllyLoop_frame (W : World) (teamID : Int) (g : List Int) (defs : List Nat) :
    ∀ st : GetTeamUnitsSorted.State,
      defs.foldl (GetTeamUnitsSorted.allyStep W teamID) { st with gtuObjectIDs := g }
        = { defs.foldl (GetTeamUnitsSorted.allyStep W teamID) st with gtuObjectIDs := g } := by
  induction defs with
  | nil => intro st; rfl
  | cons i rest ih =>
    intro st
    rw [List.foldl_cons, List.foldl_cons, sortedAllyStep_frame, ih]

/-- The value returned by GetTeamUnitsSorted does not depend on the static
buffers. -/
theorem GetTeamUnitsSorted_frame (H : LuaUtils) (W : World) (L : lua_State) (teamID : Int)
    (S S2 : Statics) :
    (GetTeamUnitsSorted H W L teamID S).1 = (GetTeamUnitsSorted H W L teamID S2).1 := by
  unfold GetTeamUnitsSorted
  by_cases hno : L.readAllyTeam = CEventClient.NoAccessTeam
  · simp only [hno, if_true]
  · simp only [hno, if_false]
    cases ParseTeam W "GetTeamUnitsSorted" teamID with
    | error e => rfl
    | ok team =>
      simp only
      by_cases hally : H.IsAlliedTeam L team.teamNum = true
      · simp only [hally, if_true]
        have h1 := sortedAllyLoop_frame W team.teamNum S.gtuObjectIDs (List.range W.NumUnitDefs)
          { stack := [.table []], gtuObjectIDs := [], unitCount := 1, defCount := 0 }
        have h2 := sortedAllyLoop_frame W team.teamNum S2.gtuObjectIDs (List.range W.NumUnitDefs)
          { stack := [.table []], gtuObjectIDs := [], unitCount := 1, defCount := 0 }
        simp only at h1 h2
        rw [h1, h2]
      · simp only [hally, Bool.false_eq_true, if_false]

/-- The value returned by GetTeamUnitsCounts does not depend on the static
buffers. -/
theorem GetTeamUnitsCounts_frame (H : LuaUtils) (W : World) (L : lua_State) (teamID : Int)
    (S S2 : Statics) :
    (GetTeamUnitsCounts H W L teamID S).1 = (GetTeamUnitsCounts H W L teamID S2).1 := by
  unfold GetTeamUnitsCounts
  by_cases hno : L.readAllyTeam = CEventClient.NoAccessTeam
  · simp only [hno, if_true]
  · simp only [hno, if_false]
    cases ParseTeam W "GetTeamUnitsCounts" teamID with
    | error e => rfl
    | ok team =>
      simp only
      by_cases hally : H.IsAlliedTeam L team.teamNum = true
      · simp only [hally, if_true]
      · simp only [hally, Bool.false_eq_true, if_false]

/-- The value returned by GetTeamUnitsByDefs does not depend on the static
buffers. -/
theorem GetTeamUnitsByDefs_frame (H : LuaUtils) (W : World) (L : lua_State) (teamID : Int)
    (unitDefIDs : UnitDefsArg) (S S2 : Statics) :
    (GetTeamUnitsByDefs H W L teamID unitDefIDs S).1
      = (GetTeamUnitsByDefs H W L teamID unitDefIDs S2).1 := by
  unfold GetTeamUnitsByDefs
  by_cases hno : L.readAllyTeam = CEventClient.NoAccessTeam
  · simp only [hno, if_true]
  · simp only [hno, if_false]
    cases ParseTeam W "GetTeamUnitsByDefs" teamID with
    | error e => rfl
    | ok team =>
      simp only
      split <;> rfl

/-- C27. Idempotence within a tick of the team aggregate queries.  For every
world, caller context and arguments, the results of GetTeamUnitsCounts,
GetTeamUnitsSorted and GetTeamUnitsByDefs are the same from any two states
`S` and `S2` of the static buffers gtuObjectIDs and gtuDefCounts; in
particular a call returns the same as the same call made right before it, and
the same as when any other of the three queries, with any arguments, has run
before it. -/
theorem team_queries_ignore_statics (H : LuaUtils) (W : World) (L : lua_State)
    (teamID teamID2 : Int) (unitDefIDs unitDefIDs2 : UnitDefsArg) (S S2 : Statics) :
    ((GetTeamUnitsCounts H W L teamID S).1 = (GetTeamUnitsCounts H W L teamID S2).1
      ∧ (GetTeamUnitsSorted H W L teamID S).1 = (GetTeamUnitsSorted H W L teamID S2).1
      ∧ (GetTeamUnitsByDefs H W L teamID unitDefIDs S).1
        = (GetTeamUnitsByDefs H W L teamID unitDefIDs S2).1)
    ∧ ((GetTeamUnitsCounts H W L teamID (GetTeamUnitsCounts H W L teamID S).2).1
        = (GetTeamUnitsCounts H W L teamID S).1
      ∧ (GetTeamUnitsSorted H W L teamID (GetTeamUnitsSorted H W L teamID S).2).1
        = (GetTeamUnitsSorted H W L teamID S).1
      ∧ (GetTeamUnitsByDefs H W L teamID unitDefIDs
          (GetTeamUnitsByDefs H W L teamID unitDefIDs S).2).1
        = (GetTeamUnitsByDefs H W L teamID unitDefIDs S).1)
    ∧ ((GetTeamUnitsCounts H W L teamID (GetTeamUnitsSorted H W L teamID2 S).2).1
        = (GetTeamUnitsCounts H W L teamID S).1
      ∧ (GetTeamUnitsCounts H W L teamID (GetTeamUnitsByDefs H W L teamID2 unitDefIDs2 S).2).1
        = (GetTeamUnitsCounts H W L teamID S).1
      ∧ (GetTeamUnitsSorted H W L teamID (GetTeamUnitsCounts H W L teamID2 S).2).1
        = (GetTeamUnitsSorted H W L teamID S).1
      ∧ (GetTeamUnitsSorted H W L teamID (GetTeamUnitsByDefs H W L teamID2 unitDefIDs2 S).2).1
        = (GetTeamUnitsSorted H W L teamID S).1
      ∧ (GetTeamUnitsByDefs H W L teamID unitDefIDs (GetTeamUnitsCounts H W L teamID2 S).2).1
        = (GetTeamUnitsByDefs H W L teamID unitDefIDs S).1
      ∧ (GetTeamUnitsByDefs H W L teamID unitDefIDs (GetTeamUnitsSorted H W L teamID2 S).2).1
        = (GetTeamUnitsByDefs H W L teamID unitDefIDs S).1) :=
  ⟨⟨GetTeamUnitsCounts_frame H W L teamID S S2, GetTeamUnitsSorted_frame H W L teamID S S2,
      GetTeamUnitsByDefs_frame H W L teamID unitDefIDs S S2⟩,
    ⟨GetTeamUnitsCounts_frame H W L teamID _ S, GetTeamUnitsSorted_frame H W L teamID _ S,
      GetTeamUnitsByDefs_frame H W L teamID unitDefIDs _ S⟩,
    ⟨GetTeamUnitsCounts_frame H W L teamID _ S, GetTeamUnitsCounts_frame H W L teamID _ S,
      GetTeamUnitsSorted_frame H W L teamID _ S, GetTeamUnitsSorted_frame H W L teamID _ S,
      GetTeamUnitsByDefs_frame H W L teamID unitDefIDs _ S,
      GetTeamUnitsByDefs_frame H W L teamID unitDefIDs _ S⟩⟩

/-! ## GetTeamUnitsSorted: the keys of the buckets -/

/-- C28, the failing input.  Team 0 owns unit 1, of definition 42, and unit 9,
of definition 43; the caller reads as team 0.  GetTeamUnitsSorted returns the
table with the bucket `{[1] = 1}` for definition 42, the bucket `{[2] = 9}` for
definition 43 and "n" = 2: the bucket of the second definition holds its one
unit ID at the key 2 and nothing at the key 1. -/
theorem GetTeamUnitsSorted_second_bucket_not_one_based :
    (GetTeamUnitsSorted (specLuaUtils Scenario.sortedWorld) Scenario.sortedWorld
        Scenario.asTeam0 0 Scenario.noStatics).1
      = .ok (some (.table
          [(.int 42, .table [(.int 1, .number 1)]),
            (.int 43, .table [(.int 2, .number 9)]),
            (.str "n", .number 2)]))
    ∧ LuaTable.rawget [(LuaKey.int 2, SortedValue.number 9)] (.int 1) = none :=
  ⟨by rfl, by rfl⟩

/-! ## The two per-definition counts of an enemy team -/

/-- C29, the failing input.  Team 1 owns unit 7, of definition 42 (no decoy),
whose visibility status for allyteam 0 has PREV_LOS and CONTINUOUS_RADAR set
and IN_LOS and IN_RADAR unset; the caller reads as team 0, which is not allied
with team 1.  GetTeamUnitDefCount(1, 42) is 1; the table of
GetTeamUnitsCounts(1) has no key 42, it holds "n" = 0 only. -/
theorem enemy_def_counts_disagree :
    Scenario.def42.decoyDef = none
    ∧ (specLuaUtils (Scenario.worldOf [Scenario.unitTyped])).IsAlliedTeam Scenario.asTeam0 1 = false
    ∧ GetTeamUnitDefCount (specLuaUtils (Scenario.worldOf [Scenario.unitTyped]))
        (Scenario.worldOf [Scenario.unitTyped]) Scenario.asTeam0 1 42 = .ok [.number 1]
    ∧ (GetTeamUnitsCounts (specLuaUtils (Scenario.worldOf [Scenario.unitTyped]))
        (Scenario.worldOf [Scenario.unitTyped]) Scenario.asTeam0 1 Scenario.noStatics).1
      = .ok (some [(.str "n", 0)])
    ∧ LuaTable.rawget [(LuaKey.str "n", 0)] (.int 42) = none :=
  ⟨rfl, by rfl, by rfl, by rfl, by rfl⟩

end Spring
